import Mathlib

/-! The mbedTLS crypto provider of OP-TEE (`core/lib/libmbedtls/src/tee_lmd_provider.c`)

A shallow embedding of the dispatch and context-lifecycle code of the provider.

* Algorithm identifiers are `uint32_t` values, here natural numbers.
* A context is a heap block; `Option Blob` is a pointer to one (`none` is `NULL`,
  `some b` points to a block whose bytes are `b`).
* Compile-time switches (`#if defined(CFG_...)`) are the fields of `Config`; a `case`
  label under a switch that is off does not exist, so the identifier reaches `default`.
* The mbedTLS library is external: its routines are the fields of `Backend`.  Every
  call of a routine that receives the context, and every `calloc`/`free`, is recorded
  in order in a list of `Call`s.
* `assert` is modelled as active: a failing assertion ends the run with
  `Outcome.assert_fail`.
-/

namespace LmdProvider

/-- Bytes of a memory block. -/
abbrev Blob := List Nat

/-- The `TEE_Result` codes the provider returns. -/
inductive TEE_Result
  | TEE_SUCCESS
  | TEE_ERROR_GENERIC
  | TEE_ERROR_BAD_PARAMETERS
  | TEE_ERROR_BAD_STATE
  | TEE_ERROR_NOT_SUPPORTED
  | TEE_ERROR_NOT_IMPLEMENTED
  | TEE_ERROR_OUT_OF_MEMORY
  | TEE_ERROR_SHORT_BUFFER
  | TEE_ERROR_SECURITY
  deriving DecidableEq, Repr

open TEE_Result

/-- The `TEE_OperationMode` values used by the cipher engine. -/
inductive TEE_OperationMode
  | TEE_MODE_ENCRYPT
  | TEE_MODE_DECRYPT
  deriving DecidableEq, Repr

/-! ## Algorithm identifiers

Modelled from the spec: `utee_defines.h` is not among the sources; the spec speaks of
"a fixed well-known numeric namespace", and the values below are those of the
GlobalPlatform TEE Internal Core API. -/

/-- Modelled from the spec: identifier `TEE_ALG_AES_ECB_NOPAD` of `utee_defines.h`. -/
abbrev TEE_ALG_AES_ECB_NOPAD : Nat := 0x10000010
/-- Modelled from the spec: identifier `TEE_ALG_AES_CBC_NOPAD` of `utee_defines.h`. -/
abbrev TEE_ALG_AES_CBC_NOPAD : Nat := 0x10000110
/-- Modelled from the spec: identifier `TEE_ALG_AES_CTR` of `utee_defines.h`. -/
abbrev TEE_ALG_AES_CTR : Nat := 0x10000210
/-- Modelled from the spec: identifier `TEE_ALG_AES_CTS` of `utee_defines.h`. -/
abbrev TEE_ALG_AES_CTS : Nat := 0x10000310
/-- Modelled from the spec: identifier `TEE_ALG_AES_XTS` of `utee_defines.h`. -/
abbrev TEE_ALG_AES_XTS : Nat := 0x10000410
/-- Modelled from the spec: identifier `TEE_ALG_AES_CBC_MAC_NOPAD` of `utee_defines.h`. -/
abbrev TEE_ALG_AES_CBC_MAC_NOPAD : Nat := 0x30000110
/-- Modelled from the spec: identifier `TEE_ALG_AES_CBC_MAC_PKCS5` of `utee_defines.h`. -/
abbrev TEE_ALG_AES_CBC_MAC_PKCS5 : Nat := 0x30000510
/-- Modelled from the spec: identifier `TEE_ALG_AES_CMAC` of `utee_defines.h`. -/
abbrev TEE_ALG_AES_CMAC : Nat := 0x30000610
/-- Modelled from the spec: identifier `TEE_ALG_AES_CCM` of `utee_defines.h`. -/
abbrev TEE_ALG_AES_CCM : Nat := 0x40000710
/-- Modelled from the spec: identifier `TEE_ALG_AES_GCM` of `utee_defines.h`. -/
abbrev TEE_ALG_AES_GCM : Nat := 0x40000810
/-- Modelled from the spec: identifier `TEE_ALG_DES_ECB_NOPAD` of `utee_defines.h`. -/
abbrev TEE_ALG_DES_ECB_NOPAD : Nat := 0x10000011
/-- Modelled from the spec: identifier `TEE_ALG_DES_CBC_NOPAD` of `utee_defines.h`. -/
abbrev TEE_ALG_DES_CBC_NOPAD : Nat := 0x10000111
/-- Modelled from the spec: identifier `TEE_ALG_DES_CBC_MAC_NOPAD` of `utee_defines.h`. -/
abbrev TEE_ALG_DES_CBC_MAC_NOPAD : Nat := 0x30000111
/-- Modelled from the spec: identifier `TEE_ALG_DES_CBC_MAC_PKCS5` of `utee_defines.h`. -/
abbrev TEE_ALG_DES_CBC_MAC_PKCS5 : Nat := 0x30000511
/-- Modelled from the spec: identifier `TEE_ALG_DES3_ECB_NOPAD` of `utee_defines.h`. -/
abbrev TEE_ALG_DES3_ECB_NOPAD : Nat := 0x10000013
/-- Modelled from the spec: identifier `TEE_ALG_DES3_CBC_NOPAD` of `utee_defines.h`. -/
abbrev TEE_ALG_DES3_CBC_NOPAD : Nat := 0x10000113
/-- Modelled from the spec: identifier `TEE_ALG_DES3_CBC_MAC_NOPAD` of `utee_defines.h`. -/
abbrev TEE_ALG_DES3_CBC_MAC_NOPAD : Nat := 0x30000113
/-- Modelled from the spec: identifier `TEE_ALG_DES3_CBC_MAC_PKCS5` of `utee_defines.h`. -/
abbrev TEE_ALG_DES3_CBC_MAC_PKCS5 : Nat := 0x30000513
/-- Modelled from the spec: identifier `TEE_ALG_MD5` of `utee_defines.h`. -/
abbrev TEE_ALG_MD5 : Nat := 0x50000001
/-- Modelled from the spec: identifier `TEE_ALG_SHA1` of `utee_defines.h`. -/
abbrev TEE_ALG_SHA1 : Nat := 0x50000002
/-- Modelled from the spec: identifier `TEE_ALG_SHA224` of `utee_defines.h`. -/
abbrev TEE_ALG_SHA224 : Nat := 0x50000003
/-- Modelled from the spec: identifier `TEE_ALG_SHA256` of `utee_defines.h`. -/
abbrev TEE_ALG_SHA256 : Nat := 0x50000004
/-- Modelled from the spec: identifier `TEE_ALG_SHA384` of `utee_defines.h`. -/
abbrev TEE_ALG_SHA384 : Nat := 0x50000005
/-- Modelled from the spec: identifier `TEE_ALG_SHA512` of `utee_defines.h`. -/
abbrev TEE_ALG_SHA512 : Nat := 0x50000006
/-- Modelled from the spec: identifier `TEE_ALG_HMAC_MD5` of `utee_defines.h`. -/
abbrev TEE_ALG_HMAC_MD5 : Nat := 0x30000001
/-- Modelled from the spec: identifier `TEE_ALG_HMAC_SHA1` of `utee_defines.h`. -/
abbrev TEE_ALG_HMAC_SHA1 : Nat := 0x30000002
/-- Modelled from the spec: identifier `TEE_ALG_HMAC_SHA224` of `utee_defines.h`. -/
abbrev TEE_ALG_HMAC_SHA224 : Nat := 0x30000003
/-- Modelled from the spec: identifier `TEE_ALG_HMAC_SHA256` of `utee_defines.h`. -/
abbrev TEE_ALG_HMAC_SHA256 : Nat := 0x30000004
/-- Modelled from the spec: identifier `TEE_ALG_HMAC_SHA384` of `utee_defines.h`. -/
abbrev TEE_ALG_HMAC_SHA384 : Nat := 0x30000005
/-- Modelled from the spec: identifier `TEE_ALG_HMAC_SHA512` of `utee_defines.h`. -/
abbrev TEE_ALG_HMAC_SHA512 : Nat := 0x30000006
/-- Modelled from the spec: identifier `TEE_ALG_RSASSA_PKCS1_V1_5_MD5` of `utee_defines.h`. -/
abbrev TEE_ALG_RSASSA_PKCS1_V1_5_MD5 : Nat := 0x70001830
/-- Modelled from the spec: identifier `TEE_ALG_RSASSA_PKCS1_V1_5_SHA1` of `utee_defines.h`. -/
abbrev TEE_ALG_RSASSA_PKCS1_V1_5_SHA1 : Nat := 0x70002830
/-- Modelled from the spec: identifier `TEE_ALG_RSASSA_PKCS1_V1_5_SHA224` of `utee_defines.h`. -/
abbrev TEE_ALG_RSASSA_PKCS1_V1_5_SHA224 : Nat := 0x70003830
/-- Modelled from the spec: identifier `TEE_ALG_RSASSA_PKCS1_V1_5_SHA256` of `utee_defines.h`. -/
abbrev TEE_ALG_RSASSA_PKCS1_V1_5_SHA256 : Nat := 0x70004830
/-- Modelled from the spec: identifier `TEE_ALG_RSASSA_PKCS1_V1_5_SHA384` of `utee_defines.h`. -/
abbrev TEE_ALG_RSASSA_PKCS1_V1_5_SHA384 : Nat := 0x70005830
/-- Modelled from the spec: identifier `TEE_ALG_RSASSA_PKCS1_V1_5_SHA512` of `utee_defines.h`. -/
abbrev TEE_ALG_RSASSA_PKCS1_V1_5_SHA512 : Nat := 0x70006830
/-- Modelled from the spec: identifier `TEE_ALG_RSASSA_PKCS1_PSS_MGF1_SHA1` of `utee_defines.h`. -/
abbrev TEE_ALG_RSASSA_PKCS1_PSS_MGF1_SHA1 : Nat := 0x70212930
/-- Modelled from the spec: identifier `TEE_ALG_RSASSA_PKCS1_PSS_MGF1_SHA224` of `utee_defines.h`. -/
abbrev TEE_ALG_RSASSA_PKCS1_PSS_MGF1_SHA224 : Nat := 0x70313930
/-- Modelled from the spec: identifier `TEE_ALG_RSASSA_PKCS1_PSS_MGF1_SHA256` of `utee_defines.h`. -/
abbrev TEE_ALG_RSASSA_PKCS1_PSS_MGF1_SHA256 : Nat := 0x70414930
/-- Modelled from the spec: identifier `TEE_ALG_RSASSA_PKCS1_PSS_MGF1_SHA384` of `utee_defines.h`. -/
abbrev TEE_ALG_RSASSA_PKCS1_PSS_MGF1_SHA384 : Nat := 0x70515930
/-- Modelled from the spec: identifier `TEE_ALG_RSASSA_PKCS1_PSS_MGF1_SHA512` of `utee_defines.h`. -/
abbrev TEE_ALG_RSASSA_PKCS1_PSS_MGF1_SHA512 : Nat := 0x70616930
/-- Modelled from the spec: identifier `TEE_ALG_RSAES_PKCS1_V1_5` of `utee_defines.h`. -/
abbrev TEE_ALG_RSAES_PKCS1_V1_5 : Nat := 0x60000130
/-- Modelled from the spec: identifier `TEE_ALG_RSAES_PKCS1_OAEP_MGF1_SHA1` of `utee_defines.h`. -/
abbrev TEE_ALG_RSAES_PKCS1_OAEP_MGF1_SHA1 : Nat := 0x60210230
/-- Modelled from the spec: identifier `TEE_ALG_RSAES_PKCS1_OAEP_MGF1_SHA224` of `utee_defines.h`. -/
abbrev TEE_ALG_RSAES_PKCS1_OAEP_MGF1_SHA224 : Nat := 0x60310230
/-- Modelled from the spec: identifier `TEE_ALG_RSAES_PKCS1_OAEP_MGF1_SHA256` of `utee_defines.h`. -/
abbrev TEE_ALG_RSAES_PKCS1_OAEP_MGF1_SHA256 : Nat := 0x60410230
/-- Modelled from the spec: identifier `TEE_ALG_RSAES_PKCS1_OAEP_MGF1_SHA384` of `utee_defines.h`. -/
abbrev TEE_ALG_RSAES_PKCS1_OAEP_MGF1_SHA384 : Nat := 0x60510230
/-- Modelled from the spec: identifier `TEE_ALG_RSAES_PKCS1_OAEP_MGF1_SHA512` of `utee_defines.h`. -/
abbrev TEE_ALG_RSAES_PKCS1_OAEP_MGF1_SHA512 : Nat := 0x60610230
/-- Modelled from the spec: identifier `TEE_ALG_DSA_SHA1` of `utee_defines.h`. -/
abbrev TEE_ALG_DSA_SHA1 : Nat := 0x70002131
/-- Modelled from the spec: identifier `TEE_ALG_DSA_SHA224` of `utee_defines.h`. -/
abbrev TEE_ALG_DSA_SHA224 : Nat := 0x70003131
/-- Modelled from the spec: identifier `TEE_ALG_DSA_SHA256` of `utee_defines.h`. -/
abbrev TEE_ALG_DSA_SHA256 : Nat := 0x70004131

/-- Modelled from the spec: `TEE_MAX_HASH_SIZE` of `utee_defines.h`, the "fixed maximum
(64 bytes)" of the hash engine's scratch buffer. -/
abbrev TEE_MAX_HASH_SIZE : Nat := 64

/-- The compile-time switches the provider tests with `#if defined(...)`. -/
structure Config where
  CFG_CRYPTO_AES : Bool
  CFG_CRYPTO_DES : Bool
  CFG_CRYPTO_ECB : Bool
  CFG_CRYPTO_CBC : Bool
  CFG_CRYPTO_CTR : Bool
  CFG_CRYPTO_XTS : Bool
  CFG_CRYPTO_CTS : Bool
  CFG_CRYPTO_HMAC : Bool
  CFG_CRYPTO_CBC_MAC : Bool
  CFG_CRYPTO_CMAC : Bool
  CFG_CRYPTO_MD5 : Bool
  CFG_CRYPTO_SHA1 : Bool
  CFG_CRYPTO_SHA224 : Bool
  CFG_CRYPTO_SHA256 : Bool
  CFG_CRYPTO_SHA384 : Bool
  CFG_CRYPTO_SHA512 : Bool
  deriving DecidableEq, Repr

/-- The external routines whose calls are recorded: the allocator and the mbedTLS
routines that receive a context. -/
inductive Call
  | calloc (size : Nat)
  | free
  | mbedtls_sha1_finish
  | mbedtls_md5_finish
  | mbedtls_sha256_finish
  | mbedtls_sha512_finish
  | mbedtls_cipher_init
  | mbedtls_cipher_setup
  | mbedtls_cipher_free
  | mbedtls_cipher_setup_info
  | mbedtls_cipher_setkey
  | mbedtls_cipher_set_iv
  | mbedtls_cipher_reset
  | mbedtls_cipher_get_block_size
  | mbedtls_cipher_update
  | mbedtls_cipher_finish
  | mbedtls_md_init
  | mbedtls_md_setup
  | mbedtls_md_free
  | mbedtls_md_hmac_reset
  | mbedtls_md_hmac_starts
  | mbedtls_md_hmac_update
  | mbedtls_md_hmac_finish
  | mbedtls_cipher_cmac_setup
  | mbedtls_cipher_cmac_reset
  | mbedtls_cipher_cmac_starts
  | mbedtls_cipher_cmac_update
  | mbedtls_cipher_cmac_finish
  | mbedtls_aes_init
  | mbedtls_aes_setkey_enc
  | mbedtls_aes_free
  | mbedtls_sha1_init
  | mbedtls_sha1_starts
  | mbedtls_sha1_update
  | mbedtls_md5_init
  | mbedtls_md5_starts
  | mbedtls_md5_update
  | mbedtls_sha256_init
  | mbedtls_sha256_starts
  | mbedtls_sha256_update
  | mbedtls_sha512_init
  | mbedtls_sha512_starts
  | mbedtls_sha512_update
  | mbedtls_ctr_drbg_init
  | mbedtls_ctr_drbg_seed
  | mbedtls_ctr_drbg_random
  | mbedtls_ctr_drbg_free
  | mbedtls_hmac_drbg_init
  | mbedtls_hmac_drbg_seed
  | mbedtls_hmac_drbg_random
  | mbedtls_hmac_drbg_free
  | mbedtls_entropy_init
  | mbedtls_entropy_update_manual
  | mbedtls_entropy_free
  deriving Repr

/-- A number for each recorded routine, with the size for `calloc`. -/
def Call.code : Call → Nat × Nat
  | .calloc size => (0, size)
  | .free => (1, 0)
  | .mbedtls_sha1_finish => (2, 0)
  | .mbedtls_md5_finish => (3, 0)
  | .mbedtls_sha256_finish => (4, 0)
  | .mbedtls_sha512_finish => (5, 0)
  | .mbedtls_cipher_init => (6, 0)
  | .mbedtls_cipher_setup => (7, 0)
  | .mbedtls_cipher_free => (8, 0)
  | .mbedtls_cipher_setup_info => (9, 0)
  | .mbedtls_cipher_setkey => (10, 0)
  | .mbedtls_cipher_set_iv => (11, 0)
  | .mbedtls_cipher_reset => (12, 0)
  | .mbedtls_cipher_get_block_size => (13, 0)
  | .mbedtls_cipher_update => (14, 0)
  | .mbedtls_cipher_finish => (15, 0)
  | .mbedtls_md_init => (16, 0)
  | .mbedtls_md_setup => (17, 0)
  | .mbedtls_md_free => (18, 0)
  | .mbedtls_md_hmac_reset => (19, 0)
  | .mbedtls_md_hmac_starts => (20, 0)
  | .mbedtls_md_hmac_update => (21, 0)
  | .mbedtls_md_hmac_finish => (22, 0)
  | .mbedtls_cipher_cmac_setup => (23, 0)
  | .mbedtls_cipher_cmac_reset => (24, 0)
  | .mbedtls_cipher_cmac_starts => (25, 0)
  | .mbedtls_cipher_cmac_update => (26, 0)
  | .mbedtls_cipher_cmac_finish => (27, 0)
  | .mbedtls_aes_init => (28, 0)
  | .mbedtls_aes_setkey_enc => (29, 0)
  | .mbedtls_aes_free => (30, 0)
  | .mbedtls_sha1_init => (31, 0)
  | .mbedtls_sha1_starts => (32, 0)
  | .mbedtls_sha1_update => (33, 0)
  | .mbedtls_md5_init => (34, 0)
  | .mbedtls_md5_starts => (35, 0)
  | .mbedtls_md5_update => (36, 0)
  | .mbedtls_sha256_init => (37, 0)
  | .mbedtls_sha256_starts => (38, 0)
  | .mbedtls_sha256_update => (39, 0)
  | .mbedtls_sha512_init => (40, 0)
  | .mbedtls_sha512_starts => (41, 0)
  | .mbedtls_sha512_update => (42, 0)
  | .mbedtls_ctr_drbg_init => (43, 0)
  | .mbedtls_ctr_drbg_seed => (44, 0)
  | .mbedtls_ctr_drbg_random => (45, 0)
  | .mbedtls_ctr_drbg_free => (46, 0)
  | .mbedtls_hmac_drbg_init => (47, 0)
  | .mbedtls_hmac_drbg_seed => (48, 0)
  | .mbedtls_hmac_drbg_random => (49, 0)
  | .mbedtls_hmac_drbg_free => (50, 0)
  | .mbedtls_entropy_init => (51, 0)
  | .mbedtls_entropy_update_manual => (52, 0)
  | .mbedtls_entropy_free => (53, 0)

/-- The routine a number stands for. -/
def Call.decode : Nat × Nat → Option Call
  | (0, size) => some (.calloc size)
  | (1, _) => some .free
  | (2, _) => some .mbedtls_sha1_finish
  | (3, _) => some .mbedtls_md5_finish
  | (4, _) => some .mbedtls_sha256_finish
  | (5, _) => some .mbedtls_sha512_finish
  | (6, _) => some .mbedtls_cipher_init
  | (7, _) => some .mbedtls_cipher_setup
  | (8, _) => some .mbedtls_cipher_free
  | (9, _) => some .mbedtls_cipher_setup_info
  | (10, _) => some .mbedtls_cipher_setkey
  | (11, _) => some .mbedtls_cipher_set_iv
  | (12, _) => some .mbedtls_cipher_reset
  | (13, _) => some .mbedtls_cipher_get_block_size
  | (14, _) => some .mbedtls_cipher_update
  | (15, _) => some .mbedtls_cipher_finish
  | (16, _) => some .mbedtls_md_init
  | (17, _) => some .mbedtls_md_setup
  | (18, _) => some .mbedtls_md_free
  | (19, _) => some .mbedtls_md_hmac_reset
  | (20, _) => some .mbedtls_md_hmac_starts
  | (21, _) => some .mbedtls_md_hmac_update
  | (22, _) => some .mbedtls_md_hmac_finish
  | (23, _) => some .mbedtls_cipher_cmac_setup
  | (24, _) => some .mbedtls_cipher_cmac_reset
  | (25, _) => some .mbedtls_cipher_cmac_starts
  | (26, _) => some .mbedtls_cipher_cmac_update
  | (27, _) => some .mbedtls_cipher_cmac_finish
  | (28, _) => some .mbedtls_aes_init
  | (29, _) => some .mbedtls_aes_setkey_enc
  | (30, _) => some .mbedtls_aes_free
  | (31, _) => some .mbedtls_sha1_init
  | (32, _) => some .mbedtls_sha1_starts
  | (33, _) => some .mbedtls_sha1_update
  | (34, _) => some .mbedtls_md5_init
  | (35, _) => some .mbedtls_md5_starts
  | (36, _) => some .mbedtls_md5_update
  | (37, _) => some .mbedtls_sha256_init
  | (38, _) => some .mbedtls_sha256_starts
  | (39, _) => some .mbedtls_sha256_update
  | (40, _) => some .mbedtls_sha512_init
  | (41, _) => some .mbedtls_sha512_starts
  | (42, _) => some .mbedtls_sha512_update
  | (43, _) => some .mbedtls_ctr_drbg_init
  | (44, _) => some .mbedtls_ctr_drbg_seed
  | (45, _) => some .mbedtls_ctr_drbg_random
  | (46, _) => some .mbedtls_ctr_drbg_free
  | (47, _) => some .mbedtls_hmac_drbg_init
  | (48, _) => some .mbedtls_hmac_drbg_seed
  | (49, _) => some .mbedtls_hmac_drbg_random
  | (50, _) => some .mbedtls_hmac_drbg_free
  | (51, _) => some .mbedtls_entropy_init
  | (52, _) => some .mbedtls_entropy_update_manual
  | (53, _) => some .mbedtls_entropy_free
  | _ => none

/-- Decoding the number of a routine gives the routine back. -/
theorem Call.decode_code (c : Call) : Call.decode c.code = some c := by
  cases c <;> rfl

/-- Equality of two recorded calls, decided on their numbers. -/
instance : DecidableEq Call := fun a b =>
  if h : a.code = b.code then
    isTrue (Option.some.inj (by rw [← Call.decode_code a, ← Call.decode_code b, h]))
  else
    isFalse (fun hab => h (congrArg Call.code hab))

/-- The `mbedtls_aes_context` fields the key-schedule helper reads: the round count
`nr` and the key-schedule storage `buf` (as bytes). -/
structure mbedtls_aes_context where
  nr : Nat
  buf : Blob
  deriving DecidableEq, Repr

/-- The mbedTLS library and the sizes of its types, which are not part of the provider.
A descriptor pointer (`const mbedtls_cipher_info_t *`, `const mbedtls_md_info_t *`) is
`Option Nat`, `none` being `NULL`.  A routine with an `int` status returns it first; a
routine that writes bytes through an output pointer returns those bytes. -/
structure Backend where
  sizeof_mbedtls_md5_context : Nat
  sizeof_mbedtls_sha1_context : Nat
  sizeof_mbedtls_sha256_context : Nat
  sizeof_mbedtls_sha512_context : Nat
  sizeof_mbedtls_cipher_context_t : Nat
  sizeof_mbedtls_md_context_t : Nat
  sizeof_aes_buf : Nat
  MBEDTLS_KEY_LENGTH_DES : Nat
  MBEDTLS_KEY_LENGTH_DES_EDE : Nat
  mbedtls_cipher_info_from_string : String → Option Nat
  mbedtls_md_info_from_string : String → Option Nat
  mbedtls_sha1_finish : Blob → Blob × Blob
  mbedtls_md5_finish : Blob → Blob × Blob
  mbedtls_sha256_finish : Blob → Blob × Blob
  mbedtls_sha512_finish : Blob → Blob × Blob
  mbedtls_cipher_init : Blob → Blob
  mbedtls_cipher_setup : Blob → Nat → Int × Blob
  mbedtls_cipher_setup_info : Blob → Nat → Int × Blob
  mbedtls_cipher_setkey : Blob → Blob → Nat → Bool → Int × Blob
  mbedtls_cipher_set_iv : Blob → Blob → Nat → Int × Blob
  mbedtls_cipher_reset : Blob → Int × Blob
  mbedtls_cipher_get_block_size : Blob → Nat
  mbedtls_cipher_update : Blob → Blob → Int × Blob × Blob
  mbedtls_cipher_finish : Blob → Int × Blob × Blob
  mbedtls_md_init : Blob → Blob
  mbedtls_md_setup : Blob → Nat → Int → Int × Blob
  md_info : Blob → Option Nat
  mbedtls_md_get_size : Option Nat → Nat
  mbedtls_md_hmac_reset : Blob → Blob
  mbedtls_md_hmac_starts : Blob → Blob → Nat → Int × Blob
  mbedtls_md_hmac_update : Blob → Blob → Nat → Int × Blob
  mbedtls_md_hmac_finish : Blob → Int × Blob × Blob
  mbedtls_cipher_cmac_setup : Blob → Int × Blob
  mbedtls_cipher_cmac_reset : Blob → Int × Blob
  mbedtls_cipher_cmac_starts : Blob → Blob → Nat → Int × Blob
  mbedtls_cipher_cmac_update : Blob → Blob → Nat → Int × Blob
  mbedtls_cipher_cmac_finish : Blob → Int × Blob × Blob
  mbedtls_aes_setkey_enc : Blob → Nat → Int × mbedtls_aes_context
  mbedtls_sha1_init : Blob → Blob
  mbedtls_sha1_starts : Blob → Blob
  mbedtls_sha1_update : Blob → Option Blob → Nat → Blob
  mbedtls_md5_init : Blob → Blob
  mbedtls_md5_starts : Blob → Blob
  mbedtls_md5_update : Blob → Option Blob → Nat → Blob
  mbedtls_sha256_init : Blob → Blob
  mbedtls_sha256_starts : Blob → Int → Blob
  mbedtls_sha256_update : Blob → Option Blob → Nat → Blob
  mbedtls_sha512_init : Blob → Blob
  mbedtls_sha512_starts : Blob → Int → Blob
  mbedtls_sha512_update : Blob → Option Blob → Nat → Blob

/-- The C `memcpy(dst, src, n)` on the bytes of `dst`: the first `n` bytes become those
of `src`, the others stay. -/
def memcpy (dst src : Blob) (n : Nat) : Blob :=
  src.take n ++ dst.drop n

/-- A routine writing the bytes `src` through the pointer `buf + pos`. -/
def write_at (buf : Blob) (pos : Nat) (src : Blob) : Blob :=
  buf.take pos ++ src ++ buf.drop (pos + src.length)

/-! ## Outcomes -/

/-- How a call of a provider function ends, with the external calls it made, in order.
`assert_fail`: an `assert` failed (fatal).  `undefined`: the provider did something C
leaves undefined or handed a null context to the library without a check of its own
(a null context dereferenced, a remainder by zero). -/
inductive Outcome (α : Type)
  | ret (val : α) (calls : List Call)
  | assert_fail (calls : List Call)
  | undefined (calls : List Call)
  deriving DecidableEq, Repr

/-- The calls made during a run, however it ended. -/
def Outcome.calls {α : Type} : Outcome α → List Call
  | .ret _ c => c
  | .assert_fail c => c
  | .undefined c => c

/-- What an `alloc_ctx` function returns: its result and the block stored in `*ctx_ret`
(`none` when `*ctx_ret` is not written). -/
structure AllocRet where
  res : TEE_Result
  ctx_ret : Option Blob
  deriving DecidableEq, Repr

/-- What an operation on a context returns: its result and the context afterwards. -/
structure OpRet where
  res : TEE_Result
  ctx : Option Blob
  deriving DecidableEq, Repr

/-- What an operation with an output buffer returns: its result, the context afterwards
and the bytes of the caller's output buffer afterwards. -/
structure BufRet where
  res : TEE_Result
  ctx : Option Blob
  buf : Blob
  deriving DecidableEq, Repr

/-- The `TEE_Result` a size resolver returns. -/
def size_result : Except TEE_Result Nat → TEE_Result
  | .ok _ => TEE_SUCCESS
  | .error e => e

/-- `calloc(1, size)`: a zero-filled block. -/
def zero_block (size : Nat) : Blob := List.replicate size 0

/-! ## Algorithm registry -/

/-- The string `tee_algo_to_mbedtls_cipher_info` (lines 61-138) hands to
`mbedtls_cipher_info_from_string`; `none` where the function returns `NULL` itself.
`key_len` is in bits. -/
def tee_algo_to_mbedtls_cipher_info_string (cfg : Config) (algo key_len : Nat) :
    Option String :=
  if cfg.CFG_CRYPTO_AES = true ∧ algo = TEE_ALG_AES_ECB_NOPAD then
    if key_len = 128 then some "AES-128-ECB"
    else if key_len = 192 then some "AES-192-ECB"
    else if key_len = 256 then some "AES-256-ECB"
    else none
  else if cfg.CFG_CRYPTO_AES = true ∧ algo = TEE_ALG_AES_CBC_NOPAD then
    if key_len = 128 then some "AES-128-CBC"
    else if key_len = 192 then some "AES-192-CBC"
    else if key_len = 256 then some "AES-256-CBC"
    else none
  else if cfg.CFG_CRYPTO_AES = true ∧ algo = TEE_ALG_AES_CTR then
    if key_len = 128 then some "AES-128-CTR"
    else if key_len = 192 then some "AES-192-CTR"
    else if key_len = 256 then some "AES-256-CTR"
    else none
  else if cfg.CFG_CRYPTO_AES = true ∧
      (algo = TEE_ALG_AES_CTS ∨ algo = TEE_ALG_AES_XTS ∨ algo = TEE_ALG_AES_CCM ∨
       algo = TEE_ALG_AES_GCM ∨ algo = TEE_ALG_AES_CBC_MAC_NOPAD ∨
       algo = TEE_ALG_AES_CBC_MAC_PKCS5) then
    none
  else if cfg.CFG_CRYPTO_DES = true ∧ algo = TEE_ALG_DES_ECB_NOPAD then
    if key_len = 64 then some "DES-ECB" else none
  else if cfg.CFG_CRYPTO_DES = true ∧
      (algo = TEE_ALG_DES_CBC_MAC_NOPAD ∨ algo = TEE_ALG_DES_CBC_MAC_PKCS5) then
    none
  else if cfg.CFG_CRYPTO_DES = true ∧ algo = TEE_ALG_DES_CBC_NOPAD then
    if key_len = 64 then some "DES-CBC" else none
  else if cfg.CFG_CRYPTO_DES = true ∧ algo = TEE_ALG_DES3_ECB_NOPAD then
    if key_len = 128 then some "DES-EDE-ECB"
    else if key_len = 192 then some "DES-EDE3-ECB"
    else none
  else if cfg.CFG_CRYPTO_DES = true ∧
      (algo = TEE_ALG_DES3_CBC_MAC_NOPAD ∨ algo = TEE_ALG_DES3_CBC_MAC_PKCS5) then
    none
  else if cfg.CFG_CRYPTO_DES = true ∧ algo = TEE_ALG_DES3_CBC_NOPAD then
    if key_len = 128 then some "DES-EDE-CBC"
    else if key_len = 192 then some "DES-EDE3-CBC"
    else none
  else none

/-- `tee_algo_to_mbedtls_cipher_info` (lines 61-138): the descriptor pointer returned. -/
def tee_algo_to_mbedtls_cipher_info (B : Backend) (cfg : Config) (algo key_len : Nat) :
    Option Nat :=
  match tee_algo_to_mbedtls_cipher_info_string cfg algo key_len with
  | some name => B.mbedtls_cipher_info_from_string name
  | none => none

/-- The string `tee_algo_to_mbedtls_hash_info` (lines 150-208) hands to
`mbedtls_md_info_from_string`; `none` where the function returns `NULL` itself. -/
def tee_algo_to_mbedtls_hash_info_string (cfg : Config) (algo : Nat) : Option String :=
  if cfg.CFG_CRYPTO_SHA1 = true ∧
      (algo = TEE_ALG_RSASSA_PKCS1_V1_5_SHA1 ∨ algo = TEE_ALG_RSASSA_PKCS1_PSS_MGF1_SHA1 ∨
       algo = TEE_ALG_RSAES_PKCS1_OAEP_MGF1_SHA1 ∨ algo = TEE_ALG_SHA1 ∨
       algo = TEE_ALG_DSA_SHA1 ∨ algo = TEE_ALG_HMAC_SHA1) then
    some "SHA1"
  else if cfg.CFG_CRYPTO_MD5 = true ∧
      (algo = TEE_ALG_RSASSA_PKCS1_V1_5_MD5 ∨ algo = TEE_ALG_MD5 ∨
       algo = TEE_ALG_HMAC_MD5) then
    some "MD5"
  else if cfg.CFG_CRYPTO_SHA224 = true ∧
      (algo = TEE_ALG_RSASSA_PKCS1_V1_5_SHA224 ∨
       algo = TEE_ALG_RSASSA_PKCS1_PSS_MGF1_SHA224 ∨
       algo = TEE_ALG_RSAES_PKCS1_OAEP_MGF1_SHA224 ∨ algo = TEE_ALG_SHA224 ∨
       algo = TEE_ALG_DSA_SHA224 ∨ algo = TEE_ALG_HMAC_SHA224) then
    some "SHA224"
  else if cfg.CFG_CRYPTO_SHA256 = true ∧
      (algo = TEE_ALG_RSASSA_PKCS1_V1_5_SHA256 ∨
       algo = TEE_ALG_RSASSA_PKCS1_PSS_MGF1_SHA256 ∨
       algo = TEE_ALG_RSAES_PKCS1_OAEP_MGF1_SHA256 ∨ algo = TEE_ALG_SHA256 ∨
       algo = TEE_ALG_DSA_SHA256 ∨ algo = TEE_ALG_HMAC_SHA256) then
    some "SHA256"
  else if cfg.CFG_CRYPTO_SHA384 = true ∧
      (algo = TEE_ALG_RSASSA_PKCS1_V1_5_SHA384 ∨
       algo = TEE_ALG_RSASSA_PKCS1_PSS_MGF1_SHA384 ∨
       algo = TEE_ALG_RSAES_PKCS1_OAEP_MGF1_SHA384 ∨ algo = TEE_ALG_SHA384 ∨
       algo = TEE_ALG_HMAC_SHA384) then
    some "SHA384"
  else if cfg.CFG_CRYPTO_SHA512 = true ∧
      (algo = TEE_ALG_RSASSA_PKCS1_V1_5_SHA512 ∨
       algo = TEE_ALG_RSASSA_PKCS1_PSS_MGF1_SHA512 ∨
       algo = TEE_ALG_RSAES_PKCS1_OAEP_MGF1_SHA512 ∨ algo = TEE_ALG_SHA512 ∨
       algo = TEE_ALG_HMAC_SHA512) then
    some "SHA512"
  else none

/-- `tee_algo_to_mbedtls_hash_info` (lines 150-208): the descriptor pointer returned. -/
def tee_algo_to_mbedtls_hash_info (B : Backend) (cfg : Config) (algo : Nat) : Option Nat :=
  match tee_algo_to_mbedtls_hash_info_string cfg algo with
  | some name => B.mbedtls_md_info_from_string name
  | none => none

/-! ## Message digest functions -/

/-- `hash_get_ctx_size` (lines 215-252): `.ok size` is `TEE_SUCCESS` with `*size`
written, `.error e` is the return of `e` with `*size` untouched. -/
def hash_get_ctx_size (B : Backend) (cfg : Config) (algo : Nat) : Except TEE_Result Nat :=
  if cfg.CFG_CRYPTO_MD5 = true ∧ algo = TEE_ALG_MD5 then
    .ok B.sizeof_mbedtls_md5_context
  else if cfg.CFG_CRYPTO_SHA1 = true ∧ algo = TEE_ALG_SHA1 then
    .ok B.sizeof_mbedtls_sha1_context
  else if cfg.CFG_CRYPTO_SHA224 = true ∧ algo = TEE_ALG_SHA224 then
    .ok B.sizeof_mbedtls_sha256_context
  else if cfg.CFG_CRYPTO_SHA256 = true ∧ algo = TEE_ALG_SHA256 then
    .ok B.sizeof_mbedtls_sha256_context
  else if cfg.CFG_CRYPTO_SHA384 = true ∧ algo = TEE_ALG_SHA384 then
    .ok B.sizeof_mbedtls_sha512_context
  else if cfg.CFG_CRYPTO_SHA512 = true ∧ algo = TEE_ALG_SHA512 then
    .ok B.sizeof_mbedtls_sha512_context
  else .error TEE_ERROR_NOT_SUPPORTED

/-- `crypto_hash_alloc_ctx` (lines 254-270).  `calloc_ok` says whether the allocator
has memory to give. -/
def crypto_hash_alloc_ctx (B : Backend) (cfg : Config) (calloc_ok : Bool) (algo : Nat) :
    Outcome AllocRet :=
  match hash_get_ctx_size B cfg algo with
  | .error res => .ret ⟨res, none⟩ []
  | .ok ctx_size =>
    if calloc_ok = false then
      .ret ⟨TEE_ERROR_OUT_OF_MEMORY, none⟩ [Call.calloc ctx_size]
    else
      .ret ⟨TEE_SUCCESS, some (zero_block ctx_size)⟩ [Call.calloc ctx_size]

/-- `crypto_hash_free_ctx` (lines 272-282). -/
def crypto_hash_free_ctx (B : Backend) (cfg : Config) (_ctx : Option Blob) (algo : Nat) :
    Outcome Unit :=
  match hash_get_ctx_size B cfg algo with
  | .error _ => .assert_fail []
  | .ok _ => .ret () [Call.free]

/-- The `switch` of `crypto_hash_final` (lines 409-442): the finish routine the
identifier selects, `none` for `default`. -/
def hash_final_switch (B : Backend) (cfg : Config) (algo : Nat) :
    Option (Call × (Blob → Blob × Blob)) :=
  if cfg.CFG_CRYPTO_SHA1 = true ∧ algo = TEE_ALG_SHA1 then
    some (Call.mbedtls_sha1_finish, B.mbedtls_sha1_finish)
  else if cfg.CFG_CRYPTO_MD5 = true ∧ algo = TEE_ALG_MD5 then
    some (Call.mbedtls_md5_finish, B.mbedtls_md5_finish)
  else if cfg.CFG_CRYPTO_SHA224 = true ∧ algo = TEE_ALG_SHA224 then
    some (Call.mbedtls_sha256_finish, B.mbedtls_sha256_finish)
  else if cfg.CFG_CRYPTO_SHA256 = true ∧ algo = TEE_ALG_SHA256 then
    some (Call.mbedtls_sha256_finish, B.mbedtls_sha256_finish)
  else if cfg.CFG_CRYPTO_SHA384 = true ∧ algo = TEE_ALG_SHA384 then
    some (Call.mbedtls_sha512_finish, B.mbedtls_sha512_finish)
  else if cfg.CFG_CRYPTO_SHA512 = true ∧ algo = TEE_ALG_SHA512 then
    some (Call.mbedtls_sha512_finish, B.mbedtls_sha512_finish)
  else none

/-- The finish routine of the mbedTLS digest family of a plain hash identifier,
whatever the configuration: MD5 and SHA-1 have their own, SHA-224 shares the SHA-256
routine and SHA-384 the SHA-512 one. -/
def hash_finish_routine (B : Backend) (algo : Nat) : Call × (Blob → Blob × Blob) :=
  if algo = TEE_ALG_MD5 then (Call.mbedtls_md5_finish, B.mbedtls_md5_finish)
  else if algo = TEE_ALG_SHA1 then (Call.mbedtls_sha1_finish, B.mbedtls_sha1_finish)
  else if algo = TEE_ALG_SHA224 ∨ algo = TEE_ALG_SHA256 then
    (Call.mbedtls_sha256_finish, B.mbedtls_sha256_finish)
  else (Call.mbedtls_sha512_finish, B.mbedtls_sha512_finish)

/-- `crypto_hash_final` (lines 386-447).  `tee_hash_get_digest_size` is the helper of
`tee_cryp_utl.c` (its result and the value it stores in `*size`); `block_digest` is the
indeterminate initial content of the local scratch array of `TEE_MAX_HASH_SIZE` bytes;
a finish routine returns the context afterwards and the digest bytes it writes. -/
def crypto_hash_final (B : Backend) (cfg : Config)
    (tee_hash_get_digest_size : Nat → TEE_Result × Nat) (block_digest : Blob)
    (ctx : Option Blob) (algo : Nat) (digest : Blob) (len : Nat) : Outcome BufRet :=
  match ctx with
  | none => .ret ⟨TEE_ERROR_BAD_PARAMETERS, none, digest⟩ []
  | some c =>
    let r := tee_hash_get_digest_size algo
    let hash_size := r.2
    if r.1 ≠ TEE_SUCCESS then .ret ⟨r.1, some c, digest⟩ []
    else if hash_size > len ∧ hash_size > TEE_MAX_HASH_SIZE then
      .ret ⟨TEE_ERROR_BAD_STATE, some c, digest⟩ []
    else
      match hash_final_switch B cfg algo with
      | none => .ret ⟨TEE_ERROR_NOT_SUPPORTED, some c, digest⟩ []
      | some (call, finish) =>
        let f := finish c
        if hash_size > len then
          .ret ⟨TEE_SUCCESS, some f.1, memcpy digest (write_at block_digest 0 f.2) len⟩
            [call]
        else
          .ret ⟨TEE_SUCCESS, some f.1, write_at digest 0 f.2⟩ [call]


/-- The plain hash identifiers whose `case` label is compiled in. -/
abbrev plain_hash_enabled (cfg : Config) (algo : Nat) : Prop :=
  (cfg.CFG_CRYPTO_MD5 = true ∧ algo = TEE_ALG_MD5) ∨
  (cfg.CFG_CRYPTO_SHA1 = true ∧ algo = TEE_ALG_SHA1) ∨
  (cfg.CFG_CRYPTO_SHA224 = true ∧ algo = TEE_ALG_SHA224) ∨
  (cfg.CFG_CRYPTO_SHA256 = true ∧ algo = TEE_ALG_SHA256) ∨
  (cfg.CFG_CRYPTO_SHA384 = true ∧ algo = TEE_ALG_SHA384) ∨
  (cfg.CFG_CRYPTO_SHA512 = true ∧ algo = TEE_ALG_SHA512)

/-- `crypto_hash_copy_state` (lines 284-292): the destination and the source blocks
afterwards.  `ctx_size` starts at 0; the `memcpy` through a null pointer is `undefined`. -/
def crypto_hash_copy_state (B : Backend) (cfg : Config) (dst_ctx src_ctx : Option Blob)
    (algo : Nat) : Outcome (Option Blob × Option Blob) :=
  match hash_get_ctx_size B cfg algo with
  | .error _ => .assert_fail []
  | .ok ctx_size =>
    match dst_ctx, src_ctx with
    | some d, some s => .ret (some (memcpy d s ctx_size), some s) []
    | _, _ => .undefined []

/-- `crypto_hash_init` (lines 294-340). -/
def crypto_hash_init (B : Backend) (cfg : Config) (ctx : Option Blob) (algo : Nat) :
    Outcome OpRet :=
  match ctx with
  | none => .ret ⟨TEE_ERROR_BAD_PARAMETERS, none⟩ []
  | some c =>
    if cfg.CFG_CRYPTO_SHA1 = true ∧ algo = TEE_ALG_SHA1 then
      .ret ⟨TEE_SUCCESS, some (B.mbedtls_sha1_starts (B.mbedtls_sha1_init c))⟩
        [Call.mbedtls_sha1_init, Call.mbedtls_sha1_starts]
    else if cfg.CFG_CRYPTO_MD5 = true ∧ algo = TEE_ALG_MD5 then
      .ret ⟨TEE_SUCCESS, some (B.mbedtls_md5_starts (B.mbedtls_md5_init c))⟩
        [Call.mbedtls_md5_init, Call.mbedtls_md5_starts]
    else if cfg.CFG_CRYPTO_SHA224 = true ∧ algo = TEE_ALG_SHA224 then
      .ret ⟨TEE_SUCCESS, some (B.mbedtls_sha256_starts (B.mbedtls_sha256_init c) 1)⟩
        [Call.mbedtls_sha256_init, Call.mbedtls_sha256_starts]
    else if cfg.CFG_CRYPTO_SHA256 = true ∧ algo = TEE_ALG_SHA256 then
      .ret ⟨TEE_SUCCESS, some (B.mbedtls_sha256_starts (B.mbedtls_sha256_init c) 0)⟩
        [Call.mbedtls_sha256_init, Call.mbedtls_sha256_starts]
    else if cfg.CFG_CRYPTO_SHA384 = true ∧ algo = TEE_ALG_SHA384 then
      .ret ⟨TEE_SUCCESS, some (B.mbedtls_sha512_starts (B.mbedtls_sha512_init c) 1)⟩
        [Call.mbedtls_sha512_init, Call.mbedtls_sha512_starts]
    else if cfg.CFG_CRYPTO_SHA512 = true ∧ algo = TEE_ALG_SHA512 then
      .ret ⟨TEE_SUCCESS, some (B.mbedtls_sha512_starts (B.mbedtls_sha512_init c) 0)⟩
        [Call.mbedtls_sha512_init, Call.mbedtls_sha512_starts]
    else .ret ⟨TEE_ERROR_NOT_SUPPORTED, some c⟩ []

/-- `crypto_hash_update` (lines 342-384).  `data` is `none` for a null pointer; it is
handed to the backend as it is. -/
def crypto_hash_update (B : Backend) (cfg : Config) (ctx : Option Blob) (algo : Nat)
    (data : Option Blob) (len : Nat) : Outcome OpRet :=
  match ctx with
  | none => .ret ⟨TEE_ERROR_BAD_PARAMETERS, none⟩ []
  | some c =>
    if cfg.CFG_CRYPTO_SHA1 = true ∧ algo = TEE_ALG_SHA1 then
      .ret ⟨TEE_SUCCESS, some (B.mbedtls_sha1_update c data len)⟩ [Call.mbedtls_sha1_update]
    else if cfg.CFG_CRYPTO_MD5 = true ∧ algo = TEE_ALG_MD5 then
      .ret ⟨TEE_SUCCESS, some (B.mbedtls_md5_update c data len)⟩ [Call.mbedtls_md5_update]
    else if cfg.CFG_CRYPTO_SHA224 = true ∧ algo = TEE_ALG_SHA224 then
      .ret ⟨TEE_SUCCESS, some (B.mbedtls_sha256_update c data len)⟩
        [Call.mbedtls_sha256_update]
    else if cfg.CFG_CRYPTO_SHA256 = true ∧ algo = TEE_ALG_SHA256 then
      .ret ⟨TEE_SUCCESS, some (B.mbedtls_sha256_update c data len)⟩
        [Call.mbedtls_sha256_update]
    else if cfg.CFG_CRYPTO_SHA384 = true ∧ algo = TEE_ALG_SHA384 then
      .ret ⟨TEE_SUCCESS, some (B.mbedtls_sha512_update c data len)⟩
        [Call.mbedtls_sha512_update]
    else if cfg.CFG_CRYPTO_SHA512 = true ∧ algo = TEE_ALG_SHA512 then
      .ret ⟨TEE_SUCCESS, some (B.mbedtls_sha512_update c data len)⟩
        [Call.mbedtls_sha512_update]
    else .ret ⟨TEE_ERROR_NOT_SUPPORTED, some c⟩ []

/-! ## Symmetric ciphers -/

/-- `cipher_get_ctx_size` (lines 739-782).  The label `TEE_ALG_AES_CBC_NOPAD` stands
inside the `CFG_CRYPTO_ECB` block: the `#if defined(CFG_CRYPTO_CBC)` before it is closed
at once by its `#endif`. -/
def cipher_get_ctx_size (B : Backend) (cfg : Config) (algo : Nat) : Except TEE_Result Nat :=
  if cfg.CFG_CRYPTO_ECB = true ∧ algo = TEE_ALG_AES_ECB_NOPAD then
    .ok B.sizeof_mbedtls_cipher_context_t
  else if cfg.CFG_CRYPTO_ECB = true ∧ algo = TEE_ALG_AES_CBC_NOPAD then
    .ok B.sizeof_mbedtls_cipher_context_t
  else if cfg.CFG_CRYPTO_CTR = true ∧ algo = TEE_ALG_AES_CTR then
    .ok B.sizeof_mbedtls_cipher_context_t
  else if cfg.CFG_CRYPTO_XTS = true ∧ algo = TEE_ALG_AES_XTS then
    .error TEE_ERROR_NOT_SUPPORTED
  else if cfg.CFG_CRYPTO_CTS = true ∧ algo = TEE_ALG_AES_CTS then
    .error TEE_ERROR_NOT_SUPPORTED
  else if cfg.CFG_CRYPTO_ECB = true ∧
      (algo = TEE_ALG_DES_ECB_NOPAD ∨ algo = TEE_ALG_DES3_ECB_NOPAD) then
    .ok B.sizeof_mbedtls_cipher_context_t
  else if cfg.CFG_CRYPTO_CBC = true ∧
      (algo = TEE_ALG_DES_CBC_NOPAD ∨ algo = TEE_ALG_DES3_CBC_NOPAD) then
    .ok B.sizeof_mbedtls_cipher_context_t
  else .error TEE_ERROR_NOT_SUPPORTED

/-- The dispatch `switch` of `crypto_cipher_alloc_ctx` (lines 792-838): `some ci` when a
case reaches the descriptor lookup and leaves `cipher_info = ci`, `none` when the switch
returns `TEE_ERROR_NOT_SUPPORTED` itself. -/
def cipher_alloc_switch (B : Backend) (cfg : Config) (algo : Nat) : Option (Option Nat) :=
  if cfg.CFG_CRYPTO_ECB = true ∧ algo = TEE_ALG_AES_ECB_NOPAD then
    some (tee_algo_to_mbedtls_cipher_info B cfg algo 128)
  else if cfg.CFG_CRYPTO_CBC = true ∧ algo = TEE_ALG_AES_CBC_NOPAD then
    some (tee_algo_to_mbedtls_cipher_info B cfg algo 128)
  else if cfg.CFG_CRYPTO_CTR = true ∧ algo = TEE_ALG_AES_CTR then
    some (tee_algo_to_mbedtls_cipher_info B cfg algo 128)
  else if cfg.CFG_CRYPTO_XTS = true ∧ algo = TEE_ALG_AES_XTS then
    none
  else if cfg.CFG_CRYPTO_CTS = true ∧ algo = TEE_ALG_AES_CTS then
    none
  else if cfg.CFG_CRYPTO_ECB = true ∧ algo = TEE_ALG_DES_ECB_NOPAD then
    some (tee_algo_to_mbedtls_cipher_info B cfg algo B.MBEDTLS_KEY_LENGTH_DES)
  else if cfg.CFG_CRYPTO_ECB = true ∧ algo = TEE_ALG_DES3_ECB_NOPAD then
    some (tee_algo_to_mbedtls_cipher_info B cfg algo B.MBEDTLS_KEY_LENGTH_DES_EDE)
  else if cfg.CFG_CRYPTO_CBC = true ∧ algo = TEE_ALG_DES_CBC_NOPAD then
    some (tee_algo_to_mbedtls_cipher_info B cfg algo B.MBEDTLS_KEY_LENGTH_DES)
  else if cfg.CFG_CRYPTO_CBC = true ∧ algo = TEE_ALG_DES3_CBC_NOPAD then
    some (tee_algo_to_mbedtls_cipher_info B cfg algo B.MBEDTLS_KEY_LENGTH_DES_EDE)
  else none

/-- `crypto_cipher_free_ctx` (lines 864-875). -/
def crypto_cipher_free_ctx (B : Backend) (cfg : Config) (_ctx : Option Blob) (algo : Nat) :
    Outcome Unit :=
  match cipher_get_ctx_size B cfg algo with
  | .error _ => .assert_fail []
  | .ok _ => .ret () [Call.mbedtls_cipher_free, Call.free]

/-- `crypto_cipher_alloc_ctx` (lines 784-862).  `calloc_ok` says whether the allocator
has memory to give. -/
def crypto_cipher_alloc_ctx (B : Backend) (cfg : Config) (calloc_ok : Bool) (algo : Nat) :
    Outcome AllocRet :=
  match cipher_alloc_switch B cfg algo with
  | none => .ret ⟨TEE_ERROR_NOT_SUPPORTED, none⟩ []
  | some none => .ret ⟨TEE_ERROR_NOT_SUPPORTED, none⟩ []
  | some (some cipher_info) =>
    match cipher_get_ctx_size B cfg algo with
    | .error res => .ret ⟨res, none⟩ []
    | .ok ctx_size =>
      if calloc_ok = false then
        .ret ⟨TEE_ERROR_OUT_OF_MEMORY, none⟩ [Call.calloc ctx_size]
      else
        let c := B.mbedtls_cipher_init (zero_block ctx_size)
        let s := B.mbedtls_cipher_setup c cipher_info
        let made := [Call.calloc ctx_size, Call.mbedtls_cipher_init,
          Call.mbedtls_cipher_setup]
        if s.1 ≠ 0 then
          match crypto_cipher_free_ctx B cfg (some s.2) algo with
          | .ret _ calls => .ret ⟨TEE_ERROR_BAD_STATE, none⟩ (made ++ calls)
          | .assert_fail calls => .assert_fail (made ++ calls)
          | .undefined calls => .undefined (made ++ calls)
        else
          .ret ⟨TEE_SUCCESS, some s.2⟩ made

/-- `crypto_cipher_init` (lines 883-930).  `W` is the width of `size_t`; `iv` is `none`
for a null pointer. -/
def crypto_cipher_init (W : Nat) (B : Backend) (cfg : Config) (ctx : Option Blob)
    (algo : Nat) (mode : TEE_OperationMode) (key1 : Blob) (key1_len : Nat)
    (iv : Option Blob) (iv_len : Nat) : Outcome OpRet :=
  match ctx with
  | none => .ret ⟨TEE_ERROR_BAD_PARAMETERS, none⟩ []
  | some c =>
    match tee_algo_to_mbedtls_cipher_info B cfg algo ((key1_len * 8) % 2 ^ W) with
    | none => .ret ⟨TEE_ERROR_NOT_SUPPORTED, some c⟩ []
    | some cipher_info =>
      let s := B.mbedtls_cipher_setup_info c cipher_info
      if s.1 ≠ 0 then
        .ret ⟨TEE_ERROR_BAD_STATE, some s.2⟩ [Call.mbedtls_cipher_setup_info]
      else
        let k := B.mbedtls_cipher_setkey s.2 key1 ((key1_len * 8) % 2 ^ W)
          (decide (mode = TEE_OperationMode.TEE_MODE_ENCRYPT))
        if k.1 ≠ 0 then
          .ret ⟨TEE_ERROR_BAD_STATE, some k.2⟩
            [Call.mbedtls_cipher_setup_info, Call.mbedtls_cipher_setkey]
        else
          match iv with
          | some v =>
            let i := B.mbedtls_cipher_set_iv k.2 v iv_len
            if i.1 ≠ 0 then
              .ret ⟨TEE_ERROR_BAD_STATE, some i.2⟩
                [Call.mbedtls_cipher_setup_info, Call.mbedtls_cipher_setkey,
                 Call.mbedtls_cipher_set_iv]
            else
              let r := B.mbedtls_cipher_reset i.2
              if r.1 ≠ 0 then
                .ret ⟨TEE_ERROR_BAD_STATE, some r.2⟩
                  [Call.mbedtls_cipher_setup_info, Call.mbedtls_cipher_setkey,
                   Call.mbedtls_cipher_set_iv, Call.mbedtls_cipher_reset]
              else
                .ret ⟨TEE_SUCCESS, some r.2⟩
                  [Call.mbedtls_cipher_setup_info, Call.mbedtls_cipher_setkey,
                   Call.mbedtls_cipher_set_iv, Call.mbedtls_cipher_reset]
          | none =>
            let r := B.mbedtls_cipher_reset k.2
            if r.1 ≠ 0 then
              .ret ⟨TEE_ERROR_BAD_STATE, some r.2⟩
                [Call.mbedtls_cipher_setup_info, Call.mbedtls_cipher_setkey,
                 Call.mbedtls_cipher_reset]
            else
              .ret ⟨TEE_SUCCESS, some r.2⟩
                [Call.mbedtls_cipher_setup_info, Call.mbedtls_cipher_setkey,
                 Call.mbedtls_cipher_reset]

/-- The `while (len)` loop of the ECB case of `crypto_cipher_update` (lines 954-964).
`c` is the context, `pos` the distance `data` and `dst` have advanced (both advance by
`olen`), `len` the remaining count (a `size_t`, so `len -= olen` wraps modulo `2 ^ W`).
The backend update receives the `blk_size` bytes at `data` and returns the bytes it
writes at `dst`; `olen` is their number.  The result is the context, the destination
buffer and the calls when the loop is left through `len == 0` (`.inl`), or the outcome
of the function when an update fails (`.inr`); `none` when `fuel` iterations do not end
the loop. -/
def ecb_loop (W : Nat) (B : Backend) (blk_size : Nat) (data : Blob) :
    Nat → Blob → Nat → Nat → Blob → List Call →
    Option (Sum (Blob × Blob × List Call) (Outcome BufRet))
  | 0, c, _, len, dst, calls => if len = 0 then some (.inl (c, dst, calls)) else none
  | fuel + 1, c, pos, len, dst, calls =>
    if len = 0 then some (.inl (c, dst, calls))
    else
      let u := B.mbedtls_cipher_update c ((data.drop pos).take blk_size)
      let olen := u.2.2.length
      let dst1 := write_at dst pos u.2.2
      let calls1 := calls ++ [Call.mbedtls_cipher_update]
      if u.1 ≠ 0 then
        some (.inr (.ret ⟨TEE_ERROR_BAD_STATE, some u.2.1, dst1⟩ calls1))
      else
        ecb_loop W B blk_size data fuel u.2.1 (pos + olen)
          ((len + 2 ^ W - olen % 2 ^ W) % 2 ^ W) dst1 calls1

/-- `crypto_cipher_update` (lines 932-1016).  `W` is the width of `size_t`; `lmd_res0`
is the indeterminate initial value of the local `lmd_res`, which the final test reads
when the ECB loop body never ran; `fuel` bounds the iterations of the ECB loop, and the
result is `none` when they do not end it. -/
def crypto_cipher_update (W : Nat) (B : Backend) (cfg : Config) (fuel : Nat)
    (lmd_res0 : Int) (ctx : Option Blob) (algo : Nat) (data : Blob) (len : Nat)
    (dst : Blob) : Option (Outcome BufRet) :=
  match ctx with
  | none => some (.ret ⟨TEE_ERROR_BAD_PARAMETERS, none, dst⟩ [])
  | some c =>
    if cfg.CFG_CRYPTO_ECB = true ∧
        (algo = TEE_ALG_AES_ECB_NOPAD ∨ algo = TEE_ALG_DES_ECB_NOPAD ∨
         algo = TEE_ALG_DES3_ECB_NOPAD) then
      let blk_size := B.mbedtls_cipher_get_block_size c
      if blk_size = 0 then some (.undefined [Call.mbedtls_cipher_get_block_size])
      else if len % blk_size ≠ 0 then
        some (.ret ⟨TEE_ERROR_BAD_PARAMETERS, some c, dst⟩
          [Call.mbedtls_cipher_get_block_size])
      else
        match ecb_loop W B blk_size data fuel c 0 len dst
            [Call.mbedtls_cipher_get_block_size] with
        | none => none
        | some (.inr out) => some out
        | some (.inl (c1, dst1, calls)) =>
          -- `lmd_res` is 0 after an iteration, and still `lmd_res0` when `len` was 0
          if len = 0 ∧ lmd_res0 ≠ 0 then
            some (.ret ⟨TEE_ERROR_BAD_STATE, some c1, dst1⟩ calls)
          else some (.ret ⟨TEE_SUCCESS, some c1, dst1⟩ calls)
    else if cfg.CFG_CRYPTO_CBC = true ∧
        (algo = TEE_ALG_AES_CBC_NOPAD ∨ algo = TEE_ALG_DES_CBC_NOPAD ∨
         algo = TEE_ALG_DES3_CBC_NOPAD) then
      let r := B.mbedtls_cipher_reset c
      if r.1 ≠ 0 then
        some (.ret ⟨TEE_ERROR_BAD_STATE, some r.2, dst⟩ [Call.mbedtls_cipher_reset])
      else
        let u := B.mbedtls_cipher_update r.2 (data.take len)
        let dst1 := write_at dst 0 u.2.2
        if u.1 ≠ 0 then
          some (.ret ⟨TEE_ERROR_BAD_STATE, some u.2.1, dst1⟩
            [Call.mbedtls_cipher_reset, Call.mbedtls_cipher_update])
        else
          let f := B.mbedtls_cipher_finish u.2.1
          let dst2 := write_at dst1 u.2.2.length f.2.2
          if f.1 ≠ 0 then
            some (.ret ⟨TEE_ERROR_BAD_STATE, some f.2.1, dst2⟩
              [Call.mbedtls_cipher_reset, Call.mbedtls_cipher_update,
               Call.mbedtls_cipher_finish])
          else
            some (.ret ⟨TEE_SUCCESS, some f.2.1, dst2⟩
              [Call.mbedtls_cipher_reset, Call.mbedtls_cipher_update,
               Call.mbedtls_cipher_finish])
    else if cfg.CFG_CRYPTO_CTR = true ∧ algo = TEE_ALG_AES_CTR then
      let u := B.mbedtls_cipher_update c (data.take len)
      let dst1 := write_at dst 0 u.2.2
      if u.1 ≠ 0 then
        some (.ret ⟨TEE_ERROR_BAD_STATE, some u.2.1, dst1⟩ [Call.mbedtls_cipher_update])
      else
        let f := B.mbedtls_cipher_finish u.2.1
        let dst2 := write_at dst1 u.2.2.length f.2.2
        if f.1 ≠ 0 then
          some (.ret ⟨TEE_ERROR_BAD_STATE, some f.2.1, dst2⟩
            [Call.mbedtls_cipher_update, Call.mbedtls_cipher_finish])
        else
          some (.ret ⟨TEE_SUCCESS, some f.2.1, dst2⟩
            [Call.mbedtls_cipher_update, Call.mbedtls_cipher_finish])
    else if cfg.CFG_CRYPTO_XTS = true ∧ algo = TEE_ALG_AES_XTS then
      some (.ret ⟨TEE_ERROR_NOT_SUPPORTED, some c, dst⟩ [])
    else if cfg.CFG_CRYPTO_CTS = true ∧ algo = TEE_ALG_AES_CTS then
      some (.ret ⟨TEE_ERROR_NOT_SUPPORTED, some c, dst⟩ [])
    else some (.ret ⟨TEE_ERROR_NOT_SUPPORTED, some c, dst⟩ [])


/-! ## Message authentication code functions -/

/-- The six `case TEE_ALG_HMAC_*` labels the MAC functions share. -/
abbrev hmac_case (algo : Nat) : Prop :=
  algo = TEE_ALG_HMAC_MD5 ∨ algo = TEE_ALG_HMAC_SHA224 ∨ algo = TEE_ALG_HMAC_SHA1 ∨
  algo = TEE_ALG_HMAC_SHA256 ∨ algo = TEE_ALG_HMAC_SHA384 ∨ algo = TEE_ALG_HMAC_SHA512

/-- The six `case TEE_ALG_*_CBC_MAC_*` labels the MAC functions share. -/
abbrev cbc_mac_case (algo : Nat) : Prop :=
  algo = TEE_ALG_AES_CBC_MAC_NOPAD ∨ algo = TEE_ALG_AES_CBC_MAC_PKCS5 ∨
  algo = TEE_ALG_DES_CBC_MAC_NOPAD ∨ algo = TEE_ALG_DES_CBC_MAC_PKCS5 ∨
  algo = TEE_ALG_DES3_CBC_MAC_NOPAD ∨ algo = TEE_ALG_DES3_CBC_MAC_PKCS5

/-- `mac_get_ctx_size` (lines 1028-1060). -/
def mac_get_ctx_size (B : Backend) (cfg : Config) (algo : Nat) : Except TEE_Result Nat :=
  if cfg.CFG_CRYPTO_HMAC = true ∧ hmac_case algo then
    .ok B.sizeof_mbedtls_md_context_t
  else if cfg.CFG_CRYPTO_CBC_MAC = true ∧ cbc_mac_case algo then
    .error TEE_ERROR_NOT_SUPPORTED
  else if cfg.CFG_CRYPTO_CMAC = true ∧ algo = TEE_ALG_AES_CMAC then
    .ok B.sizeof_mbedtls_cipher_context_t
  else .error TEE_ERROR_NOT_SUPPORTED

/-- `crypto_mac_free_ctx` (lines 1150-1181). -/
def crypto_mac_free_ctx (cfg : Config) (_ctx : Option Blob) (algo : Nat) : Outcome Unit :=
  if cfg.CFG_CRYPTO_HMAC = true ∧ hmac_case algo then
    .ret () [Call.mbedtls_md_free, Call.free]
  else if cfg.CFG_CRYPTO_CBC_MAC = true ∧ cbc_mac_case algo then
    .ret () [Call.free]
  else if cfg.CFG_CRYPTO_CMAC = true ∧ algo = TEE_ALG_AES_CMAC then
    .ret () [Call.mbedtls_cipher_free, Call.free]
  else .ret () [Call.free]

/-- The setup `switch` of `crypto_mac_alloc_ctx` (lines 1085-1141) on the zero-filled
block `ctx`: the value of `res` after it, the block after it, and the backend calls. -/
def mac_alloc_switch (B : Backend) (cfg : Config) (ctx : Blob) (algo : Nat) :
    TEE_Result × Blob × List Call :=
  if cfg.CFG_CRYPTO_HMAC = true ∧ hmac_case algo then
    match tee_algo_to_mbedtls_hash_info B cfg algo with
    | none => (TEE_ERROR_NOT_SUPPORTED, ctx, [])
    | some md_info =>
      let s := B.mbedtls_md_setup (B.mbedtls_md_init ctx) md_info 1
      (if s.1 ≠ 0 then TEE_ERROR_GENERIC else TEE_SUCCESS, s.2,
        [Call.mbedtls_md_init, Call.mbedtls_md_setup])
  else if cfg.CFG_CRYPTO_CBC_MAC = true ∧ cbc_mac_case algo then
    (TEE_ERROR_NOT_SUPPORTED, ctx, [])
  else if cfg.CFG_CRYPTO_CMAC = true ∧ algo = TEE_ALG_AES_CMAC then
    match tee_algo_to_mbedtls_cipher_info B cfg TEE_ALG_AES_ECB_NOPAD 128 with
    | none => (TEE_ERROR_NOT_SUPPORTED, ctx, [])
    | some cipher_info =>
      let s := B.mbedtls_cipher_setup (B.mbedtls_cipher_init ctx) cipher_info
      let res1 := if s.1 ≠ 0 then TEE_ERROR_GENERIC else TEE_SUCCESS
      let m := B.mbedtls_cipher_cmac_setup s.2
      (if m.1 ≠ 0 then TEE_ERROR_GENERIC else res1, m.2,
        [Call.mbedtls_cipher_init, Call.mbedtls_cipher_setup,
         Call.mbedtls_cipher_cmac_setup])
  else (TEE_ERROR_NOT_SUPPORTED, ctx, [])

/-- `crypto_mac_alloc_ctx` (lines 1062-1148).  `calloc_ok` says whether the allocator
has memory to give. -/
def crypto_mac_alloc_ctx (B : Backend) (cfg : Config) (calloc_ok : Bool) (algo : Nat) :
    Outcome AllocRet :=
  match mac_get_ctx_size B cfg algo with
  | .error res => .ret ⟨res, none⟩ []
  | .ok ctx_size =>
    if calloc_ok = false then
      .ret ⟨TEE_ERROR_OUT_OF_MEMORY, none⟩ [Call.calloc ctx_size]
    else
      let sw := mac_alloc_switch B cfg (zero_block ctx_size) algo
      if sw.1 = TEE_SUCCESS then
        .ret ⟨sw.1, some sw.2.1⟩ (Call.calloc ctx_size :: sw.2.2)
      else
        match crypto_mac_free_ctx cfg (some sw.2.1) algo with
        | .ret _ calls => .ret ⟨sw.1, none⟩ (Call.calloc ctx_size :: sw.2.2 ++ calls)
        | .assert_fail calls => .assert_fail (Call.calloc ctx_size :: sw.2.2 ++ calls)
        | .undefined calls => .undefined (Call.calloc ctx_size :: sw.2.2 ++ calls)

/-- `crypto_mac_init` (lines 1223-1292).  `W` is the width of `size_t`. -/
def crypto_mac_init (W : Nat) (B : Backend) (cfg : Config) (ctx : Option Blob)
    (algo : Nat) (key : Blob) (len : Nat) : Outcome OpRet :=
  match ctx with
  | none => .ret ⟨TEE_ERROR_BAD_PARAMETERS, none⟩ []
  | some c =>
    if cfg.CFG_CRYPTO_HMAC = true ∧ hmac_case algo then
      let s := B.mbedtls_md_hmac_starts (B.mbedtls_md_hmac_reset c) key len
      if s.1 ≠ 0 then
        .ret ⟨TEE_ERROR_GENERIC, some s.2⟩
          [Call.mbedtls_md_hmac_reset, Call.mbedtls_md_hmac_starts]
      else
        .ret ⟨TEE_SUCCESS, some s.2⟩
          [Call.mbedtls_md_hmac_reset, Call.mbedtls_md_hmac_starts]
    else if cfg.CFG_CRYPTO_CBC_MAC = true ∧ cbc_mac_case algo then
      .ret ⟨TEE_ERROR_NOT_SUPPORTED, some c⟩ []
    else if cfg.CFG_CRYPTO_CMAC = true ∧ algo = TEE_ALG_AES_CMAC then
      match tee_algo_to_mbedtls_cipher_info B cfg TEE_ALG_AES_ECB_NOPAD
          ((len * 8) % 2 ^ W) with
      | none => .ret ⟨TEE_ERROR_NOT_SUPPORTED, some c⟩ []
      | some cipher_info =>
        let s := B.mbedtls_cipher_setup_info c cipher_info
        if s.1 ≠ 0 then
          .ret ⟨TEE_ERROR_BAD_STATE, some s.2⟩ [Call.mbedtls_cipher_setup_info]
        else
          let r := B.mbedtls_cipher_cmac_reset s.2
          if r.1 ≠ 0 then
            .ret ⟨TEE_ERROR_GENERIC, some r.2⟩
              [Call.mbedtls_cipher_setup_info, Call.mbedtls_cipher_cmac_reset]
          else
            let t := B.mbedtls_cipher_cmac_starts r.2 key ((len * 8) % 2 ^ W)
            if t.1 ≠ 0 then
              .ret ⟨TEE_ERROR_GENERIC, some t.2⟩
                [Call.mbedtls_cipher_setup_info, Call.mbedtls_cipher_cmac_reset,
                 Call.mbedtls_cipher_cmac_starts]
            else
              .ret ⟨TEE_SUCCESS, some t.2⟩
                [Call.mbedtls_cipher_setup_info, Call.mbedtls_cipher_cmac_reset,
                 Call.mbedtls_cipher_cmac_starts]
    else .ret ⟨TEE_ERROR_NOT_SUPPORTED, some c⟩ []

/-- `crypto_mac_update` (lines 1294-1342).  `data` is `none` for a null pointer.  The
function does not test `ctx`: a null context handed to the library is `undefined`. -/
def crypto_mac_update (B : Backend) (cfg : Config) (ctx : Option Blob) (algo : Nat)
    (data : Option Blob) (len : Nat) : Outcome OpRet :=
  match data with
  | none => .ret ⟨TEE_SUCCESS, ctx⟩ []
  | some d =>
    if len = 0 then .ret ⟨TEE_SUCCESS, ctx⟩ []
    else if cfg.CFG_CRYPTO_HMAC = true ∧ hmac_case algo then
      match ctx with
      | none => .undefined [Call.mbedtls_md_hmac_update]
      | some c =>
        let u := B.mbedtls_md_hmac_update c d len
        if u.1 ≠ 0 then .ret ⟨TEE_ERROR_GENERIC, some u.2⟩ [Call.mbedtls_md_hmac_update]
        else .ret ⟨TEE_SUCCESS, some u.2⟩ [Call.mbedtls_md_hmac_update]
    else if cfg.CFG_CRYPTO_CBC_MAC = true ∧ cbc_mac_case algo then
      .ret ⟨TEE_ERROR_NOT_SUPPORTED, ctx⟩ []
    else if cfg.CFG_CRYPTO_CMAC = true ∧ algo = TEE_ALG_AES_CMAC then
      match ctx with
      | none => .undefined [Call.mbedtls_cipher_cmac_update]
      | some c =>
        let u := B.mbedtls_cipher_cmac_update c d len
        if u.1 ≠ 0 then
          .ret ⟨TEE_ERROR_GENERIC, some u.2⟩ [Call.mbedtls_cipher_cmac_update]
        else .ret ⟨TEE_SUCCESS, some u.2⟩ [Call.mbedtls_cipher_cmac_update]
    else .ret ⟨TEE_ERROR_NOT_SUPPORTED, ctx⟩ []

/-- `crypto_mac_final` (lines 1344-1397).  `B.md_info c` is the field `ctx->md_info` of
the block.  The function does not test `ctx`: a null context read or handed to the
library is `undefined`.  A finish routine returns its status, the context afterwards and
the bytes it writes at `digest`. -/
def crypto_mac_final (B : Backend) (cfg : Config) (ctx : Option Blob) (algo : Nat)
    (digest : Blob) (digest_len : Nat) : Outcome BufRet :=
  if cfg.CFG_CRYPTO_HMAC = true ∧ hmac_case algo then
    match ctx with
    | none => .undefined []
    | some c =>
      let block_size := B.mbedtls_md_get_size (B.md_info c)
      if block_size > digest_len then .ret ⟨TEE_ERROR_SHORT_BUFFER, some c, digest⟩ []
      else
        let f := B.mbedtls_md_hmac_finish c
        if f.1 ≠ 0 then
          .ret ⟨TEE_ERROR_GENERIC, some f.2.1, write_at digest 0 f.2.2⟩
            [Call.mbedtls_md_hmac_finish]
        else
          .ret ⟨TEE_SUCCESS, some f.2.1, write_at digest 0 f.2.2⟩
            [Call.mbedtls_md_hmac_finish]
  else if cfg.CFG_CRYPTO_CBC_MAC = true ∧ cbc_mac_case algo then
    .ret ⟨TEE_ERROR_NOT_SUPPORTED, ctx, digest⟩ []
  else if cfg.CFG_CRYPTO_CMAC = true ∧ algo = TEE_ALG_AES_CMAC then
    match ctx with
    | none => .undefined [Call.mbedtls_cipher_get_block_size]
    | some c =>
      let block_size := B.mbedtls_cipher_get_block_size c
      if block_size > digest_len then
        .ret ⟨TEE_ERROR_SHORT_BUFFER, some c, digest⟩ [Call.mbedtls_cipher_get_block_size]
      else
        let f := B.mbedtls_cipher_cmac_finish c
        if f.1 ≠ 0 then
          .ret ⟨TEE_ERROR_GENERIC, some f.2.1, write_at digest 0 f.2.2⟩
            [Call.mbedtls_cipher_get_block_size, Call.mbedtls_cipher_cmac_finish]
        else
          .ret ⟨TEE_SUCCESS, some f.2.1, write_at digest 0 f.2.2⟩
            [Call.mbedtls_cipher_get_block_size, Call.mbedtls_cipher_cmac_finish]
  else .ret ⟨TEE_ERROR_NOT_SUPPORTED, ctx, digest⟩ []


/-! ## Key-schedule helper -/

/-- What `crypto_aes_expand_enc_key` leaves behind: its result, the caller's `enc_key`
buffer, the caller's `*rounds`, and the calls made. -/
structure ExpandOut where
  res : TEE_Result
  enc_key : Blob
  rounds : Nat
  calls : List Call
  deriving DecidableEq, Repr

/-- `crypto_aes_expand_enc_key` (lines 1690-1706).  `W` is the width of `size_t`;
`enc_key` and `rounds` are the contents of the caller's objects before the call. -/
def crypto_aes_expand_enc_key (W : Nat) (B : Backend) (key : Blob) (key_len : Nat)
    (enc_key : Blob) (enc_keylen : Nat) (rounds : Nat) : ExpandOut :=
  let r := B.mbedtls_aes_setkey_enc key ((key_len * 8) % 2 ^ W)
  if r.1 ≠ 0 then
    ⟨TEE_ERROR_BAD_PARAMETERS, enc_key, rounds,
      [Call.mbedtls_aes_init, Call.mbedtls_aes_setkey_enc]⟩
  else if enc_keylen > B.sizeof_aes_buf then
    ⟨TEE_ERROR_BAD_PARAMETERS, enc_key, rounds,
      [Call.mbedtls_aes_init, Call.mbedtls_aes_setkey_enc]⟩
  else
    ⟨TEE_SUCCESS, memcpy enc_key r.2.buf enc_keylen, r.2.nr,
      [Call.mbedtls_aes_init, Call.mbedtls_aes_setkey_enc, Call.mbedtls_aes_free]⟩

/-! ## Asymmetric algorithms and authenticated encryption: the unimplemented families

Every parameter of these functions is `__unused`; a pointer parameter is `Option Blob`
(or `Option Nat` for a pointer to a length), `none` being `NULL`. -/

/-- `crypto_bignum_allocate` (lines 455-458): the pointer returned. -/
def crypto_bignum_allocate (_size_bits : Nat) : Option Blob := none

/-- `crypto_bignum_bin2bn` (line 460). -/
def crypto_bignum_bin2bn (_from_ : Option Blob) (_fromsize : Nat) (_to : Option Blob) :
    TEE_Result := TEE_ERROR_NOT_IMPLEMENTED

/-- `crypto_acipher_alloc_rsa_keypair` (line 525). -/
def crypto_acipher_alloc_rsa_keypair (_s : Option Blob) (_key_size_bits : Nat) :
    TEE_Result := TEE_ERROR_NOT_IMPLEMENTED

/-- `crypto_acipher_alloc_rsa_public_key` (line 532). -/
def crypto_acipher_alloc_rsa_public_key (_s : Option Blob) (_key_size_bits : Nat) :
    TEE_Result := TEE_ERROR_NOT_IMPLEMENTED

/-- `crypto_acipher_gen_rsa_key` (line 542). -/
def crypto_acipher_gen_rsa_key (_key : Option Blob) (_key_size : Nat) :
    TEE_Result := TEE_ERROR_NOT_IMPLEMENTED

/-- `crypto_acipher_rsanopad_decrypt` (line 548). -/
def crypto_acipher_rsanopad_decrypt (_key : Option Blob) (_src : Option Blob)
    (_src_len : Nat) (_dst : Option Blob) (_dst_len : Option Nat) :
    TEE_Result := TEE_ERROR_NOT_IMPLEMENTED

/-- `crypto_acipher_rsanopad_encrypt` (line 557). -/
def crypto_acipher_rsanopad_encrypt (_key : Option Blob) (_src : Option Blob)
    (_src_len : Nat) (_dst : Option Blob) (_dst_len : Option Nat) :
    TEE_Result := TEE_ERROR_NOT_IMPLEMENTED

/-- `crypto_acipher_rsaes_decrypt` (line 566). -/
def crypto_acipher_rsaes_decrypt (_algo : Nat) (_key : Option Blob) (_label : Option Blob)
    (_label_len : Nat) (_src : Option Blob) (_src_len : Nat) (_dst : Option Blob)
    (_dst_len : Option Nat) :
    TEE_Result := TEE_ERROR_NOT_IMPLEMENTED

/-- `crypto_acipher_rsaes_encrypt` (line 578). -/
def crypto_acipher_rsaes_encrypt (_algo : Nat) (_key : Option Blob) (_label : Option Blob)
    (_label_len : Nat) (_src : Option Blob) (_src_len : Nat) (_dst : Option Blob)
    (_dst_len : Option Nat) :
    TEE_Result := TEE_ERROR_NOT_IMPLEMENTED

/-- `crypto_acipher_rsassa_sign` (line 590). -/
def crypto_acipher_rsassa_sign (_algo : Nat) (_key : Option Blob) (_salt_len : Int)
    (_msg : Option Blob) (_msg_len : Nat) (_sig : Option Blob) (_sig_len : Option Nat) :
    TEE_Result := TEE_ERROR_NOT_IMPLEMENTED

/-- `crypto_acipher_rsassa_verify` (line 601). -/
def crypto_acipher_rsassa_verify (_algo : Nat) (_key : Option Blob) (_salt_len : Int)
    (_msg : Option Blob) (_msg_len : Nat) (_sig : Option Blob) (_sig_len : Nat) :
    TEE_Result := TEE_ERROR_NOT_IMPLEMENTED

/-- `crypto_acipher_alloc_dsa_keypair` (line 614). -/
def crypto_acipher_alloc_dsa_keypair (_s : Option Blob) (_key_size_bits : Nat) :
    TEE_Result := TEE_ERROR_NOT_IMPLEMENTED

/-- `crypto_acipher_alloc_dsa_public_key` (line 621). -/
def crypto_acipher_alloc_dsa_public_key (_s : Option Blob) (_key_size_bits : Nat) :
    TEE_Result := TEE_ERROR_NOT_IMPLEMENTED

/-- `crypto_acipher_gen_dsa_key` (line 627). -/
def crypto_acipher_gen_dsa_key (_key : Option Blob) (_key_size : Nat) :
    TEE_Result := TEE_ERROR_NOT_IMPLEMENTED

/-- `crypto_acipher_dsa_sign` (line 633). -/
def crypto_acipher_dsa_sign (_algo : Nat) (_key : Option Blob) (_msg : Option Blob)
    (_msg_len : Nat) (_sig : Option Blob) (_sig_len : Option Nat) :
    TEE_Result := TEE_ERROR_NOT_IMPLEMENTED

/-- `crypto_acipher_dsa_verify` (line 643). -/
def crypto_acipher_dsa_verify (_algo : Nat) (_key : Option Blob) (_msg : Option Blob)
    (_msg_len : Nat) (_sig : Option Blob) (_sig_len : Nat) :
    TEE_Result := TEE_ERROR_NOT_IMPLEMENTED

/-- `crypto_acipher_alloc_dh_keypair` (line 655). -/
def crypto_acipher_alloc_dh_keypair (_s : Option Blob) (_key_size_bits : Nat) :
    TEE_Result := TEE_ERROR_NOT_IMPLEMENTED

/-- `crypto_acipher_gen_dh_key` (line 661). -/
def crypto_acipher_gen_dh_key (_key : Option Blob) (_q : Option Blob) (_xbits : Nat) :
    TEE_Result := TEE_ERROR_NOT_IMPLEMENTED

/-- `crypto_acipher_dh_shared_secret` (line 669). -/
def crypto_acipher_dh_shared_secret (_private_key : Option Blob) (_public_key : Option Blob)
    (_secret : Option Blob) :
    TEE_Result := TEE_ERROR_NOT_IMPLEMENTED

/-- `crypto_acipher_alloc_ecc_public_key` (line 679). -/
def crypto_acipher_alloc_ecc_public_key (_s : Option Blob) (_key_size_bits : Nat) :
    TEE_Result := TEE_ERROR_NOT_IMPLEMENTED

/-- `crypto_acipher_alloc_ecc_keypair` (line 685). -/
def crypto_acipher_alloc_ecc_keypair (_s : Option Blob) (_key_size_bits : Nat) :
    TEE_Result := TEE_ERROR_NOT_IMPLEMENTED

/-- `crypto_acipher_gen_ecc_key` (line 695). -/
def crypto_acipher_gen_ecc_key (_key : Option Blob) :
    TEE_Result := TEE_ERROR_NOT_IMPLEMENTED

/-- `crypto_acipher_ecc_sign` (line 700). -/
def crypto_acipher_ecc_sign (_algo : Nat) (_key : Option Blob) (_msg : Option Blob)
    (_msg_len : Nat) (_sig : Option Blob) (_sig_len : Option Nat) :
    TEE_Result := TEE_ERROR_NOT_IMPLEMENTED

/-- `crypto_acipher_ecc_verify` (line 710). -/
def crypto_acipher_ecc_verify (_algo : Nat) (_key : Option Blob) (_msg : Option Blob)
    (_msg_len : Nat) (_sig : Option Blob) (_sig_len : Nat) :
    TEE_Result := TEE_ERROR_NOT_IMPLEMENTED

/-- `crypto_acipher_ecc_shared_secret` (line 721). -/
def crypto_acipher_ecc_shared_secret (_private_key : Option Blob)
    (_public_key : Option Blob) (_secret : Option Blob) (_secret_len : Option Nat) :
    TEE_Result := TEE_ERROR_NOT_IMPLEMENTED

/-- `crypto_aes_ccm_alloc_ctx` (line 1410). -/
def crypto_aes_ccm_alloc_ctx (_ctx_ret : Option Blob) :
    TEE_Result := TEE_ERROR_NOT_IMPLEMENTED

/-- `crypto_aes_ccm_init` (line 1425). -/
def crypto_aes_ccm_init (_ctx : Option Blob) (_mode : TEE_OperationMode)
    (_key : Option Blob) (_key_len : Nat) (_nonce : Option Blob) (_nonce_len : Nat)
    (_tag_len : Nat) (_aad_len : Nat) (_payload_len : Nat) :
    TEE_Result := TEE_ERROR_NOT_IMPLEMENTED

/-- `crypto_aes_ccm_update_aad` (line 1438). -/
def crypto_aes_ccm_update_aad (_ctx : Option Blob) (_data : Option Blob) (_len : Nat) :
    TEE_Result := TEE_ERROR_NOT_IMPLEMENTED

/-- `crypto_aes_ccm_update_payload` (line 1444). -/
def crypto_aes_ccm_update_payload (_ctx : Option Blob) (_mode : TEE_OperationMode)
    (_src_data : Option Blob) (_len : Nat) (_dst_data : Option Blob) :
    TEE_Result := TEE_ERROR_NOT_IMPLEMENTED

/-- `crypto_aes_ccm_enc_final` (line 1453). -/
def crypto_aes_ccm_enc_final (_ctx : Option Blob) (_src_data : Option Blob) (_len : Nat)
    (_dst_data : Option Blob) (_dst_tag : Option Blob) (_dst_tag_len : Option Nat) :
    TEE_Result := TEE_ERROR_NOT_IMPLEMENTED

/-- `crypto_aes_ccm_dec_final` (line 1463). -/
def crypto_aes_ccm_dec_final (_ctx : Option Blob) (_src_data : Option Blob) (_len : Nat)
    (_dst_data : Option Blob) (_tag : Option Blob) (_tag_len : Nat) :
    TEE_Result := TEE_ERROR_NOT_IMPLEMENTED

/-- `crypto_aes_gcm_alloc_ctx` (line 1479). -/
def crypto_aes_gcm_alloc_ctx (_ctx_ret : Option Blob) :
    TEE_Result := TEE_ERROR_NOT_IMPLEMENTED

/-- `crypto_aes_gcm_init` (line 1495). -/
def crypto_aes_gcm_init (_ctx : Option Blob) (_mode : TEE_OperationMode)
    (_key : Option Blob) (_key_len : Nat) (_nonce : Option Blob) (_nonce_len : Nat)
    (_tag_len : Nat) :
    TEE_Result := TEE_ERROR_NOT_IMPLEMENTED

/-- `crypto_aes_gcm_update_aad` (line 1506). -/
def crypto_aes_gcm_update_aad (_ctx : Option Blob) (_data : Option Blob) (_len : Nat) :
    TEE_Result := TEE_ERROR_NOT_IMPLEMENTED

/-- `crypto_aes_gcm_update_payload` (line 1513). -/
def crypto_aes_gcm_update_payload (_ctx : Option Blob) (_mode : TEE_OperationMode)
    (_src_data : Option Blob) (_len : Nat) (_dst_data : Option Blob) :
    TEE_Result := TEE_ERROR_NOT_IMPLEMENTED

/-- `crypto_aes_gcm_enc_final` (line 1522). -/
def crypto_aes_gcm_enc_final (_ctx : Option Blob) (_src_data : Option Blob) (_len : Nat)
    (_dst_data : Option Blob) (_dst_tag : Option Blob) (_dst_tag_len : Option Nat) :
    TEE_Result := TEE_ERROR_NOT_IMPLEMENTED

/-- `crypto_aes_gcm_dec_final` (line 1532). -/
def crypto_aes_gcm_dec_final (_ctx : Option Blob) (_src_data : Option Blob) (_len : Nat)
    (_dst_data : Option Blob) (_tag : Option Blob) (_tag_len : Nat) :
    TEE_Result := TEE_ERROR_NOT_IMPLEMENTED

/-! ## Pseudo random number generator -/

/-- The switches the random number functions test. -/
structure RngConfig where
  CFG_CRYPTO_CTR_DRBG : Bool
  CFG_CRYPTO_HMAC_DRBG : Bool
  MBEDTLS_SHA1_C : Bool
  MBEDTLS_SHA256_C : Bool
  deriving DecidableEq, Repr

/-- `_rand` (lines 23-27): the value returned and the new value of the static `next`.
`L` is the width of `unsigned long`. -/
def _rand (L : Nat) (next : Nat) : Nat × Nat :=
  (((next * 1103515245 + 12345) % 2 ^ L / 65536) % 2 ^ 32 % 32768,
    (next * 1103515245 + 12345) % 2 ^ L)

/-- The four bytes of an `int` of non-negative value `v` in memory, on a little-endian
target with a 32-bit `int`. -/
def int_bytes (v : Nat) : Blob :=
  [v % 256, v / 256 % 256, v / 65536 % 256, v / 16777216 % 256]

/-- The `while (len > 0)` loop of `mbd_rand` (lines 37-46): `written` is what has gone
through `output` so far; the result is all the bytes written and the final `next`. -/
def mbd_rand_loop (L : Nat) (written : Blob) (len next : Nat) : Blob × Nat :=
  if len = 0 then (written, next)
  else
    mbd_rand_loop L
      (written ++ (int_bytes (_rand L next).1).take (if len > 4 then 4 else len))
      (len - (if len > 4 then 4 else len)) (_rand L next).2
termination_by len
decreasing_by
  simp_wf
  split <;> omega

/-- `mbd_rand` (lines 29-48): the value returned, the bytes written at `output` and the
new value of `next`. -/
def mbd_rand (L : Nat) (_rng_state : Option Blob) (len next : Nat) : Int × Blob × Nat :=
  (0, mbd_rand_loop L [] len next)

/-- The value of `next` after `k` calls of `_rand`. -/
def rand_state (L : Nat) : Nat → Nat → Nat
  | next, 0 => next
  | next, k + 1 => rand_state L (_rand L next).2 k

/-- The non-negative integer a little-endian byte sequence encodes. -/
def int_of_bytes : Blob → Nat
  | [] => 0
  | b :: bs => b + 256 * int_of_bytes bs

/-- The mbedTLS generator routines.  An entropy callback `f_entropy` is a function from
the length asked for and the state it works on to its status, its bytes and the new
state; a routine that receives a callback reaches that state only through it.  A seed
routine returns its status, the generator context and the state; a random routine its
status, the bytes it writes and the state. -/
structure RngBackend where
  MBEDTLS_MD_SHA1 : Nat
  MBEDTLS_MD_SHA256 : Nat
  mbedtls_md_info_from_type : Nat → Option Nat
  mbedtls_ctr_drbg_seed :
    (S : Type) → (Nat → S → Int × Blob × S) → S → Int × Blob × S
  mbedtls_ctr_drbg_random :
    (S : Type) → (Nat → S → Int × Blob × S) → Blob → Nat → S → Int × Blob × S
  mbedtls_hmac_drbg_seed :
    (S : Type) → Nat → (Nat → S → Int × Blob × S) → S → Int × Blob × S
  mbedtls_hmac_drbg_random :
    (S : Type) → (Nat → S → Int × Blob × S) → Blob → Nat → S → Int × Blob × S
  mbedtls_entropy_update_manual : Option Blob → Nat → Int

/-- What a random number function returns: its result, the bytes written at the
caller's buffer, and the static `next` afterwards. -/
structure RngRet where
  res : TEE_Result
  out : Blob
  next : Nat
  deriving DecidableEq, Repr

/-- `ctr_drbg_read` (lines 1553-1578). -/
def ctr_drbg_read (L : Nat) (R : RngBackend) (blen next : Nat) : Outcome RngRet :=
  let s := R.mbedtls_ctr_drbg_seed Nat (fun len st => mbd_rand L none len st) next
  if s.1 ≠ 0 then
    .ret ⟨TEE_ERROR_SECURITY, [], s.2.2⟩
      [Call.mbedtls_ctr_drbg_init, Call.mbedtls_ctr_drbg_seed, Call.mbedtls_ctr_drbg_free]
  else
    let r := R.mbedtls_ctr_drbg_random Nat (fun len st => mbd_rand L none len st) s.2.1
      blen s.2.2
    if r.1 ≠ 0 then
      .ret ⟨TEE_ERROR_BAD_STATE, r.2.1, r.2.2⟩
        [Call.mbedtls_ctr_drbg_init, Call.mbedtls_ctr_drbg_seed,
         Call.mbedtls_ctr_drbg_random, Call.mbedtls_ctr_drbg_free]
    else
      .ret ⟨TEE_SUCCESS, r.2.1, r.2.2⟩
        [Call.mbedtls_ctr_drbg_init, Call.mbedtls_ctr_drbg_seed,
         Call.mbedtls_ctr_drbg_random, Call.mbedtls_ctr_drbg_free]

/-- `hmac_drbg_read` (lines 1582-1621).  With neither `MBEDTLS_SHA1_C` nor
`MBEDTLS_SHA256_C` the local `md_info` is read without having been set. -/
def hmac_drbg_read (L : Nat) (R : RngBackend) (rcfg : RngConfig) (blen next : Nat) :
    Outcome RngRet :=
  if rcfg.MBEDTLS_SHA1_C = false ∧ rcfg.MBEDTLS_SHA256_C = false then
    .undefined [Call.mbedtls_hmac_drbg_init]
  else
    let md_info :=
      if rcfg.MBEDTLS_SHA256_C = true then R.mbedtls_md_info_from_type R.MBEDTLS_MD_SHA256
      else R.mbedtls_md_info_from_type R.MBEDTLS_MD_SHA1
    match md_info with
    | none =>
      .ret ⟨TEE_ERROR_BAD_STATE, [], next⟩
        [Call.mbedtls_hmac_drbg_init, Call.mbedtls_hmac_drbg_free]
    | some mi =>
      let s := R.mbedtls_hmac_drbg_seed Nat mi (fun len st => mbd_rand L none len st) next
      if s.1 ≠ 0 then
        .ret ⟨TEE_ERROR_SECURITY, [], s.2.2⟩
          [Call.mbedtls_hmac_drbg_init, Call.mbedtls_hmac_drbg_seed,
           Call.mbedtls_hmac_drbg_free]
      else
        let r := R.mbedtls_hmac_drbg_random Nat (fun len st => mbd_rand L none len st)
          s.2.1 blen s.2.2
        if r.1 ≠ 0 then
          .ret ⟨TEE_ERROR_BAD_STATE, r.2.1, r.2.2⟩
            [Call.mbedtls_hmac_drbg_init, Call.mbedtls_hmac_drbg_seed,
             Call.mbedtls_hmac_drbg_random, Call.mbedtls_hmac_drbg_free]
        else
          .ret ⟨TEE_SUCCESS, r.2.1, r.2.2⟩
            [Call.mbedtls_hmac_drbg_init, Call.mbedtls_hmac_drbg_seed,
             Call.mbedtls_hmac_drbg_random, Call.mbedtls_hmac_drbg_free]

/-- `crypto_rng_read` (lines 1624-1631).  With neither generator configured the
function has no `return`. -/
def crypto_rng_read (L : Nat) (R : RngBackend) (rcfg : RngConfig) (blen next : Nat) :
    Outcome RngRet :=
  if rcfg.CFG_CRYPTO_CTR_DRBG = true then ctr_drbg_read L R blen next
  else if rcfg.CFG_CRYPTO_HMAC_DRBG = true then hmac_drbg_read L R rcfg blen next
  else .undefined []

/-- `crypto_rng_add_entropy` (lines 1633-1650): the entropy context is a local, set up
and released inside the call. -/
def crypto_rng_add_entropy (R : RngBackend) (inbuf : Option Blob) (len next : Nat) :
    Outcome RngRet :=
  if R.mbedtls_entropy_update_manual inbuf len ≠ 0 then
    .ret ⟨TEE_ERROR_SECURITY, [], next⟩
      [Call.mbedtls_entropy_init, Call.mbedtls_entropy_update_manual,
       Call.mbedtls_entropy_free]
  else
    .ret ⟨TEE_SUCCESS, [], next⟩
      [Call.mbedtls_entropy_init, Call.mbedtls_entropy_update_manual,
       Call.mbedtls_entropy_free]

/-! ## A concrete backend and concrete configurations, for evaluating the functions -/

/-- Every switch on. -/
def cfg_all : Config :=
  ⟨true, true, true, true, true, true, true, true, true, true, true, true, true, true,
    true, true⟩

/-- Every switch off. -/
def cfg_none : Config :=
  ⟨false, false, false, false, false, false, false, false, false, false, false, false,
    false, false, false, false⟩

/-- HMAC and CMAC on, no hash and no AES: the underlying primitives are compiled out. -/
def cfg_mac_only : Config :=
  { cfg_none with CFG_CRYPTO_HMAC := true, CFG_CRYPTO_CMAC := true }

/-- ECB on, AES off: the cipher switch has the AES-ECB label and no AES descriptor. -/
def cfg_ecb_no_aes : Config :=
  { cfg_none with CFG_CRYPTO_ECB := true }

/-- CBC on, ECB off. -/
def cfg_cbc_only : Config :=
  { cfg_none with CFG_CRYPTO_AES := true, CFG_CRYPTO_CBC := true }

/-- ECB on, CBC off. -/
def cfg_ecb_only : Config :=
  { cfg_none with CFG_CRYPTO_AES := true, CFG_CRYPTO_ECB := true }

/-- The descriptor table of the sample backend: the position of the name. -/
def sample_cipher_names : List String :=
  ["AES-128-ECB", "AES-192-ECB", "AES-256-ECB", "AES-128-CBC", "AES-192-CBC",
   "AES-256-CBC", "AES-128-CTR", "AES-192-CTR", "AES-256-CTR", "DES-ECB", "DES-CBC",
   "DES-EDE-ECB", "DES-EDE3-ECB", "DES-EDE-CBC", "DES-EDE3-CBC"]

/-- The digest table of the sample backend: name and digest size. -/
def sample_md_table : List (String × Nat) :=
  [("MD5", 16), ("SHA1", 20), ("SHA224", 28), ("SHA256", 32), ("SHA384", 48),
   ("SHA512", 64)]

/-- A digest of the sample backend: `n` bytes computed from the context bytes. -/
def sample_digest (n : Nat) (c : Blob) : Blob :=
  (List.range n).map fun i => (c.sum + i) % 256

/-- The update of a sample digest: the second byte of the context accumulates the sum of
the `len` bytes fed. -/
def sample_absorb (c : Blob) (d : Option Blob) (len : Nat) : Blob :=
  c.set 1 ((c.getD 1 0 + ((d.getD []).take len).sum) % 256)

/-- A small executable backend.  A context block keeps in its first byte the digest or
block size bound to it. -/
def sample_backend : Backend where
  sizeof_mbedtls_md5_context := 88
  sizeof_mbedtls_sha1_context := 92
  sizeof_mbedtls_sha256_context := 108
  sizeof_mbedtls_sha512_context := 216
  sizeof_mbedtls_cipher_context_t := 64
  sizeof_mbedtls_md_context_t := 12
  sizeof_aes_buf := 272
  MBEDTLS_KEY_LENGTH_DES := 64
  MBEDTLS_KEY_LENGTH_DES_EDE := 128
  mbedtls_cipher_info_from_string := fun name =>
    if name ∈ sample_cipher_names then some (sample_cipher_names.indexOf name + 1) else none
  mbedtls_md_info_from_string := fun name =>
    (sample_md_table.lookup name).map fun n => n
  mbedtls_sha1_finish := fun c => (c, sample_digest 20 c)
  mbedtls_md5_finish := fun c => (c, sample_digest 16 c)
  mbedtls_sha256_finish := fun c => (c, sample_digest (if c.head? = some 1 then 28 else 32) c)
  mbedtls_sha512_finish := fun c => (c, sample_digest (if c.head? = some 1 then 48 else 64) c)
  mbedtls_cipher_init := fun c => c
  mbedtls_cipher_setup := fun c ci => (if ci = 0 then -1 else 0, 16 :: c.drop 1)
  mbedtls_cipher_setup_info := fun c _ => (0, c)
  mbedtls_cipher_setkey := fun c _ _ _ => (0, c)
  mbedtls_cipher_set_iv := fun c _ _ => (0, c)
  mbedtls_cipher_reset := fun c => (0, c)
  mbedtls_cipher_get_block_size := fun c => c.headD 0
  mbedtls_cipher_update := fun c d => (0, c, d.map fun x => (x + 1) % 256)
  mbedtls_cipher_finish := fun c => (0, c, [])
  mbedtls_md_init := fun c => c
  mbedtls_md_setup := fun c mi _ => (0, mi :: c.drop 1)
  md_info := fun c => if c.headD 0 = 0 then none else some (c.headD 0)
  mbedtls_md_get_size := fun mi => mi.getD 0
  mbedtls_md_hmac_reset := fun c => c
  mbedtls_md_hmac_starts := fun c _ _ => (0, c)
  mbedtls_md_hmac_update := fun c d _ => (0, c ++ d)
  mbedtls_md_hmac_finish := fun c => (0, c, sample_digest (c.headD 0) c)
  mbedtls_cipher_cmac_setup := fun c => (0, c)
  mbedtls_cipher_cmac_reset := fun c => (0, c)
  mbedtls_cipher_cmac_starts := fun c _ _ => (0, c)
  mbedtls_cipher_cmac_update := fun c d _ => (0, c ++ d)
  mbedtls_cipher_cmac_finish := fun c => (0, c, sample_digest 16 c)
  mbedtls_aes_setkey_enc := fun key keybits =>
    if keybits = 128 then (0, ⟨10, sample_digest 272 key⟩)
    else if keybits = 192 then (0, ⟨12, sample_digest 272 key⟩)
    else if keybits = 256 then (0, ⟨14, sample_digest 272 key⟩)
    else (-32, ⟨0, zero_block 272⟩)
  mbedtls_sha1_init := fun c => zero_block c.length
  mbedtls_sha1_starts := fun c => c
  mbedtls_sha1_update := fun c d len => sample_absorb c d len
  mbedtls_md5_init := fun c => zero_block c.length
  mbedtls_md5_starts := fun c => c
  mbedtls_md5_update := fun c d len => sample_absorb c d len
  mbedtls_sha256_init := fun c => zero_block c.length
  mbedtls_sha256_starts := fun c is224 => (if is224 = 0 then 0 else 1) :: c.drop 1
  mbedtls_sha256_update := fun c d len => sample_absorb c d len
  mbedtls_sha512_init := fun c => zero_block c.length
  mbedtls_sha512_starts := fun c is384 => (if is384 = 0 then 0 else 1) :: c.drop 1
  mbedtls_sha512_update := fun c d len => sample_absorb c d len

/-- Modelled from the spec: `tee_hash_get_digest_size` of `tee_cryp_utl.c` is not among
the sources; this sample gives each plain hash identifier its natural digest length and
rejects every other identifier. -/
def sample_digest_size (algo : Nat) : TEE_Result × Nat :=
  if algo = TEE_ALG_MD5 then (TEE_SUCCESS, 16)
  else if algo = TEE_ALG_SHA1 then (TEE_SUCCESS, 20)
  else if algo = TEE_ALG_SHA224 then (TEE_SUCCESS, 28)
  else if algo = TEE_ALG_SHA256 then (TEE_SUCCESS, 32)
  else if algo = TEE_ALG_SHA384 then (TEE_SUCCESS, 48)
  else if algo = TEE_ALG_SHA512 then (TEE_SUCCESS, 64)
  else (TEE_ERROR_NOT_SUPPORTED, 0)

/-- The three AES identifiers with a key-width table in
`tee_algo_to_mbedtls_cipher_info`, each with the mode part of its descriptor names. -/
def aes_mode_table : List (Nat × String) :=
  [(TEE_ALG_AES_ECB_NOPAD, "ECB"), (TEE_ALG_AES_CBC_NOPAD, "CBC"), (TEE_ALG_AES_CTR, "CTR")]

/-- Every `case` label of `tee_algo_to_mbedtls_cipher_info`. -/
def cipher_info_table_ids : List Nat :=
  [TEE_ALG_AES_ECB_NOPAD, TEE_ALG_AES_CBC_NOPAD, TEE_ALG_AES_CTR, TEE_ALG_AES_CTS,
   TEE_ALG_AES_XTS, TEE_ALG_AES_CCM, TEE_ALG_AES_GCM, TEE_ALG_AES_CBC_MAC_NOPAD,
   TEE_ALG_AES_CBC_MAC_PKCS5, TEE_ALG_DES_ECB_NOPAD, TEE_ALG_DES_CBC_MAC_NOPAD,
   TEE_ALG_DES_CBC_MAC_PKCS5, TEE_ALG_DES_CBC_NOPAD, TEE_ALG_DES3_ECB_NOPAD,
   TEE_ALG_DES3_CBC_MAC_NOPAD, TEE_ALG_DES3_CBC_MAC_PKCS5, TEE_ALG_DES3_CBC_NOPAD]

/-- Whether a call is one of the two MAC finish routines. -/
def is_mac_finish : Call → Bool
  | Call.mbedtls_md_hmac_finish => true
  | Call.mbedtls_cipher_cmac_finish => true
  | _ => false


/-- The sample backend with a cipher setup that always fails. -/
def failing_setup_backend : Backend :=
  { sample_backend with mbedtls_cipher_setup := fun c _ => (-1, c) }


/-- The sample backend with a digest setup that always fails. -/
def failing_md_setup_backend : Backend :=
  { sample_backend with mbedtls_md_setup := fun c _ _ => (-1, c) }


/-! ## Backends with a stated mode behaviour -/

/-- The bytes of `d` XORed with a keystream: byte `i` with `f i`. -/
def xor_stream (f : Nat → Nat) : Blob → Blob
  | [] => []
  | x :: xs => (x ^^^ f 0) :: xor_stream (fun i => f (i + 1)) xs

/-- A backend whose cipher update is a keystream XOR continuing from the counter
position of the context (`ks c i` is the keystream byte `i` places after the position of
`c`), and whose finish routine writes nothing and leaves that position unchanged. -/
def ctr_keystream_backend (B : Backend) (ks : Blob → Nat → Nat) : Prop :=
  (∀ c d, (B.mbedtls_cipher_update c d).1 = 0 ∧
    (B.mbedtls_cipher_update c d).2.2 = xor_stream (ks c) d ∧
    ∀ i, ks (B.mbedtls_cipher_update c d).2.1 i = ks c (d.length + i)) ∧
  (∀ c, (B.mbedtls_cipher_finish c).1 = 0 ∧ (B.mbedtls_cipher_finish c).2.2 = [] ∧
    ∀ i, ks (B.mbedtls_cipher_finish c).2.1 i = ks c i)

/-- The keystream of the sample counter-mode backend: the first byte of the context is
the counter position. -/
def sample_ks (c : Blob) (i : Nat) : Nat :=
  ((c.headD 0 + i) * 7 + 3) % 256

/-- The sample backend with a counter-mode cipher update. -/
def ctr_sample_backend : Backend :=
  { sample_backend with
    mbedtls_cipher_update := fun c d =>
      (0, (c.headD 0 + d.length) :: c.drop 1, xor_stream (sample_ks c) d)
    mbedtls_cipher_finish := fun c => (0, c, []) }

/-- A toy chained encryption on one-byte blocks: each output byte is the input byte
XORed with the previous output byte (the chaining value), plus 1.  The result is the
output and the last chaining value. -/
def cbc_chain : Nat → Blob → Blob × Nat
  | ch, [] => ([], ch)
  | ch, x :: xs =>
    (((x ^^^ ch) + 1) % 256 :: (cbc_chain (((x ^^^ ch) + 1) % 256) xs).1,
      (cbc_chain (((x ^^^ ch) + 1) % 256) xs).2)

/-- The sample backend with a chained cipher update: the context is the installed
chaining value followed by the running one. -/
def cbc_sample_backend : Backend :=
  { sample_backend with
    mbedtls_cipher_reset := fun c => (0, [c.headD 0, c.headD 0])
    mbedtls_cipher_update := fun c d =>
      (0, [c.headD 0, (cbc_chain (c.getD 1 0) d).2], (cbc_chain (c.getD 1 0) d).1)
    mbedtls_cipher_finish := fun c => (0, c, []) }

/-- A small executable generator backend: the seed routine asks the callback for 48
bytes, which become the generator context; the random routine asks for `blen` more
bytes and writes them XORed with the first context byte. -/
def sample_rng_backend : RngBackend where
  MBEDTLS_MD_SHA1 := 4
  MBEDTLS_MD_SHA256 := 6
  mbedtls_md_info_from_type := fun t => if t = 4 ∨ t = 6 then some t else none
  mbedtls_ctr_drbg_seed := fun _ f st => ((f 48 st).1, (f 48 st).2.1, (f 48 st).2.2)
  mbedtls_ctr_drbg_random := fun _ f c blen st =>
    (0, ((f blen st).2.1).map (fun x => x ^^^ c.headD 0), (f blen st).2.2)
  mbedtls_hmac_drbg_seed := fun _ _ f st => ((f 32 st).1, (f 32 st).2.1, (f 32 st).2.2)
  mbedtls_hmac_drbg_random := fun _ f c blen st =>
    (0, ((f blen st).2.1).map (fun x => x ^^^ c.headD 0), (f blen st).2.2)
  mbedtls_entropy_update_manual := fun inbuf _ => if inbuf = none then -60 else 0

/-- The counter-mode generator configured. -/
def rcfg_ctr : RngConfig := ⟨true, false, false, true⟩

/-- The block-by-block run C20 describes: `m` backend update calls, the call for block
`k` reading the `b` source bytes from `k * b` and writing its output at `k * b` of the
destination; the result is the context and the destination afterwards. -/
def ecb_blocks (B : Backend) (b : Nat) (data : Blob) : Nat → Nat → Blob → Blob → Blob × Blob
  | 0, _, c, dst => (c, dst)
  | m + 1, k, c, dst =>
    ecb_blocks B b data m (k + 1)
      (B.mbedtls_cipher_update c ((data.drop (k * b)).take b)).2.1
      (write_at dst (k * b) (B.mbedtls_cipher_update c ((data.drop (k * b)).take b)).2.2)

/-! # Theorems -/

/-! ## C1: the capacity test of the key-schedule helper -/

/-- C1, as stated, fails: with a 16-byte AES key and an expanded-key buffer of capacity
16, smaller than the 272 bytes of key-schedule storage, `crypto_aes_expand_enc_key`
returns `TEE_SUCCESS`, overwrites the 16 bytes of `enc_key` and stores the round count
10 in `*rounds`. -/
theorem C1_counterexample :
    16 < sample_backend.sizeof_aes_buf ∧
    (crypto_aes_expand_enc_key 64 sample_backend (zero_block 16) 16
      (List.replicate 16 255) 16 0).res = TEE_SUCCESS ∧
    (crypto_aes_expand_enc_key 64 sample_backend (zero_block 16) 16
      (List.replicate 16 255) 16 0).enc_key
      = [0, 1, 2, 3, 4, 5, 6, 7, 8, 9, 10, 11, 12, 13, 14, 15] ∧
    (crypto_aes_expand_enc_key 64 sample_backend (zero_block 16) 16
      (List.replicate 16 255) 16 0).rounds = 10 := by
  decide

/-- C1, amended: once the backend key setup has succeeded, `crypto_aes_expand_enc_key`
returns `TEE_ERROR_BAD_PARAMETERS` exactly when the capacity `enc_keylen` is larger than
the key-schedule storage `sizeof(ctx.buf)`, and then writes neither `enc_key` nor
`*rounds`; for every capacity up to that size it returns `TEE_SUCCESS`, copies the first
`enc_keylen` bytes of the key schedule into `enc_key` and stores the round count. -/
theorem C1_expand_enc_key_capacity (W : Nat) (B : Backend) (key : Blob) (key_len : Nat)
    (enc_key : Blob) (enc_keylen rounds : Nat)
    (hkey : (B.mbedtls_aes_setkey_enc key ((key_len * 8) % 2 ^ W)).1 = 0) :
    ((crypto_aes_expand_enc_key W B key key_len enc_key enc_keylen rounds).res
        = TEE_ERROR_BAD_PARAMETERS ↔ B.sizeof_aes_buf < enc_keylen) ∧
    (B.sizeof_aes_buf < enc_keylen →
      (crypto_aes_expand_enc_key W B key key_len enc_key enc_keylen rounds).enc_key
          = enc_key ∧
      (crypto_aes_expand_enc_key W B key key_len enc_key enc_keylen rounds).rounds
          = rounds) ∧
    (enc_keylen ≤ B.sizeof_aes_buf →
      (crypto_aes_expand_enc_key W B key key_len enc_key enc_keylen rounds).res
          = TEE_SUCCESS ∧
      (crypto_aes_expand_enc_key W B key key_len enc_key enc_keylen rounds).enc_key
          = memcpy enc_key (B.mbedtls_aes_setkey_enc key ((key_len * 8) % 2 ^ W)).2.buf
              enc_keylen ∧
      (crypto_aes_expand_enc_key W B key key_len enc_key enc_keylen rounds).rounds
          = (B.mbedtls_aes_setkey_enc key ((key_len * 8) % 2 ^ W)).2.nr) := by
  unfold crypto_aes_expand_enc_key
  simp only [hkey, ne_eq, not_true_eq_false, if_false]
  by_cases h : enc_keylen > B.sizeof_aes_buf
  · have h2 : ¬ enc_keylen ≤ B.sizeof_aes_buf := Nat.not_le.mpr h
    simp [h, h2]
  · have h2 : enc_keylen ≤ B.sizeof_aes_buf := Nat.le_of_not_gt h
    have h3 : ¬ B.sizeof_aes_buf < enc_keylen := h
    simp [h, h2, h3]

/-- C1, amended, at a concrete call: capacity 300 against 272 bytes of storage is
rejected, nothing written. -/
theorem C1_expand_enc_key_capacity_witness :
    (sample_backend.mbedtls_aes_setkey_enc (zero_block 16) ((16 * 8) % 2 ^ 64)).1 = 0 ∧
    (crypto_aes_expand_enc_key 64 sample_backend (zero_block 16) 16 (zero_block 300)
      300 0).res = TEE_ERROR_BAD_PARAMETERS :=
  ⟨by decide,
   (C1_expand_enc_key_capacity 64 sample_backend (zero_block 16) 16 (zero_block 300)
      300 0 (by decide)).1.mpr (by decide)⟩


/-! ## C2: truncation in `crypto_hash_final` -/

/-- Taking `n` bytes of what `memcpy` produced with count `n`, when the source has them. -/
theorem memcpy_take (dst src : Blob) (n : Nat) (h : n ≤ src.length) :
    (memcpy dst src n).take n = src.take n := by
  unfold memcpy
  rw [List.take_append_of_le_length (by simp [h])]
  simp

/-- The bytes past the count of a `memcpy` are those of the destination. -/
theorem memcpy_drop (dst src : Blob) (n : Nat) (h : n ≤ src.length) :
    (memcpy dst src n).drop n = dst.drop n := by
  unfold memcpy
  have hl : (src.take n).length = n := by simp [h]
  rw [List.drop_append_eq_append_drop, hl]
  simp [List.drop_eq_nil_of_le, hl]

/-- Bytes written at offset 0 are the first bytes of the buffer afterwards. -/
theorem write_at_zero_take (buf src : Blob) (n : Nat) (h : n ≤ src.length) :
    (write_at buf 0 src).take n = src.take n := by
  unfold write_at
  simp [List.take_append_of_le_length h]

/-- For every enabled plain hash identifier the `switch` of `crypto_hash_final` selects
the finish routine of the family of the identifier. -/
theorem hash_final_switch_enabled (B : Backend) (cfg : Config) (algo : Nat)
    (h : plain_hash_enabled cfg algo) :
    hash_final_switch B cfg algo = some (hash_finish_routine B algo) := by
  rcases h with ⟨hc, rfl⟩ | ⟨hc, rfl⟩ | ⟨hc, rfl⟩ | ⟨hc, rfl⟩ | ⟨hc, rfl⟩ | ⟨hc, rfl⟩ <;>
    simp [hash_final_switch, hash_finish_routine, hc]

/-- C2: for every enabled plain hash identifier, in every configuration, a non-null
context `c`, a digest size `hs` reported by `tee_hash_get_digest_size` that fits the
scratch buffer and is the number of bytes the finish routine of the identifier writes,
and every `len < hs`: `crypto_hash_final` returns `TEE_SUCCESS` after the one call of
that finish routine, the first `len` bytes of the caller's buffer are the first `len`
bytes of the digest the routine produces for `c`, and the bytes of the caller's buffer
from index `len` on are unchanged. -/
theorem C2_hash_final_truncates (B : Backend) (cfg : Config)
    (tee_hash_get_digest_size : Nat → TEE_Result × Nat) (block_digest c : Blob)
    (algo : Nat) (digest : Blob) (len hs : Nat)
    (hen : plain_hash_enabled cfg algo)
    (hres : (tee_hash_get_digest_size algo).1 = TEE_SUCCESS)
    (hsize : (tee_hash_get_digest_size algo).2 = hs)
    (hmax : hs ≤ TEE_MAX_HASH_SIZE)
    (hfin : ((hash_finish_routine B algo).2 c).2.length = hs)
    (hlen : len < hs) :
    ∃ out : Blob,
      crypto_hash_final B cfg tee_hash_get_digest_size block_digest (some c) algo digest
          len
        = .ret ⟨TEE_SUCCESS, some ((hash_finish_routine B algo).2 c).1, out⟩
            [(hash_finish_routine B algo).1] ∧
      out.take len = ((hash_finish_routine B algo).2 c).2.take len ∧
      out.drop len = digest.drop len := by
  have hsw := hash_final_switch_enabled B cfg algo hen
  have hle : len ≤ ((hash_finish_routine B algo).2 c).2.length := by omega
  have hle2 :
      len ≤ (write_at block_digest 0 ((hash_finish_routine B algo).2 c).2).length := by
    unfold write_at
    simp
    omega
  refine ⟨memcpy digest (write_at block_digest 0 ((hash_finish_routine B algo).2 c).2) len,
    ?_, ?_, ?_⟩
  · unfold crypto_hash_final
    have hnot : ¬ (hs > len ∧ hs > TEE_MAX_HASH_SIZE) := by omega
    simp only [hres, hsize, hsw, ne_eq, not_true_eq_false, if_false, hnot]
    simp [hlen]
  · rw [memcpy_take _ _ _ hle2, write_at_zero_take _ _ _ hle]
  · exact memcpy_drop _ _ _ hle2

/-- C2 at a concrete call: SHA-256 with every switch on, a 108-byte zero context and a
20-byte request into a 24-byte buffer. -/
theorem C2_hash_final_truncates_witness :
    ∃ out : Blob,
      crypto_hash_final sample_backend cfg_all sample_digest_size (zero_block 64)
          (some (zero_block 108)) TEE_ALG_SHA256 (List.replicate 24 255) 20
        = .ret ⟨TEE_SUCCESS,
            some ((hash_finish_routine sample_backend TEE_ALG_SHA256).2 (zero_block 108)).1,
            out⟩ [(hash_finish_routine sample_backend TEE_ALG_SHA256).1] ∧
      out.take 20
        = ((hash_finish_routine sample_backend TEE_ALG_SHA256).2 (zero_block 108)).2.take
            20 ∧
      out.drop 20 = (List.replicate 24 255).drop 20 :=
  C2_hash_final_truncates sample_backend cfg_all sample_digest_size (zero_block 64)
    (zero_block 108) TEE_ALG_SHA256 (List.replicate 24 255) 20 32
    (Or.inr (Or.inr (Or.inr (Or.inl ⟨rfl, rfl⟩)))) (by decide) (by decide) (by decide)
    (by decide) (by decide)


/-! ## C3: `crypto_mac_final` and a short output buffer -/

/-- C3: with the MAC family compiled in, for every HMAC identifier and for AES-CMAC, a
`digest_len` smaller than the MAC size the context reports (the digest size of
`ctx->md_info` for HMAC, the cipher block size for CMAC) makes `crypto_mac_final`
return `TEE_ERROR_SHORT_BUFFER` with the context and every byte of the output buffer
unchanged and no call of a backend finish routine. -/
theorem C3_mac_final_short_buffer (B : Backend) (cfg : Config) (c : Blob) (algo : Nat)
    (digest : Blob) (digest_len : Nat)
    (h : (cfg.CFG_CRYPTO_HMAC = true ∧ hmac_case algo ∧
            digest_len < B.mbedtls_md_get_size (B.md_info c)) ∨
         (cfg.CFG_CRYPTO_CMAC = true ∧ algo = TEE_ALG_AES_CMAC ∧
            digest_len < B.mbedtls_cipher_get_block_size c)) :
    ∃ calls : List Call,
      crypto_mac_final B cfg (some c) algo digest digest_len
        = .ret ⟨TEE_ERROR_SHORT_BUFFER, some c, digest⟩ calls ∧
      ∀ call ∈ calls, is_mac_finish call = false := by
  rcases h with ⟨hcfg, halgo, hlen⟩ | ⟨hcfg, halgo, hlen⟩
  · refine ⟨[], ?_, by simp⟩
    unfold crypto_mac_final
    simp [hcfg, halgo, hlen]
  · refine ⟨[Call.mbedtls_cipher_get_block_size], ?_, by simp [is_mac_finish]⟩
    subst halgo
    unfold crypto_mac_final
    simp [hcfg, hlen, hmac_case, cbc_mac_case]

/-- C3 at HMAC-SHA256: a context bound to a 32-byte digest and `digest_len = 31`. -/
theorem C3_mac_final_short_buffer_witness :
    sample_backend.mbedtls_md_get_size (sample_backend.md_info (32 :: zero_block 11)) = 32 ∧
    ∃ calls : List Call,
      crypto_mac_final sample_backend cfg_all (some (32 :: zero_block 11))
          TEE_ALG_HMAC_SHA256 (zero_block 31) 31
        = .ret ⟨TEE_ERROR_SHORT_BUFFER, some (32 :: zero_block 11), zero_block 31⟩ calls ∧
      ∀ call ∈ calls, is_mac_finish call = false :=
  ⟨by decide,
   C3_mac_final_short_buffer sample_backend cfg_all (32 :: zero_block 11)
     TEE_ALG_HMAC_SHA256 (zero_block 31) 31 (Or.inl ⟨by decide, by decide, by decide⟩)⟩

/-! ## C4: the AES rows of the descriptor table -/

/-- C4: with AES enabled, for each of AES-ECB, AES-CBC and AES-CTR and every `key_len`,
`tee_algo_to_mbedtls_cipher_info` asks the backend for a descriptor exactly when
`key_len` is 128, 192 or 256, and the name it asks for is `AES-<key_len>-<MODE>`; for
every other `key_len` it returns `NULL`, and so it does for every identifier that is
not a `case` label of the table. -/
theorem C4_cipher_info_aes (B : Backend) (cfg : Config) (key_len : Nat)
    (hAES : cfg.CFG_CRYPTO_AES = true) :
    (∀ p ∈ aes_mode_table,
      ((tee_algo_to_mbedtls_cipher_info_string cfg p.1 key_len).isSome = true ↔
        (key_len = 128 ∨ key_len = 192 ∨ key_len = 256)) ∧
      (key_len = 128 ∨ key_len = 192 ∨ key_len = 256 →
        tee_algo_to_mbedtls_cipher_info_string cfg p.1 key_len
          = some ("AES-" ++ toString key_len ++ "-" ++ p.2) ∧
        tee_algo_to_mbedtls_cipher_info B cfg p.1 key_len
          = B.mbedtls_cipher_info_from_string ("AES-" ++ toString key_len ++ "-" ++ p.2)) ∧
      (¬ (key_len = 128 ∨ key_len = 192 ∨ key_len = 256) →
        tee_algo_to_mbedtls_cipher_info B cfg p.1 key_len = none)) ∧
    (∀ algo, algo ∉ cipher_info_table_ids →
      tee_algo_to_mbedtls_cipher_info_string cfg algo key_len = none ∧
      tee_algo_to_mbedtls_cipher_info B cfg algo key_len = none) := by
  constructor
  · intro p hp
    simp only [aes_mode_table, List.mem_cons, List.mem_singleton, List.not_mem_nil,
      or_false] at hp
    rcases hp with rfl | rfl | rfl
    all_goals
      refine ⟨?_, ?_, ?_⟩
      · by_cases h1 : key_len = 128 <;> by_cases h2 : key_len = 192 <;>
          by_cases h3 : key_len = 256 <;>
          simp [tee_algo_to_mbedtls_cipher_info_string, hAES, h1, h2, h3]
      · rintro (rfl | rfl | rfl) <;>
          simp [tee_algo_to_mbedtls_cipher_info, tee_algo_to_mbedtls_cipher_info_string,
            hAES] <;> exact ⟨rfl, rfl⟩
      · intro h
        simp only [not_or] at h
        simp [tee_algo_to_mbedtls_cipher_info, tee_algo_to_mbedtls_cipher_info_string,
          hAES, h.1, h.2.1, h.2.2]
  · intro algo halgo
    simp only [cipher_info_table_ids, List.mem_cons, List.mem_singleton, List.not_mem_nil,
      or_false, not_or] at halgo
    obtain ⟨a1, a2, a3, a4, a5, a6, a7, a8, a9, a10, a11, a12, a13, a14, a15, a16, a17⟩ :=
      halgo
    simp [tee_algo_to_mbedtls_cipher_info, tee_algo_to_mbedtls_cipher_info_string, *]

/-- C4 at AES-CBC with a 192-bit key, every switch on. -/
theorem C4_cipher_info_aes_witness :
    tee_algo_to_mbedtls_cipher_info_string cfg_all TEE_ALG_AES_CBC_NOPAD 192
      = some "AES-192-CBC" ∧
    tee_algo_to_mbedtls_cipher_info sample_backend cfg_all TEE_ALG_AES_CBC_NOPAD 192
      = sample_backend.mbedtls_cipher_info_from_string "AES-192-CBC" :=
  ((C4_cipher_info_aes sample_backend cfg_all 192 (by decide)).1
    (TEE_ALG_AES_CBC_NOPAD, "CBC") (by decide)).2.1 (by decide)


/-! ## C5: XTS and CTS -/

/-- C5: for `TEE_ALG_AES_XTS` and `TEE_ALG_AES_CTS`, whatever the compile-time switches,
the key length and the other arguments, the descriptor lookup returns `NULL`, and
`cipher_get_ctx_size`, `crypto_cipher_alloc_ctx`, `crypto_cipher_init` on a non-null
context and `crypto_cipher_update` on a non-null context return
`TEE_ERROR_NOT_SUPPORTED`, with no external call and the context and destination
untouched. -/
theorem C5_xts_cts_not_supported (W : Nat) (B : Backend) (cfg : Config) (algo : Nat)
    (key_len : Nat) (calloc_ok : Bool) (c : Blob) (mode : TEE_OperationMode)
    (key1 : Blob) (key1_len : Nat) (iv : Option Blob) (iv_len fuel : Nat) (lmd_res0 : Int)
    (data : Blob) (len : Nat) (dst : Blob)
    (h : algo = TEE_ALG_AES_XTS ∨ algo = TEE_ALG_AES_CTS) :
    tee_algo_to_mbedtls_cipher_info B cfg algo key_len = none ∧
    cipher_get_ctx_size B cfg algo = .error TEE_ERROR_NOT_SUPPORTED ∧
    crypto_cipher_alloc_ctx B cfg calloc_ok algo = .ret ⟨TEE_ERROR_NOT_SUPPORTED, none⟩ [] ∧
    crypto_cipher_init W B cfg (some c) algo mode key1 key1_len iv iv_len
      = .ret ⟨TEE_ERROR_NOT_SUPPORTED, some c⟩ [] ∧
    crypto_cipher_update W B cfg fuel lmd_res0 (some c) algo data len dst
      = some (.ret ⟨TEE_ERROR_NOT_SUPPORTED, some c, dst⟩ []) := by
  have hinfo : ∀ k, tee_algo_to_mbedtls_cipher_info B cfg algo k = none := by
    intro k
    rcases h with rfl | rfl <;>
      simp [tee_algo_to_mbedtls_cipher_info, tee_algo_to_mbedtls_cipher_info_string]
  have hsw : cipher_alloc_switch B cfg algo = none := by
    rcases h with rfl | rfl <;> simp [cipher_alloc_switch]
  refine ⟨hinfo key_len, ?_, ?_, ?_, ?_⟩
  · rcases h with rfl | rfl <;> simp [cipher_get_ctx_size]
  · simp [crypto_cipher_alloc_ctx, hsw]
  · simp [crypto_cipher_init, hinfo]
  · rcases h with rfl | rfl <;> simp [crypto_cipher_update]

/-- C5 at `TEE_ALG_AES_XTS` with every switch on and a 32-byte key. -/
theorem C5_xts_cts_not_supported_witness :
    crypto_cipher_alloc_ctx sample_backend cfg_all true TEE_ALG_AES_XTS
      = .ret ⟨TEE_ERROR_NOT_SUPPORTED, none⟩ [] ∧
    crypto_cipher_init 64 sample_backend cfg_all (some (zero_block 64)) TEE_ALG_AES_XTS
        TEE_OperationMode.TEE_MODE_ENCRYPT (zero_block 32) 32 none 0
      = .ret ⟨TEE_ERROR_NOT_SUPPORTED, some (zero_block 64)⟩ [] :=
  have h := C5_xts_cts_not_supported 64 sample_backend cfg_all TEE_ALG_AES_XTS 256 true
    (zero_block 64) TEE_OperationMode.TEE_MODE_ENCRYPT (zero_block 32) 32 none 0 0 0 [] 0
    [] (Or.inl rfl)
  ⟨h.2.2.1, h.2.2.2.1⟩

/-! ## C6: CBC-MAC -/

/-- C6, as stated, fails: for the CBC-MAC identifier `TEE_ALG_AES_CBC_MAC_NOPAD`,
`crypto_mac_update` returns `TEE_SUCCESS` when `data` is null, and when `len` is 0. -/
theorem C6_counterexample :
    crypto_mac_update sample_backend cfg_all (some (zero_block 64))
        TEE_ALG_AES_CBC_MAC_NOPAD none 16
      = .ret ⟨TEE_SUCCESS, some (zero_block 64)⟩ [] ∧
    crypto_mac_update sample_backend cfg_all (some (zero_block 64))
        TEE_ALG_AES_CBC_MAC_NOPAD (some []) 0
      = .ret ⟨TEE_SUCCESS, some (zero_block 64)⟩ [] := by
  decide

/-- C6, amended: for every CBC-MAC identifier, every configuration and all other
arguments, `crypto_mac_alloc_ctx`, `crypto_mac_init` on a non-null context and
`crypto_mac_final` return `TEE_ERROR_NOT_SUPPORTED`, and so does `crypto_mac_update`
when `data` is non-null and `len` is not 0; none of them makes an external call or
changes the context or the output buffer. -/
theorem C6_cbc_mac_not_supported (W : Nat) (B : Backend) (cfg : Config) (algo : Nat)
    (calloc_ok : Bool) (c : Blob) (ctx : Option Blob) (key : Blob) (key_len : Nat)
    (d : Blob) (len : Nat) (digest : Blob) (digest_len : Nat)
    (h : cbc_mac_case algo) (hlen : len ≠ 0) :
    crypto_mac_alloc_ctx B cfg calloc_ok algo = .ret ⟨TEE_ERROR_NOT_SUPPORTED, none⟩ [] ∧
    crypto_mac_init W B cfg (some c) algo key key_len
      = .ret ⟨TEE_ERROR_NOT_SUPPORTED, some c⟩ [] ∧
    crypto_mac_update B cfg ctx algo (some d) len = .ret ⟨TEE_ERROR_NOT_SUPPORTED, ctx⟩ [] ∧
    crypto_mac_final B cfg ctx algo digest digest_len
      = .ret ⟨TEE_ERROR_NOT_SUPPORTED, ctx, digest⟩ [] := by
  have hh : ¬ hmac_case algo := by
    rcases h with rfl | rfl | rfl | rfl | rfl | rfl <;> simp [hmac_case]
  have hc : algo ≠ TEE_ALG_AES_CMAC := by
    rcases h with rfl | rfl | rfl | rfl | rfl | rfl <;> simp
  have hsz : mac_get_ctx_size B cfg algo = .error TEE_ERROR_NOT_SUPPORTED := by
    unfold mac_get_ctx_size
    simp only [hh, hc, and_false, if_false]
    split <;> rfl
  refine ⟨?_, ?_, ?_, ?_⟩
  · simp [crypto_mac_alloc_ctx, hsz]
  · unfold crypto_mac_init
    simp only [hh, hc, and_false, if_false]
    split <;> rfl
  · unfold crypto_mac_update
    simp only [hlen, hh, hc, and_false, if_false]
    split <;> rfl
  · unfold crypto_mac_final
    simp only [hh, hc, and_false, if_false]
    split <;> rfl

/-- C6, amended, at `TEE_ALG_DES3_CBC_MAC_PKCS5` with every switch on and 8 bytes of
data. -/
theorem C6_cbc_mac_not_supported_witness :
    crypto_mac_update sample_backend cfg_all (some (zero_block 64))
        TEE_ALG_DES3_CBC_MAC_PKCS5 (some (zero_block 8)) 8
      = .ret ⟨TEE_ERROR_NOT_SUPPORTED, some (zero_block 64)⟩ [] :=
  (C6_cbc_mac_not_supported 64 sample_backend cfg_all TEE_ALG_DES3_CBC_MAC_PKCS5 true
    (zero_block 64) (some (zero_block 64)) [] 0 (zero_block 8) 8 [] 0 (by decide)
    (by decide)).2.2.1

/-! ## C7: the short-circuit of `crypto_mac_update` -/

/-- C7: for every context pointer (null included), every identifier and every
configuration, `crypto_mac_update` with `data` null or `len = 0` returns `TEE_SUCCESS`,
makes no external call and leaves the context as it was. -/
theorem C7_mac_update_noop (B : Backend) (cfg : Config) (ctx : Option Blob) (algo : Nat)
    (data : Option Blob) (len : Nat) (h : data = none ∨ len = 0) :
    crypto_mac_update B cfg ctx algo data len = .ret ⟨TEE_SUCCESS, ctx⟩ [] := by
  unfold crypto_mac_update
  rcases h with rfl | rfl
  · rfl
  · cases data <;> simp

/-- C7 at a null context, an unknown identifier and a zero-length buffer. -/
theorem C7_mac_update_noop_witness :
    crypto_mac_update sample_backend cfg_none none 0 (some [1, 2, 3]) 0
      = .ret ⟨TEE_SUCCESS, none⟩ [] :=
  C7_mac_update_noop sample_backend cfg_none none 0 (some [1, 2, 3]) 0 (Or.inr rfl)


/-! ## Shared facts about the size resolvers and the alloc functions -/

/-- The only error `hash_get_ctx_size` returns is `TEE_ERROR_NOT_SUPPORTED`. -/
theorem hash_get_ctx_size_error (B : Backend) (cfg : Config) (algo : Nat) (e : TEE_Result)
    (h : hash_get_ctx_size B cfg algo = .error e) : e = TEE_ERROR_NOT_SUPPORTED := by
  unfold hash_get_ctx_size at h
  split_ifs at h
  exact (Except.error.inj h).symm

/-- The only error `cipher_get_ctx_size` returns is `TEE_ERROR_NOT_SUPPORTED`. -/
theorem cipher_get_ctx_size_error (B : Backend) (cfg : Config) (algo : Nat)
    (e : TEE_Result) (h : cipher_get_ctx_size B cfg algo = .error e) :
    e = TEE_ERROR_NOT_SUPPORTED := by
  unfold cipher_get_ctx_size at h
  split_ifs at h <;> exact (Except.error.inj h).symm

/-- The only error `mac_get_ctx_size` returns is `TEE_ERROR_NOT_SUPPORTED`. -/
theorem mac_get_ctx_size_error (B : Backend) (cfg : Config) (algo : Nat) (e : TEE_Result)
    (h : mac_get_ctx_size B cfg algo = .error e) : e = TEE_ERROR_NOT_SUPPORTED := by
  unfold mac_get_ctx_size at h
  split_ifs at h <;> exact (Except.error.inj h).symm

/-- The ways `crypto_hash_alloc_ctx` ends. -/
theorem crypto_hash_alloc_ctx_cases (B : Backend) (cfg : Config) (calloc_ok : Bool)
    (algo : Nat) :
    (size_result (hash_get_ctx_size B cfg algo) = TEE_ERROR_NOT_SUPPORTED ∧
      crypto_hash_alloc_ctx B cfg calloc_ok algo
        = .ret ⟨TEE_ERROR_NOT_SUPPORTED, none⟩ []) ∨
    (∃ n, hash_get_ctx_size B cfg algo = .ok n ∧
      (crypto_hash_alloc_ctx B cfg calloc_ok algo
          = .ret ⟨TEE_ERROR_OUT_OF_MEMORY, none⟩ [Call.calloc n] ∨
       crypto_hash_alloc_ctx B cfg calloc_ok algo
          = .ret ⟨TEE_SUCCESS, some (zero_block n)⟩ [Call.calloc n])) := by
  unfold crypto_hash_alloc_ctx
  cases hsz : hash_get_ctx_size B cfg algo with
  | error e =>
    have he := hash_get_ctx_size_error B cfg algo e hsz
    subst he
    exact Or.inl ⟨rfl, rfl⟩
  | ok n =>
    right
    refine ⟨n, rfl, ?_⟩
    cases calloc_ok <;> simp

/-- The ways `crypto_cipher_alloc_ctx` ends: it never ends in a failed assertion. -/
theorem crypto_cipher_alloc_ctx_cases (B : Backend) (cfg : Config) (calloc_ok : Bool)
    (algo : Nat) :
    crypto_cipher_alloc_ctx B cfg calloc_ok algo
      = .ret ⟨TEE_ERROR_NOT_SUPPORTED, none⟩ [] ∨
    (∃ n, cipher_get_ctx_size B cfg algo = .ok n ∧
      (crypto_cipher_alloc_ctx B cfg calloc_ok algo
          = .ret ⟨TEE_ERROR_OUT_OF_MEMORY, none⟩ [Call.calloc n] ∨
       crypto_cipher_alloc_ctx B cfg calloc_ok algo
          = .ret ⟨TEE_ERROR_BAD_STATE, none⟩
              [Call.calloc n, Call.mbedtls_cipher_init, Call.mbedtls_cipher_setup,
               Call.mbedtls_cipher_free, Call.free] ∨
       ∃ c, crypto_cipher_alloc_ctx B cfg calloc_ok algo
          = .ret ⟨TEE_SUCCESS, some c⟩
              [Call.calloc n, Call.mbedtls_cipher_init, Call.mbedtls_cipher_setup])) := by
  unfold crypto_cipher_alloc_ctx
  cases hsw : cipher_alloc_switch B cfg algo with
  | none => exact Or.inl rfl
  | some ci =>
    cases ci with
    | none => exact Or.inl rfl
    | some cipher_info =>
      cases hsz : cipher_get_ctx_size B cfg algo with
      | error e =>
        have he := cipher_get_ctx_size_error B cfg algo e hsz
        subst he
        exact Or.inl rfl
      | ok n =>
        right
        refine ⟨n, rfl, ?_⟩
        cases calloc_ok
        · exact Or.inl (by simp)
        · right
          by_cases hrc :
              (B.mbedtls_cipher_setup (B.mbedtls_cipher_init (zero_block n)) cipher_info).1
                = 0
          · exact Or.inr
              ⟨(B.mbedtls_cipher_setup (B.mbedtls_cipher_init (zero_block n))
                  cipher_info).2, by simp [hrc]⟩
          · exact Or.inl (by simp [hrc, crypto_cipher_free_ctx, hsz])


/-- When the setup `switch` of `crypto_mac_alloc_ctx` ends with
`TEE_ERROR_NOT_SUPPORTED`, it made no backend call and left the block as it was. -/
theorem mac_alloc_switch_not_supported (B : Backend) (cfg : Config) (ctx : Blob)
    (algo : Nat) (h : (mac_alloc_switch B cfg ctx algo).1 = TEE_ERROR_NOT_SUPPORTED) :
    (mac_alloc_switch B cfg ctx algo).2.1 = ctx ∧
    (mac_alloc_switch B cfg ctx algo).2.2 = [] := by
  unfold mac_alloc_switch at h ⊢
  split_ifs at h ⊢ with h1 h2 h3
  · cases hmd : tee_algo_to_mbedtls_hash_info B cfg algo with
    | none => exact ⟨rfl, rfl⟩
    | some md_info =>
      rw [hmd] at h
      simp only at h
      split_ifs at h
  · exact ⟨rfl, rfl⟩
  · cases hci : tee_algo_to_mbedtls_cipher_info B cfg TEE_ALG_AES_ECB_NOPAD 128 with
    | none => exact ⟨rfl, rfl⟩
    | some cipher_info =>
      rw [hci] at h
      simp only at h
      split_ifs at h
  · exact ⟨rfl, rfl⟩

/-- For an identifier `mac_get_ctx_size` accepts, `crypto_mac_free_ctx` releases the
backend state of the family and then the block. -/
theorem crypto_mac_free_ctx_of_size (B : Backend) (cfg : Config) (ctx : Option Blob)
    (algo n : Nat) (h : mac_get_ctx_size B cfg algo = .ok n) :
    crypto_mac_free_ctx cfg ctx algo = .ret () [Call.mbedtls_md_free, Call.free] ∨
    crypto_mac_free_ctx cfg ctx algo = .ret () [Call.mbedtls_cipher_free, Call.free] := by
  unfold mac_get_ctx_size at h
  unfold crypto_mac_free_ctx
  split_ifs at h ⊢
  · exact Or.inl rfl
  · exact Or.inr rfl

/-! ## C8: `TEE_ERROR_NOT_SUPPORTED` and allocation -/

/-- Where the claim of C8 holds: for every configuration and identifier,
`crypto_hash_alloc_ctx` and `crypto_cipher_alloc_ctx` always return, and when they
return `TEE_ERROR_NOT_SUPPORTED` they have made no external call at all (no `calloc`);
`crypto_mac_alloc_ctx` returns `TEE_ERROR_NOT_SUPPORTED` with no external call whenever
`mac_get_ctx_size` rejects the identifier, and its only other way to that result is
for an identifier `mac_get_ctx_size` accepts, after `calloc` and a release of the
block. -/
theorem alloc_not_supported_paths (B : Backend) (cfg : Config) (calloc_ok : Bool)
    (algo : Nat) :
    (∃ r calls, crypto_hash_alloc_ctx B cfg calloc_ok algo = .ret r calls ∧
      (r.res = TEE_ERROR_NOT_SUPPORTED → calls = [])) ∧
    (∃ r calls, crypto_cipher_alloc_ctx B cfg calloc_ok algo = .ret r calls ∧
      (r.res = TEE_ERROR_NOT_SUPPORTED → calls = [])) ∧
    (size_result (mac_get_ctx_size B cfg algo) ≠ TEE_SUCCESS →
      crypto_mac_alloc_ctx B cfg calloc_ok algo
        = .ret ⟨TEE_ERROR_NOT_SUPPORTED, none⟩ []) ∧
    (∃ r calls, crypto_mac_alloc_ctx B cfg calloc_ok algo = .ret r calls ∧
      (r.res = TEE_ERROR_NOT_SUPPORTED →
        r.ctx_ret = none ∧
        (calls = [] ∨
         ∃ n, mac_get_ctx_size B cfg algo = .ok n ∧
          (calls = [Call.calloc n, Call.mbedtls_md_free, Call.free] ∨
           calls = [Call.calloc n, Call.mbedtls_cipher_free, Call.free])))) := by
  refine ⟨?_, ?_, ?_, ?_⟩
  · rcases crypto_hash_alloc_ctx_cases B cfg calloc_ok algo with
      ⟨_, h⟩ | ⟨n, _, h | h⟩
    · exact ⟨_, _, h, fun _ => rfl⟩
    · exact ⟨_, _, h, fun hr => by simp at hr⟩
    · exact ⟨_, _, h, fun hr => by simp at hr⟩
  · rcases crypto_cipher_alloc_ctx_cases B cfg calloc_ok algo with
      h | ⟨n, _, h | h | ⟨c, h⟩⟩
    · exact ⟨_, _, h, fun _ => rfl⟩
    · exact ⟨_, _, h, fun hr => by simp at hr⟩
    · exact ⟨_, _, h, fun hr => by simp at hr⟩
    · exact ⟨_, _, h, fun hr => by simp at hr⟩
  · intro hrej
    unfold crypto_mac_alloc_ctx
    cases hsz : mac_get_ctx_size B cfg algo with
    | error e =>
      have he := mac_get_ctx_size_error B cfg algo e hsz
      subst he
      rfl
    | ok n => simp [hsz, size_result] at hrej
  · unfold crypto_mac_alloc_ctx
    cases hsz : mac_get_ctx_size B cfg algo with
    | error e => exact ⟨_, _, rfl, fun _ => ⟨rfl, Or.inl rfl⟩⟩
    | ok n =>
      cases calloc_ok
      · exact ⟨_, _, by simp; exact ⟨rfl, rfl⟩, fun hr => by simp at hr⟩
      · by_cases hs : (mac_alloc_switch B cfg (zero_block n) algo).1 = TEE_SUCCESS
        · refine ⟨_, _, by simp only [hs, if_true]; rfl, fun hr => ?_⟩
          simp at hr
        · by_cases hns :
              (mac_alloc_switch B cfg (zero_block n) algo).1 = TEE_ERROR_NOT_SUPPORTED
          · obtain ⟨_, hcalls⟩ :=
              mac_alloc_switch_not_supported B cfg (zero_block n) algo hns
            rcases crypto_mac_free_ctx_of_size B cfg
                (some (mac_alloc_switch B cfg (zero_block n) algo).2.1) algo n hsz with
              hf | hf
            · refine ⟨_, _, by simp only [hs, if_false, hf, Bool.true_eq_false]; rfl,
                fun _ => ⟨rfl, Or.inr ⟨n, rfl, Or.inl ?_⟩⟩⟩
              simp [hcalls]
            · refine ⟨_, _, by simp only [hs, if_false, hf, Bool.true_eq_false]; rfl,
                fun _ => ⟨rfl, Or.inr ⟨n, rfl, Or.inr ?_⟩⟩⟩
              simp [hcalls]
          · rcases crypto_mac_free_ctx_of_size B cfg
                (some (mac_alloc_switch B cfg (zero_block n) algo).2.1) algo n hsz with
              hf | hf
            · exact ⟨_, _, by simp only [hs, if_false, hf, Bool.true_eq_false]; rfl,
                fun hr => absurd hr hns⟩
            · exact ⟨_, _, by simp only [hs, if_false, hf, Bool.true_eq_false]; rfl,
                fun hr => absurd hr hns⟩

/-- The descriptor lookup of `crypto_mac_alloc_ctx` comes after `calloc`: for an HMAC
identifier whose digest descriptor is not found, and for `TEE_ALG_AES_CMAC` when the
AES descriptor is not found, the function has called `calloc` before it finds out, and
it returns `TEE_ERROR_NOT_SUPPORTED` after releasing the block when the allocator had
memory, and `TEE_ERROR_OUT_OF_MEMORY` when it had none. -/
theorem crypto_mac_alloc_ctx_lookup_fails (B : Backend) (cfg : Config) (algo : Nat) :
    (cfg.CFG_CRYPTO_HMAC = true → hmac_case algo →
      tee_algo_to_mbedtls_hash_info B cfg algo = none →
      crypto_mac_alloc_ctx B cfg true algo
        = .ret ⟨TEE_ERROR_NOT_SUPPORTED, none⟩
            [Call.calloc B.sizeof_mbedtls_md_context_t, Call.mbedtls_md_free, Call.free] ∧
      crypto_mac_alloc_ctx B cfg false algo
        = .ret ⟨TEE_ERROR_OUT_OF_MEMORY, none⟩
            [Call.calloc B.sizeof_mbedtls_md_context_t]) ∧
    (cfg.CFG_CRYPTO_CMAC = true → algo = TEE_ALG_AES_CMAC →
      tee_algo_to_mbedtls_cipher_info B cfg TEE_ALG_AES_ECB_NOPAD 128 = none →
      crypto_mac_alloc_ctx B cfg true algo
        = .ret ⟨TEE_ERROR_NOT_SUPPORTED, none⟩
            [Call.calloc B.sizeof_mbedtls_cipher_context_t, Call.mbedtls_cipher_free,
             Call.free] ∧
      crypto_mac_alloc_ctx B cfg false algo
        = .ret ⟨TEE_ERROR_OUT_OF_MEMORY, none⟩
            [Call.calloc B.sizeof_mbedtls_cipher_context_t]) := by
  refine ⟨?_, ?_⟩
  · intro hc hk hmd
    have hsz : mac_get_ctx_size B cfg algo = .ok B.sizeof_mbedtls_md_context_t := by
      unfold mac_get_ctx_size
      rw [if_pos ⟨hc, hk⟩]
    have hsw : mac_alloc_switch B cfg (zero_block B.sizeof_mbedtls_md_context_t) algo
        = (TEE_ERROR_NOT_SUPPORTED, zero_block B.sizeof_mbedtls_md_context_t, []) := by
      unfold mac_alloc_switch
      rw [if_pos ⟨hc, hk⟩, hmd]
    have hfr : ∀ x, crypto_mac_free_ctx cfg x algo
        = .ret () [Call.mbedtls_md_free, Call.free] := by
      intro x
      unfold crypto_mac_free_ctx
      rw [if_pos ⟨hc, hk⟩]
    constructor
    · unfold crypto_mac_alloc_ctx
      simp [hsz, hsw, hfr]
    · unfold crypto_mac_alloc_ctx
      simp [hsz]
  · intro hc hk hci
    subst hk
    have hsz : mac_get_ctx_size B cfg TEE_ALG_AES_CMAC
        = .ok B.sizeof_mbedtls_cipher_context_t := by
      simp [mac_get_ctx_size, hmac_case, cbc_mac_case, hc]
    have hsw : mac_alloc_switch B cfg (zero_block B.sizeof_mbedtls_cipher_context_t)
          TEE_ALG_AES_CMAC
        = (TEE_ERROR_NOT_SUPPORTED, zero_block B.sizeof_mbedtls_cipher_context_t, []) := by
      simp [mac_alloc_switch, hmac_case, cbc_mac_case, hc, hci]
    have hfr : ∀ x, crypto_mac_free_ctx cfg x TEE_ALG_AES_CMAC
        = .ret () [Call.mbedtls_cipher_free, Call.free] := by
      intro x
      simp [crypto_mac_free_ctx, hmac_case, cbc_mac_case, hc]
    constructor
    · unfold crypto_mac_alloc_ctx
      simp [hsz, hsw, hfr]
    · unfold crypto_mac_alloc_ctx
      simp [hsz]

/-- C8, the failing inputs: with HMAC and CMAC compiled in and the underlying hash and
AES compiled out, `crypto_mac_alloc_ctx` calls `calloc` for `TEE_ALG_HMAC_SHA1` and for
`TEE_ALG_AES_CMAC` before it looks the descriptor up, then releases the block and
returns `TEE_ERROR_NOT_SUPPORTED`; when the allocator has no memory it returns
`TEE_ERROR_OUT_OF_MEMORY` for these identifiers.  `crypto_cipher_alloc_ctx` looks the
descriptor up first: with the AES-ECB label compiled in and AES compiled out it returns
`TEE_ERROR_NOT_SUPPORTED` without a call, whether or not the allocator has memory. -/
theorem C8_mac_alloc_calloc_before_lookup :
    size_result (mac_get_ctx_size sample_backend cfg_mac_only TEE_ALG_HMAC_SHA1)
      = TEE_SUCCESS ∧
    tee_algo_to_mbedtls_hash_info sample_backend cfg_mac_only TEE_ALG_HMAC_SHA1 = none ∧
    crypto_mac_alloc_ctx sample_backend cfg_mac_only true TEE_ALG_HMAC_SHA1
      = .ret ⟨TEE_ERROR_NOT_SUPPORTED, none⟩
          [Call.calloc 12, Call.mbedtls_md_free, Call.free] ∧
    crypto_mac_alloc_ctx sample_backend cfg_mac_only false TEE_ALG_HMAC_SHA1
      = .ret ⟨TEE_ERROR_OUT_OF_MEMORY, none⟩ [Call.calloc 12] ∧
    crypto_mac_alloc_ctx sample_backend cfg_mac_only true TEE_ALG_AES_CMAC
      = .ret ⟨TEE_ERROR_NOT_SUPPORTED, none⟩
          [Call.calloc 64, Call.mbedtls_cipher_free, Call.free] ∧
    crypto_mac_alloc_ctx sample_backend cfg_mac_only false TEE_ALG_AES_CMAC
      = .ret ⟨TEE_ERROR_OUT_OF_MEMORY, none⟩ [Call.calloc 64] ∧
    cipher_alloc_switch sample_backend cfg_ecb_no_aes TEE_ALG_AES_ECB_NOPAD = some none ∧
    crypto_cipher_alloc_ctx sample_backend cfg_ecb_no_aes true TEE_ALG_AES_ECB_NOPAD
      = .ret ⟨TEE_ERROR_NOT_SUPPORTED, none⟩ [] ∧
    crypto_cipher_alloc_ctx sample_backend cfg_ecb_no_aes false TEE_ALG_AES_ECB_NOPAD
      = .ret ⟨TEE_ERROR_NOT_SUPPORTED, none⟩ [] := by
  decide


/-! ## C9: `free_ctx` with an identifier the size resolver rejects -/

/-- C9, as stated, fails for the MAC family: `mac_get_ctx_size` rejects the unknown
identifier 0 and the CBC-MAC identifier `TEE_ALG_AES_CBC_MAC_NOPAD`, and
`crypto_mac_free_ctx` with either of them returns normally after `free(ctx)`. -/
theorem C9_counterexample :
    mac_get_ctx_size sample_backend cfg_all 0 = .error TEE_ERROR_NOT_SUPPORTED ∧
    crypto_mac_free_ctx cfg_all (some (zero_block 12)) 0 = .ret () [Call.free] ∧
    mac_get_ctx_size sample_backend cfg_all TEE_ALG_AES_CBC_MAC_NOPAD
      = .error TEE_ERROR_NOT_SUPPORTED ∧
    crypto_mac_free_ctx cfg_all (some (zero_block 12)) TEE_ALG_AES_CBC_MAC_NOPAD
      = .ret () [Call.free] :=
  ⟨rfl, by decide, rfl, by decide⟩

/-- C9, amended: in the hash and cipher families, `free_ctx` with an identifier the
family's size resolver rejects hits the failing assertion before any release;
`crypto_mac_free_ctx` has no assertion, and with an identifier `mac_get_ctx_size`
rejects it makes no backend call and releases the block with `free`. -/
theorem C9_free_rejected_id (B : Backend) (cfg : Config) (ctx : Option Blob) (algo : Nat) :
    (size_result (hash_get_ctx_size B cfg algo) ≠ TEE_SUCCESS →
      crypto_hash_free_ctx B cfg ctx algo = .assert_fail []) ∧
    (size_result (cipher_get_ctx_size B cfg algo) ≠ TEE_SUCCESS →
      crypto_cipher_free_ctx B cfg ctx algo = .assert_fail []) ∧
    (size_result (mac_get_ctx_size B cfg algo) ≠ TEE_SUCCESS →
      crypto_mac_free_ctx cfg ctx algo = .ret () [Call.free]) := by
  refine ⟨?_, ?_, ?_⟩
  · intro h
    unfold crypto_hash_free_ctx
    cases hsz : hash_get_ctx_size B cfg algo with
    | error e => rfl
    | ok n => simp [hsz, size_result] at h
  · intro h
    unfold crypto_cipher_free_ctx
    cases hsz : cipher_get_ctx_size B cfg algo with
    | error e => rfl
    | ok n => simp [hsz, size_result] at h
  · intro h
    unfold mac_get_ctx_size at h
    unfold crypto_mac_free_ctx
    split_ifs at h ⊢ <;> first | rfl | simp [size_result] at h

/-- C9, amended, at concrete calls with every switch on: the HMAC identifier
`TEE_ALG_HMAC_SHA1` is no plain hash and no cipher, so the hash and cipher `free_ctx`
hit their assertion. -/
theorem C9_free_rejected_id_witness :
    crypto_hash_free_ctx sample_backend cfg_all (some []) TEE_ALG_HMAC_SHA1
      = .assert_fail [] ∧
    crypto_cipher_free_ctx sample_backend cfg_all (some []) TEE_ALG_HMAC_SHA1
      = .assert_fail [] :=
  ⟨(C9_free_rejected_id sample_backend cfg_all (some []) TEE_ALG_HMAC_SHA1).1
      (by decide),
   (C9_free_rejected_id sample_backend cfg_all (some []) TEE_ALG_HMAC_SHA1).2.1
      (by decide)⟩

/-! ## C10: `alloc_ctx` followed by `free_ctx` -/

/-- C10: for every configuration and identifier, when `crypto_hash_alloc_ctx` or
`crypto_cipher_alloc_ctx` returns `TEE_SUCCESS` it has called `calloc` once and never
`free`, and the matching `free_ctx` called next with the same identifier passes its
assertion and releases the block once; `crypto_cipher_alloc_ctx` never ends in a failed
assertion, and on its backend-setup-failure path the inner `crypto_cipher_free_ctx`
passes the assertion, releases the block once and the function returns
`TEE_ERROR_BAD_STATE`. -/
theorem C10_alloc_then_free (B : Backend) (cfg : Config) (calloc_ok : Bool) (algo : Nat) :
    (∀ r calls, crypto_hash_alloc_ctx B cfg calloc_ok algo = .ret r calls →
      r.res = TEE_SUCCESS →
      (∃ n, calls = [Call.calloc n]) ∧
      crypto_hash_free_ctx B cfg r.ctx_ret algo = .ret () [Call.free]) ∧
    (∀ r calls, crypto_cipher_alloc_ctx B cfg calloc_ok algo = .ret r calls →
      r.res = TEE_SUCCESS →
      (∃ n, calls = [Call.calloc n, Call.mbedtls_cipher_init,
        Call.mbedtls_cipher_setup]) ∧
      crypto_cipher_free_ctx B cfg r.ctx_ret algo
        = .ret () [Call.mbedtls_cipher_free, Call.free]) ∧
    (∀ calls, crypto_cipher_alloc_ctx B cfg calloc_ok algo ≠ .assert_fail calls) ∧
    (∀ cipher_info n, cipher_alloc_switch B cfg algo = some (some cipher_info) →
      cipher_get_ctx_size B cfg algo = .ok n → calloc_ok = true →
      (B.mbedtls_cipher_setup (B.mbedtls_cipher_init (zero_block n)) cipher_info).1 ≠ 0 →
      crypto_cipher_alloc_ctx B cfg calloc_ok algo
        = .ret ⟨TEE_ERROR_BAD_STATE, none⟩
            [Call.calloc n, Call.mbedtls_cipher_init, Call.mbedtls_cipher_setup,
             Call.mbedtls_cipher_free, Call.free]) := by
  refine ⟨?_, ?_, ?_, ?_⟩
  · intro r calls h hr
    rcases crypto_hash_alloc_ctx_cases B cfg calloc_ok algo with
      ⟨_, h1⟩ | ⟨n, hsz, h1 | h1⟩
    all_goals rw [h1] at h
    all_goals cases h
    · simp at hr
    · simp at hr
    · exact ⟨⟨n, rfl⟩, by simp [crypto_hash_free_ctx, hsz]⟩
  · intro r calls h hr
    rcases crypto_cipher_alloc_ctx_cases B cfg calloc_ok algo with
      h1 | ⟨n, hsz, h1 | h1 | ⟨c, h1⟩⟩
    all_goals rw [h1] at h
    all_goals cases h
    · simp at hr
    · simp at hr
    · simp at hr
    · exact ⟨⟨n, rfl⟩, by simp [crypto_cipher_free_ctx, hsz]⟩
  · intro calls h
    rcases crypto_cipher_alloc_ctx_cases B cfg calloc_ok algo with
      h1 | ⟨n, hsz, h1 | h1 | ⟨c, h1⟩⟩
    all_goals rw [h1] at h
    all_goals cases h
  · intro cipher_info n hsw hsz hok hrc
    subst hok
    unfold crypto_cipher_alloc_ctx
    simp [hsw, hsz, hrc, crypto_cipher_free_ctx]

/-- C10 at concrete calls: AES-ECB with every switch on is allocated and then freed
without a fault, and with a backend whose setup fails the block is released inside
`crypto_cipher_alloc_ctx`. -/
theorem C10_alloc_then_free_witness :
    crypto_cipher_alloc_ctx sample_backend cfg_all true TEE_ALG_AES_ECB_NOPAD
      = .ret ⟨TEE_SUCCESS, some (16 :: zero_block 63)⟩
          [Call.calloc 64, Call.mbedtls_cipher_init, Call.mbedtls_cipher_setup] ∧
    crypto_cipher_free_ctx sample_backend cfg_all (some (16 :: zero_block 63))
        TEE_ALG_AES_ECB_NOPAD
      = .ret () [Call.mbedtls_cipher_free, Call.free] ∧
    crypto_cipher_alloc_ctx failing_setup_backend cfg_all true TEE_ALG_AES_ECB_NOPAD
      = .ret ⟨TEE_ERROR_BAD_STATE, none⟩
          [Call.calloc 64, Call.mbedtls_cipher_init, Call.mbedtls_cipher_setup,
           Call.mbedtls_cipher_free, Call.free] :=
  ⟨by decide,
   ((C10_alloc_then_free sample_backend cfg_all true TEE_ALG_AES_ECB_NOPAD).2.1
      ⟨TEE_SUCCESS, some (16 :: zero_block 63)⟩
      [Call.calloc 64, Call.mbedtls_cipher_init, Call.mbedtls_cipher_setup] (by decide)
      rfl).2,
   (C10_alloc_then_free failing_setup_backend cfg_all true TEE_ALG_AES_ECB_NOPAD).2.2.2
      1 64 (by decide) rfl rfl (by decide)⟩


/-! ## C11: null contexts and unsupported identifiers in the hash engine -/

/-- The hash size resolver accepts exactly the enabled plain hash identifiers. -/
theorem hash_get_ctx_size_accepts (B : Backend) (cfg : Config) (algo : Nat) :
    size_result (hash_get_ctx_size B cfg algo) = TEE_SUCCESS ↔ plain_hash_enabled cfg algo := by
  unfold hash_get_ctx_size plain_hash_enabled
  split_ifs with h1 h2 h3 h4 h5 h6 <;> simp_all [size_result]

/-- C11: `crypto_hash_init`, `crypto_hash_update` and `crypto_hash_final` return
`TEE_ERROR_BAD_PARAMETERS` for a null context whatever the identifier; for a non-null
context `crypto_hash_init` and `crypto_hash_update` return `TEE_ERROR_NOT_SUPPORTED`
when the identifier is not an enabled plain hash and `TEE_SUCCESS` otherwise; on either
error no backend routine is called and the context is unchanged. -/
theorem C11_hash_null_and_unsupported (B : Backend) (cfg : Config) (c : Blob) (algo : Nat)
    (data : Option Blob) (len : Nat) (tee_hash_get_digest_size : Nat → TEE_Result × Nat)
    (block_digest digest : Blob) (dlen : Nat) :
    crypto_hash_init B cfg none algo = .ret ⟨TEE_ERROR_BAD_PARAMETERS, none⟩ [] ∧
    crypto_hash_update B cfg none algo data len
      = .ret ⟨TEE_ERROR_BAD_PARAMETERS, none⟩ [] ∧
    crypto_hash_final B cfg tee_hash_get_digest_size block_digest none algo digest dlen
      = .ret ⟨TEE_ERROR_BAD_PARAMETERS, none, digest⟩ [] ∧
    (¬ plain_hash_enabled cfg algo →
      crypto_hash_init B cfg (some c) algo = .ret ⟨TEE_ERROR_NOT_SUPPORTED, some c⟩ [] ∧
      crypto_hash_update B cfg (some c) algo data len
        = .ret ⟨TEE_ERROR_NOT_SUPPORTED, some c⟩ []) ∧
    (plain_hash_enabled cfg algo →
      (∃ c1 calls, crypto_hash_init B cfg (some c) algo = .ret ⟨TEE_SUCCESS, some c1⟩ calls) ∧
      (∃ c2 calls, crypto_hash_update B cfg (some c) algo data len
        = .ret ⟨TEE_SUCCESS, some c2⟩ calls)) := by
  refine ⟨rfl, rfl, rfl, ?_, ?_⟩
  · intro h
    simp only [plain_hash_enabled, not_or] at h
    obtain ⟨h1, h2, h3, h4, h5, h6⟩ := h
    simp [crypto_hash_init, crypto_hash_update, h1, h2, h3, h4, h5, h6]
  · intro h
    unfold crypto_hash_init crypto_hash_update
    rcases h with h | h | h | h | h | h <;> obtain ⟨hc, rfl⟩ := h <;>
      simp [hc]

/-- C11 at concrete calls: with every switch on, SHA-256 is initialised and the HMAC
identifier `TEE_ALG_HMAC_SHA256` is refused by `crypto_hash_init`. -/
theorem C11_hash_null_and_unsupported_witness :
    crypto_hash_init sample_backend cfg_all (some (zero_block 108)) TEE_ALG_HMAC_SHA256
      = .ret ⟨TEE_ERROR_NOT_SUPPORTED, some (zero_block 108)⟩ [] ∧
    ∃ c1 calls, crypto_hash_init sample_backend cfg_all (some (zero_block 108))
      TEE_ALG_SHA256 = .ret ⟨TEE_SUCCESS, some c1⟩ calls :=
  ⟨((C11_hash_null_and_unsupported sample_backend cfg_all (zero_block 108)
      TEE_ALG_HMAC_SHA256 none 0 sample_digest_size [] [] 0).2.2.2.1 (by decide)).1,
   ((C11_hash_null_and_unsupported sample_backend cfg_all (zero_block 108)
      TEE_ALG_SHA256 none 0 sample_digest_size [] [] 0).2.2.2.2 (by decide)).1⟩


/-! ## C12: block alignment in ECB -/

/-- When the ECB loop ends the function itself, it is with `TEE_ERROR_BAD_STATE` after a
backend update call. -/
theorem ecb_loop_inr (W : Nat) (B : Backend) (blk_size : Nat) (data : Blob) :
    ∀ (fuel : Nat) (c : Blob) (pos len : Nat) (dst : Blob) (calls : List Call)
      (out : Outcome BufRet),
      ecb_loop W B blk_size data fuel c pos len dst calls = some (.inr out) →
      ∃ r cs, out = .ret r cs ∧ r.res = TEE_ERROR_BAD_STATE ∧
        Call.mbedtls_cipher_update ∈ cs := by
  intro fuel
  induction fuel with
  | zero =>
    intro c pos len dst calls out h
    unfold ecb_loop at h
    split_ifs at h
    · cases h
  | succ n ih =>
    intro c pos len dst calls out h
    unfold ecb_loop at h
    by_cases h0 : len = 0
    · simp [h0] at h
    · simp only [h0, if_false] at h
      by_cases hrc : (B.mbedtls_cipher_update c ((data.drop pos).take blk_size)).1 = 0
      · simp only [hrc, ne_eq, not_true_eq_false, if_false] at h
        exact ih _ _ _ _ _ _ h
      · simp only [ne_eq, hrc, not_false_eq_true, if_true, Option.some.injEq,
          Sum.inr.injEq] at h
        exact ⟨_, _, h.symm, rfl, by simp⟩

/-- C12: for the ECB identifiers, compiled in, and a non-null context whose block size
`b` is positive, `crypto_cipher_update` returns `TEE_ERROR_BAD_PARAMETERS` whenever
`len` is not a multiple of `b`, having asked only for the block size: no backend update
call, context and destination unchanged; when `len` is a multiple of `b` (0 included)
it never returns `TEE_ERROR_BAD_PARAMETERS`. -/
theorem C12_ecb_alignment (W : Nat) (B : Backend) (cfg : Config) (fuel : Nat)
    (lmd_res0 : Int) (c : Blob) (algo : Nat) (data : Blob) (len : Nat) (dst : Blob)
    (hcfg : cfg.CFG_CRYPTO_ECB = true)
    (halgo : algo = TEE_ALG_AES_ECB_NOPAD ∨ algo = TEE_ALG_DES_ECB_NOPAD ∨
      algo = TEE_ALG_DES3_ECB_NOPAD)
    (hb : 0 < B.mbedtls_cipher_get_block_size c) :
    (len % B.mbedtls_cipher_get_block_size c ≠ 0 →
      crypto_cipher_update W B cfg fuel lmd_res0 (some c) algo data len dst
        = some (.ret ⟨TEE_ERROR_BAD_PARAMETERS, some c, dst⟩
            [Call.mbedtls_cipher_get_block_size])) ∧
    (len % B.mbedtls_cipher_get_block_size c = 0 →
      ∀ r calls,
        crypto_cipher_update W B cfg fuel lmd_res0 (some c) algo data len dst
          = some (.ret r calls) →
        r.res ≠ TEE_ERROR_BAD_PARAMETERS) := by
  have hb0 : B.mbedtls_cipher_get_block_size c ≠ 0 := Nat.pos_iff_ne_zero.mp hb
  constructor
  · intro hlen
    unfold crypto_cipher_update
    simp [hcfg, halgo, hb0, hlen]
  · intro hlen r calls h
    unfold crypto_cipher_update at h
    simp only [hcfg, halgo, and_self, if_true, hb0, if_false, hlen, ne_eq,
      not_true_eq_false] at h
    cases hl : ecb_loop W B (B.mbedtls_cipher_get_block_size c) data fuel c 0 len dst
        [Call.mbedtls_cipher_get_block_size] with
    | none => rw [hl] at h; cases h
    | some v =>
      rw [hl] at h
      cases v with
      | inr out =>
        obtain ⟨r', cs, hout, hres, _⟩ := ecb_loop_inr W B _ data fuel c 0 len dst _ out hl
        simp only [Option.some.injEq] at h
        rw [hout] at h
        cases h
        rw [hres]
        decide
      | inl t =>
        obtain ⟨c1, dst1, cs⟩ := t
        simp only at h
        split_ifs at h <;> cases h <;> simp

/-- C12 at concrete calls: a context of block size 16 with every switch on; 20 bytes
are refused, 32 bytes are not. -/
theorem C12_ecb_alignment_witness :
    crypto_cipher_update 64 sample_backend cfg_all 8 0 (some (16 :: zero_block 63))
        TEE_ALG_AES_ECB_NOPAD (zero_block 20) 20 (zero_block 20)
      = some (.ret ⟨TEE_ERROR_BAD_PARAMETERS, some (16 :: zero_block 63), zero_block 20⟩
          [Call.mbedtls_cipher_get_block_size]) :=
  (C12_ecb_alignment 64 sample_backend cfg_all 8 0 (16 :: zero_block 63)
    TEE_ALG_AES_ECB_NOPAD (zero_block 20) 20 (zero_block 20) (by decide) (Or.inl rfl)
    (by decide)).1 (by decide)


/-! ## C15: `crypto_hash_copy_state` -/

/-- A `memcpy` of the whole length of two blocks of the same length makes the
destination the source. -/
theorem memcpy_full (dst src : Blob) (n : Nat) (hs : src.length = n) (hd : dst.length = n) :
    memcpy dst src n = src := by
  unfold memcpy
  rw [List.take_of_length_le (by omega), List.drop_of_length_le (by omega)]
  simp

/-- C15: for an enabled plain hash identifier with resolved context size `n`,
`crypto_hash_copy_state` passes its assertion, calls no backend routine, leaves the
source block as it was and writes exactly the first `n` bytes of the destination, which
become the first `n` bytes of the source; for blocks of `n` bytes, as `alloc_ctx` makes
them, the destination afterwards equals the source, so an update or a final on the
clone gives what the same call on the source state gives, while the source block kept
by the original is unchanged by the copy. -/
theorem C15_hash_copy_state (B : Backend) (cfg : Config) (d s : Blob) (algo n : Nat)
    (hsz : hash_get_ctx_size B cfg algo = .ok n) (hn : n ≤ s.length) :
    ∃ clone : Blob,
      crypto_hash_copy_state B cfg (some d) (some s) algo = .ret (some clone, some s) [] ∧
      clone.take n = s.take n ∧ clone.drop n = d.drop n ∧
      (s.length = n → d.length = n →
        clone = s ∧
        (∀ data len, crypto_hash_update B cfg (some clone) algo data len
          = crypto_hash_update B cfg (some s) algo data len) ∧
        (∀ f block_digest digest len,
          crypto_hash_final B cfg f block_digest (some clone) algo digest len
            = crypto_hash_final B cfg f block_digest (some s) algo digest len)) := by
  refine ⟨memcpy d s n, ?_, memcpy_take d s n hn, memcpy_drop d s n hn, ?_⟩
  · simp [crypto_hash_copy_state, hsz]
  · intro hs hd
    have h := memcpy_full d s n hs hd
    rw [h]
    exact ⟨rfl, fun _ _ => rfl, fun _ _ _ _ => rfl⟩

/-- C15 at SHA-256 with every switch on: a 108-byte source state copied over a zeroed
108-byte block. -/
theorem C15_hash_copy_state_witness :
    ∃ clone : Blob,
      crypto_hash_copy_state sample_backend cfg_all (some (zero_block 108))
          (some (List.replicate 108 7)) TEE_ALG_SHA256
        = .ret (some clone, some (List.replicate 108 7)) [] ∧
      clone = List.replicate 108 7 :=
  have h := C15_hash_copy_state sample_backend cfg_all (zero_block 108)
    (List.replicate 108 7) TEE_ALG_SHA256 108 rfl (by decide)
  h.elim fun clone hc => ⟨clone, hc.1, (hc.2.2.2 (by decide) (by decide)).1⟩

/-! ## C16: backend setup failure in `crypto_mac_alloc_ctx` -/

/-- C16: `crypto_mac_alloc_ctx` always returns, and writes `*ctx_ret` exactly when it
returns `TEE_SUCCESS`; when `mbedtls_md_setup` fails for an HMAC identifier, or
`mbedtls_cipher_setup` or `mbedtls_cipher_cmac_setup` fails for AES-CMAC, it returns
`TEE_ERROR_GENERIC` without writing `*ctx_ret`, after one `calloc` and one `free` of
the block. -/
theorem C16_mac_alloc_setup_failure (B : Backend) (cfg : Config) (calloc_ok : Bool)
    (algo : Nat) :
    (∃ r calls, crypto_mac_alloc_ctx B cfg calloc_ok algo = .ret r calls ∧
      (r.ctx_ret.isSome = true ↔ r.res = TEE_SUCCESS)) ∧
    (∀ md_info, calloc_ok = true → cfg.CFG_CRYPTO_HMAC = true → hmac_case algo →
      tee_algo_to_mbedtls_hash_info B cfg algo = some md_info →
      (B.mbedtls_md_setup (B.mbedtls_md_init (zero_block B.sizeof_mbedtls_md_context_t))
        md_info 1).1 ≠ 0 →
      crypto_mac_alloc_ctx B cfg calloc_ok algo
        = .ret ⟨TEE_ERROR_GENERIC, none⟩
            [Call.calloc B.sizeof_mbedtls_md_context_t, Call.mbedtls_md_init,
             Call.mbedtls_md_setup, Call.mbedtls_md_free, Call.free]) ∧
    (∀ cipher_info, calloc_ok = true → cfg.CFG_CRYPTO_CMAC = true →
      algo = TEE_ALG_AES_CMAC →
      tee_algo_to_mbedtls_cipher_info B cfg TEE_ALG_AES_ECB_NOPAD 128 = some cipher_info →
      ((B.mbedtls_cipher_setup
          (B.mbedtls_cipher_init (zero_block B.sizeof_mbedtls_cipher_context_t))
          cipher_info).1 ≠ 0 ∨
       (B.mbedtls_cipher_cmac_setup (B.mbedtls_cipher_setup
          (B.mbedtls_cipher_init (zero_block B.sizeof_mbedtls_cipher_context_t))
          cipher_info).2).1 ≠ 0) →
      crypto_mac_alloc_ctx B cfg calloc_ok algo
        = .ret ⟨TEE_ERROR_GENERIC, none⟩
            [Call.calloc B.sizeof_mbedtls_cipher_context_t, Call.mbedtls_cipher_init,
             Call.mbedtls_cipher_setup, Call.mbedtls_cipher_cmac_setup,
             Call.mbedtls_cipher_free, Call.free]) := by
  refine ⟨?_, ?_, ?_⟩
  · unfold crypto_mac_alloc_ctx
    cases hsz : mac_get_ctx_size B cfg algo with
    | error e =>
      have he := mac_get_ctx_size_error B cfg algo e hsz
      subst he
      exact ⟨_, _, rfl, by simp⟩
    | ok n =>
      cases calloc_ok
      · exact ⟨_, _, by simp; exact ⟨rfl, rfl⟩, by simp⟩
      · by_cases hs : (mac_alloc_switch B cfg (zero_block n) algo).1 = TEE_SUCCESS
        · exact ⟨_, _, by simp only [hs, if_true]; rfl, by simp [hs]⟩
        · rcases crypto_mac_free_ctx_of_size B cfg
              (some (mac_alloc_switch B cfg (zero_block n) algo).2.1) algo n hsz with
            hf | hf
          · exact ⟨_, _, by simp only [hs, if_false, hf, Bool.true_eq_false]; rfl,
              by simp [hs]⟩
          · exact ⟨_, _, by simp only [hs, if_false, hf, Bool.true_eq_false]; rfl,
              by simp [hs]⟩
  · intro md_info hok hcfg halgo hmd hrc
    subst hok
    have hsz : mac_get_ctx_size B cfg algo = .ok B.sizeof_mbedtls_md_context_t := by
      simp [mac_get_ctx_size, hcfg, halgo]
    simp [crypto_mac_alloc_ctx, hsz, mac_alloc_switch, hcfg, halgo, hmd, hrc,
      crypto_mac_free_ctx]
  · intro cipher_info hok hcfg halgo hci hrc
    subst hok
    subst halgo
    have hsz : mac_get_ctx_size B cfg TEE_ALG_AES_CMAC
        = .ok B.sizeof_mbedtls_cipher_context_t := by
      simp [mac_get_ctx_size, hcfg, hmac_case, cbc_mac_case]
    rcases hrc with hrc | hrc
    · by_cases h2 : (B.mbedtls_cipher_cmac_setup (B.mbedtls_cipher_setup
          (B.mbedtls_cipher_init (zero_block B.sizeof_mbedtls_cipher_context_t))
          cipher_info).2).1 = 0 <;>
      simp [crypto_mac_alloc_ctx, hsz, mac_alloc_switch, hcfg, hci, hrc, h2,
        crypto_mac_free_ctx, hmac_case, cbc_mac_case]
    · simp [crypto_mac_alloc_ctx, hsz, mac_alloc_switch, hcfg, hci, hrc,
        crypto_mac_free_ctx, hmac_case, cbc_mac_case]

/-- C16 at concrete calls with every switch on: a failing `mbedtls_md_setup` for
HMAC-SHA256 and a failing `mbedtls_cipher_setup` for AES-CMAC. -/
theorem C16_mac_alloc_setup_failure_witness :
    crypto_mac_alloc_ctx failing_md_setup_backend cfg_all true TEE_ALG_HMAC_SHA256
      = .ret ⟨TEE_ERROR_GENERIC, none⟩
          [Call.calloc 12, Call.mbedtls_md_init, Call.mbedtls_md_setup,
           Call.mbedtls_md_free, Call.free] ∧
    crypto_mac_alloc_ctx failing_setup_backend cfg_all true TEE_ALG_AES_CMAC
      = .ret ⟨TEE_ERROR_GENERIC, none⟩
          [Call.calloc 64, Call.mbedtls_cipher_init, Call.mbedtls_cipher_setup,
           Call.mbedtls_cipher_cmac_setup, Call.mbedtls_cipher_free, Call.free] :=
  ⟨(C16_mac_alloc_setup_failure failing_md_setup_backend cfg_all true
      TEE_ALG_HMAC_SHA256).2.1 32 rfl (by decide) (by decide) (by decide) (by decide),
   (C16_mac_alloc_setup_failure failing_setup_backend cfg_all true
      TEE_ALG_AES_CMAC).2.2 1 rfl (by decide) rfl (by decide) (Or.inl (by decide))⟩


/-! ## C13: counter mode across two update calls -/

/-- The keystream XOR keeps the length. -/
theorem xor_stream_length (d : Blob) : ∀ f : Nat → Nat, (xor_stream f d).length = d.length := by
  induction d with
  | nil => intro f; rfl
  | cons x xs ih => intro f; simp [xor_stream, ih]

/-- The keystream XOR of a concatenation continues the keystream. -/
theorem xor_stream_append (a b : Blob) :
    ∀ f : Nat → Nat,
      xor_stream f (a ++ b) = xor_stream f a ++ xor_stream (fun i => f (a.length + i)) b := by
  induction a with
  | nil => intro f; simp [xor_stream]
  | cons x xs ih =>
    intro f
    have h := ih (fun i => f (i + 1))
    have hf : (fun i => f (xs.length + i + 1)) = (fun i => f (xs.length + 1 + i)) := by
      funext i
      congr 1
      omega
    show xor_stream f (x :: (xs ++ b)) = _
    simp only [xor_stream, List.cons_append, List.length_cons, h, hf]

/-- Writing no byte leaves the buffer as it is. -/
theorem write_at_nil (buf : Blob) (pos : Nat) : write_at buf pos [] = buf := by
  simp [write_at]

/-- Bytes that fill the buffer from offset 0 become the buffer. -/
theorem write_at_zero_full (buf src : Blob) (h : buf.length = src.length) :
    write_at buf 0 src = src := by
  unfold write_at
  simp [List.drop_of_length_le (Nat.le_of_eq h)]

/-- The sample counter-mode backend is a keystream backend. -/
theorem ctr_sample_backend_keystream : ctr_keystream_backend ctr_sample_backend sample_ks := by
  refine ⟨fun c d => ⟨rfl, rfl, fun i => ?_⟩, fun c => ⟨rfl, rfl, fun i => rfl⟩⟩
  simp [ctr_sample_backend, sample_ks, Nat.add_assoc]

/-- C13: for `TEE_ALG_AES_CTR`, compiled in, and a backend whose update is a keystream
XOR continuing from the counter position of the context and whose finish leaves that
position unchanged, `crypto_cipher_update` on `a` followed by `crypto_cipher_update` on
`b` writes, one after the other, the bytes one `crypto_cipher_update` on `a ++ b`
writes; each call is one backend update and one backend finish, with no reset. -/
theorem C13_ctr_split (W : Nat) (B : Backend) (cfg : Config) (fuel : Nat)
    (lmd_res0 : Int) (ks : Blob → Nat → Nat) (c a b dst1 dst2 dst : Blob)
    (hcfg : cfg.CFG_CRYPTO_CTR = true) (hB : ctr_keystream_backend B ks)
    (h1 : dst1.length = a.length) (h2 : dst2.length = b.length)
    (h12 : dst.length = (a ++ b).length) :
    ∃ c1 c2 c12 o1 o2 o12,
      crypto_cipher_update W B cfg fuel lmd_res0 (some c) TEE_ALG_AES_CTR a a.length dst1
        = some (.ret ⟨TEE_SUCCESS, some c1, o1⟩
            [Call.mbedtls_cipher_update, Call.mbedtls_cipher_finish]) ∧
      crypto_cipher_update W B cfg fuel lmd_res0 (some c1) TEE_ALG_AES_CTR b b.length dst2
        = some (.ret ⟨TEE_SUCCESS, some c2, o2⟩
            [Call.mbedtls_cipher_update, Call.mbedtls_cipher_finish]) ∧
      crypto_cipher_update W B cfg fuel lmd_res0 (some c) TEE_ALG_AES_CTR (a ++ b)
          (a ++ b).length dst
        = some (.ret ⟨TEE_SUCCESS, some c12, o12⟩
            [Call.mbedtls_cipher_update, Call.mbedtls_cipher_finish]) ∧
      o1 ++ o2 = o12 ∧ ∀ i, ks c2 i = ks c12 i := by
  obtain ⟨hu, hf⟩ := hB
  have key : ∀ (c0 d dst0 : Blob), dst0.length = d.length →
      crypto_cipher_update W B cfg fuel lmd_res0 (some c0) TEE_ALG_AES_CTR d d.length dst0
        = some (.ret ⟨TEE_SUCCESS,
            some (B.mbedtls_cipher_finish (B.mbedtls_cipher_update c0 d).2.1).2.1,
            xor_stream (ks c0) d⟩
            [Call.mbedtls_cipher_update, Call.mbedtls_cipher_finish]) := by
    intro c0 d dst0 hd
    have hw : write_at dst0 0 (xor_stream (ks c0) d) = xor_stream (ks c0) d :=
      write_at_zero_full _ _ (by rw [xor_stream_length, hd])
    unfold crypto_cipher_update
    simp [hcfg, List.take_length, (hu c0 d).1, (hu c0 d).2.1,
      (hf (B.mbedtls_cipher_update c0 d).2.1).1, (hf (B.mbedtls_cipher_update c0 d).2.1).2.1,
      write_at_nil, hw]
  refine ⟨_, _, _, _, _, _, key c a dst1 h1, key _ b dst2 h2, key c (a ++ b) dst h12, ?_, ?_⟩
  · rw [xor_stream_append]
    congr 1
    congr 1
    funext i
    rw [(hf _).2.2, (hu c a).2.2]
  · intro i
    rw [(hf _).2.2, (hu _ b).2.2, (hf _).2.2, (hu c a).2.2, (hf _).2.2,
      (hu c (a ++ b)).2.2, List.length_append]
    congr 1
    omega

/-- C13 at the sample counter-mode backend: 32 + 32 bytes against 64 bytes. -/
theorem C13_ctr_split_witness :
    ∃ c1 c2 c12 o1 o2 o12,
      crypto_cipher_update 64 ctr_sample_backend cfg_all 0 0 (some (zero_block 64))
          TEE_ALG_AES_CTR (List.replicate 32 1) (List.replicate 32 1).length (zero_block 32)
        = some (.ret ⟨TEE_SUCCESS, some c1, o1⟩
            [Call.mbedtls_cipher_update, Call.mbedtls_cipher_finish]) ∧
      crypto_cipher_update 64 ctr_sample_backend cfg_all 0 0 (some c1)
          TEE_ALG_AES_CTR (List.replicate 32 2) (List.replicate 32 2).length (zero_block 32)
        = some (.ret ⟨TEE_SUCCESS, some c2, o2⟩
            [Call.mbedtls_cipher_update, Call.mbedtls_cipher_finish]) ∧
      crypto_cipher_update 64 ctr_sample_backend cfg_all 0 0 (some (zero_block 64))
          TEE_ALG_AES_CTR (List.replicate 32 1 ++ List.replicate 32 2)
          (List.replicate 32 1 ++ List.replicate 32 2).length (zero_block 64)
        = some (.ret ⟨TEE_SUCCESS, some c12, o12⟩
            [Call.mbedtls_cipher_update, Call.mbedtls_cipher_finish]) ∧
      o1 ++ o2 = o12 ∧ ∀ i, sample_ks c2 i = sample_ks c12 i :=
  C13_ctr_split 64 ctr_sample_backend cfg_all 0 0 sample_ks (zero_block 64)
    (List.replicate 32 1) (List.replicate 32 2) (zero_block 32) (zero_block 32)
    (zero_block 64) (by decide) ctr_sample_backend_keystream (by decide) (by decide)
    (by decide)


/-! ## C14: chaining is reset at every CBC update call -/

/-- For a CBC identifier, compiled in, `crypto_cipher_update` uses the context only
through the backend reset. -/
theorem cbc_update_of_reset_eq (W : Nat) (B : Backend) (cfg : Config) (fuel : Nat)
    (lmd_res0 : Int) (c c' : Blob) (algo : Nat) (data : Blob) (len : Nat) (dst : Blob)
    (hcfg : cfg.CFG_CRYPTO_CBC = true)
    (halgo : algo = TEE_ALG_AES_CBC_NOPAD ∨ algo = TEE_ALG_DES_CBC_NOPAD ∨
      algo = TEE_ALG_DES3_CBC_NOPAD)
    (h : B.mbedtls_cipher_reset c' = B.mbedtls_cipher_reset c) :
    crypto_cipher_update W B cfg fuel lmd_res0 (some c') algo data len dst
      = crypto_cipher_update W B cfg fuel lmd_res0 (some c) algo data len dst := by
  unfold crypto_cipher_update
  rcases halgo with rfl | rfl | rfl <;> simp [hcfg, h]

/-- The two-call and the one-call outputs of the sample chained backend, for the three
CBC identifiers: `update [1]` then `update [2]` writes `[2]` and `[3]`, one `update` of
`[1, 2]` writes `[2, 1]`. -/
theorem cbc_sample_backend_two_calls :
    ∀ algo ∈ [TEE_ALG_AES_CBC_NOPAD, TEE_ALG_DES_CBC_NOPAD, TEE_ALG_DES3_CBC_NOPAD],
      crypto_cipher_update 64 cbc_sample_backend cfg_all 0 0 (some [0, 0]) algo [1] 1 [0]
        = some (.ret ⟨TEE_SUCCESS, some [0, 2], [2]⟩
            [Call.mbedtls_cipher_reset, Call.mbedtls_cipher_update,
             Call.mbedtls_cipher_finish]) ∧
      crypto_cipher_update 64 cbc_sample_backend cfg_all 0 0 (some [0, 2]) algo [2] 1 [0]
        = some (.ret ⟨TEE_SUCCESS, some [0, 3], [3]⟩
            [Call.mbedtls_cipher_reset, Call.mbedtls_cipher_update,
             Call.mbedtls_cipher_finish]) ∧
      crypto_cipher_update 64 cbc_sample_backend cfg_all 0 0 (some [0, 0]) algo [1, 2] 2
          [0, 0]
        = some (.ret ⟨TEE_SUCCESS, some [0, 1], [2, 1]⟩
            [Call.mbedtls_cipher_reset, Call.mbedtls_cipher_update,
             Call.mbedtls_cipher_finish]) := by
  decide

/-- C17: `crypto_bignum_allocate` returns `NULL`, and `crypto_bignum_bin2bn`, every
result-returning `crypto_acipher_*` function (RSA, DSA, DH, ECC) and the
alloc/init/update_aad/update_payload/enc_final/dec_final functions of
`crypto_aes_ccm_*` and `crypto_aes_gcm_*` return `TEE_ERROR_NOT_IMPLEMENTED` for all
their arguments. -/
theorem C17_not_implemented :
    (∀ size_bits, crypto_bignum_allocate size_bits = none) ∧
    (∀ a0 a1 a2, crypto_bignum_bin2bn a0 a1 a2 = TEE_ERROR_NOT_IMPLEMENTED) ∧
    (∀ a0 a1, crypto_acipher_alloc_rsa_keypair a0 a1 = TEE_ERROR_NOT_IMPLEMENTED) ∧
    (∀ a0 a1, crypto_acipher_alloc_rsa_public_key a0 a1 = TEE_ERROR_NOT_IMPLEMENTED) ∧
    (∀ a0 a1, crypto_acipher_gen_rsa_key a0 a1 = TEE_ERROR_NOT_IMPLEMENTED) ∧
    (∀ a0 a1 a2 a3 a4, crypto_acipher_rsanopad_decrypt a0 a1 a2 a3 a4 = TEE_ERROR_NOT_IMPLEMENTED) ∧
    (∀ a0 a1 a2 a3 a4, crypto_acipher_rsanopad_encrypt a0 a1 a2 a3 a4 = TEE_ERROR_NOT_IMPLEMENTED) ∧
    (∀ a0 a1 a2 a3 a4 a5 a6 a7,
      crypto_acipher_rsaes_decrypt a0 a1 a2 a3 a4 a5 a6 a7
        = TEE_ERROR_NOT_IMPLEMENTED) ∧
    (∀ a0 a1 a2 a3 a4 a5 a6 a7,
      crypto_acipher_rsaes_encrypt a0 a1 a2 a3 a4 a5 a6 a7
        = TEE_ERROR_NOT_IMPLEMENTED) ∧
    (∀ a0 a1 a2 a3 a4 a5 a6,
      crypto_acipher_rsassa_sign a0 a1 a2 a3 a4 a5 a6
        = TEE_ERROR_NOT_IMPLEMENTED) ∧
    (∀ a0 a1 a2 a3 a4 a5 a6,
      crypto_acipher_rsassa_verify a0 a1 a2 a3 a4 a5 a6
        = TEE_ERROR_NOT_IMPLEMENTED) ∧
    (∀ a0 a1, crypto_acipher_alloc_dsa_keypair a0 a1 = TEE_ERROR_NOT_IMPLEMENTED) ∧
    (∀ a0 a1, crypto_acipher_alloc_dsa_public_key a0 a1 = TEE_ERROR_NOT_IMPLEMENTED) ∧
    (∀ a0 a1, crypto_acipher_gen_dsa_key a0 a1 = TEE_ERROR_NOT_IMPLEMENTED) ∧
    (∀ a0 a1 a2 a3 a4 a5, crypto_acipher_dsa_sign a0 a1 a2 a3 a4 a5 = TEE_ERROR_NOT_IMPLEMENTED) ∧
    (∀ a0 a1 a2 a3 a4 a5, crypto_acipher_dsa_verify a0 a1 a2 a3 a4 a5 = TEE_ERROR_NOT_IMPLEMENTED) ∧
    (∀ a0 a1, crypto_acipher_alloc_dh_keypair a0 a1 = TEE_ERROR_NOT_IMPLEMENTED) ∧
    (∀ a0 a1 a2, crypto_acipher_gen_dh_key a0 a1 a2 = TEE_ERROR_NOT_IMPLEMENTED) ∧
    (∀ a0 a1 a2, crypto_acipher_dh_shared_secret a0 a1 a2 = TEE_ERROR_NOT_IMPLEMENTED) ∧
    (∀ a0 a1, crypto_acipher_alloc_ecc_public_key a0 a1 = TEE_ERROR_NOT_IMPLEMENTED) ∧
    (∀ a0 a1, crypto_acipher_alloc_ecc_keypair a0 a1 = TEE_ERROR_NOT_IMPLEMENTED) ∧
    (∀ a0, crypto_acipher_gen_ecc_key a0 = TEE_ERROR_NOT_IMPLEMENTED) ∧
    (∀ a0 a1 a2 a3 a4 a5, crypto_acipher_ecc_sign a0 a1 a2 a3 a4 a5 = TEE_ERROR_NOT_IMPLEMENTED) ∧
    (∀ a0 a1 a2 a3 a4 a5, crypto_acipher_ecc_verify a0 a1 a2 a3 a4 a5 = TEE_ERROR_NOT_IMPLEMENTED) ∧
    (∀ a0 a1 a2 a3, crypto_acipher_ecc_shared_secret a0 a1 a2 a3 = TEE_ERROR_NOT_IMPLEMENTED) ∧
    (∀ a0, crypto_aes_ccm_alloc_ctx a0 = TEE_ERROR_NOT_IMPLEMENTED) ∧
    (∀ a0 a1 a2 a3 a4 a5 a6 a7 a8,
      crypto_aes_ccm_init a0 a1 a2 a3 a4 a5 a6 a7 a8
        = TEE_ERROR_NOT_IMPLEMENTED) ∧
    (∀ a0 a1 a2, crypto_aes_ccm_update_aad a0 a1 a2 = TEE_ERROR_NOT_IMPLEMENTED) ∧
    (∀ a0 a1 a2 a3 a4, crypto_aes_ccm_update_payload a0 a1 a2 a3 a4 = TEE_ERROR_NOT_IMPLEMENTED) ∧
    (∀ a0 a1 a2 a3 a4 a5, crypto_aes_ccm_enc_final a0 a1 a2 a3 a4 a5 = TEE_ERROR_NOT_IMPLEMENTED) ∧
    (∀ a0 a1 a2 a3 a4 a5, crypto_aes_ccm_dec_final a0 a1 a2 a3 a4 a5 = TEE_ERROR_NOT_IMPLEMENTED) ∧
    (∀ a0, crypto_aes_gcm_alloc_ctx a0 = TEE_ERROR_NOT_IMPLEMENTED) ∧
    (∀ a0 a1 a2 a3 a4 a5 a6, crypto_aes_gcm_init a0 a1 a2 a3 a4 a5 a6 = TEE_ERROR_NOT_IMPLEMENTED) ∧
    (∀ a0 a1 a2, crypto_aes_gcm_update_aad a0 a1 a2 = TEE_ERROR_NOT_IMPLEMENTED) ∧
    (∀ a0 a1 a2 a3 a4, crypto_aes_gcm_update_payload a0 a1 a2 a3 a4 = TEE_ERROR_NOT_IMPLEMENTED) ∧
    (∀ a0 a1 a2 a3 a4 a5, crypto_aes_gcm_enc_final a0 a1 a2 a3 a4 a5 = TEE_ERROR_NOT_IMPLEMENTED) ∧
    (∀ a0 a1 a2 a3 a4 a5,
      crypto_aes_gcm_dec_final a0 a1 a2 a3 a4 a5
        = TEE_ERROR_NOT_IMPLEMENTED) := by
  refine
    ⟨?_, ?_, ?_, ?_, ?_, ?_, ?_, ?_, ?_, ?_, ?_, ?_, ?_, ?_, ?_, ?_, ?_, ?_, ?_, ?_,
    ?_, ?_, ?_, ?_, ?_, ?_, ?_, ?_, ?_, ?_, ?_, ?_, ?_, ?_, ?_, ?_, ?_⟩
  all_goals intros
  all_goals rfl


/-! ## C18: `crypto_rng_add_entropy` and later reads -/

/-- C18: `crypto_rng_add_entropy` returns with the static `next` as it found it, having
written no byte; so `crypto_rng_read`, whose result and bytes are computed from `next`
and `blen`, gives after a `crypto_rng_add_entropy` call what it gives without one. -/
theorem C18_add_entropy_no_effect (L : Nat) (R : RngBackend) (rcfg : RngConfig)
    (inbuf : Option Blob) (len blen next : Nat) :
    ∃ res calls,
      crypto_rng_add_entropy R inbuf len next = .ret ⟨res, [], next⟩ calls ∧
      ∀ r cs, crypto_rng_add_entropy R inbuf len next = .ret r cs →
        r.next = next ∧
        crypto_rng_read L R rcfg blen r.next = crypto_rng_read L R rcfg blen next := by
  unfold crypto_rng_add_entropy
  split_ifs with h
  · exact ⟨_, _, rfl, fun r cs hr => by cases hr; exact ⟨rfl, rfl⟩⟩
  · exact ⟨_, _, rfl, fun r cs hr => by cases hr; exact ⟨rfl, rfl⟩⟩

/-- C18 at a concrete call: 16 bytes of entropy added with `next = 1`. -/
theorem C18_add_entropy_no_effect_witness :
    ∃ res calls,
      crypto_rng_add_entropy sample_rng_backend (some (zero_block 16)) 16 1
        = .ret ⟨res, [], 1⟩ calls :=
  (C18_add_entropy_no_effect 64 sample_rng_backend rcfg_ctr (some (zero_block 16)) 16 8
    1).elim fun res h => h.elim fun calls hc => ⟨res, calls, hc.1⟩


/-! ## C19: the key width computed in `crypto_cipher_init` -/

/-- Without wrap-around of `key1_len * 8`, `crypto_cipher_init` for AES-ECB, AES-CBC and
AES-CTR on a non-null context returns `TEE_ERROR_NOT_SUPPORTED` before any backend call
unless `key1_len` is 16, 24 or 32. -/
theorem crypto_cipher_init_aes_key_len_no_wrap (W : Nat) (B : Backend) (cfg : Config)
    (c : Blob) (algo : Nat) (mode : TEE_OperationMode) (key1 : Blob) (key1_len : Nat)
    (iv : Option Blob) (iv_len : Nat)
    (halgo : algo = TEE_ALG_AES_ECB_NOPAD ∨ algo = TEE_ALG_AES_CBC_NOPAD ∨
      algo = TEE_ALG_AES_CTR)
    (hwrap : key1_len * 8 < 2 ^ W)
    (hlen : key1_len ≠ 16 ∧ key1_len ≠ 24 ∧ key1_len ≠ 32) :
    crypto_cipher_init W B cfg (some c) algo mode key1 key1_len iv iv_len
      = .ret ⟨TEE_ERROR_NOT_SUPPORTED, some c⟩ [] := by
  have h128 : key1_len * 8 ≠ 128 := by omega
  have h192 : key1_len * 8 ≠ 192 := by omega
  have h256 : key1_len * 8 ≠ 256 := by omega
  have hinfo : tee_algo_to_mbedtls_cipher_info B cfg algo (key1_len * 8) = none := by
    unfold tee_algo_to_mbedtls_cipher_info tee_algo_to_mbedtls_cipher_info_string
    rcases halgo with rfl | rfl | rfl <;> cases cfg.CFG_CRYPTO_AES <;>
      simp [h128, h192, h256]
  unfold crypto_cipher_init
  rw [Nat.mod_eq_of_lt hwrap]
  simp [hinfo]

/-- C19, the failing input: with a 64-bit `size_t`, AES compiled in and
`key1_len = 2^61 + 16`, the product `key1_len * 8` wraps to 128, the descriptor
`AES-128-ECB` is resolved and `crypto_cipher_init` goes on to the backend setup, set-key
and reset and returns `TEE_SUCCESS`, although `key1_len` is none of 16, 24 and 32; the
same happens with a 32-bit `size_t` at `key1_len = 2^29 + 16`. -/
theorem C19_key_len_wraps :
    2305843009213693968 < 2 ^ 64 ∧
    (2305843009213693968 * 8) % 2 ^ 64 = 128 ∧
    crypto_cipher_init 64 sample_backend cfg_all (some (zero_block 64))
        TEE_ALG_AES_ECB_NOPAD TEE_OperationMode.TEE_MODE_ENCRYPT (zero_block 16)
        2305843009213693968 none 0
      = .ret ⟨TEE_SUCCESS, some (zero_block 64)⟩
          [Call.mbedtls_cipher_setup_info, Call.mbedtls_cipher_setkey,
           Call.mbedtls_cipher_reset] ∧
    536870928 < 2 ^ 32 ∧
    crypto_cipher_init 32 sample_backend cfg_all (some (zero_block 64))
        TEE_ALG_AES_ECB_NOPAD TEE_OperationMode.TEE_MODE_ENCRYPT (zero_block 16)
        536870928 none 0
      = .ret ⟨TEE_SUCCESS, some (zero_block 64)⟩
          [Call.mbedtls_cipher_setup_info, Call.mbedtls_cipher_setkey,
           Call.mbedtls_cipher_reset] := by
  decide

/-! ## C20: the ECB loop -/

/-- The ECB loop on `m` whole blocks, with every backend update succeeding and writing
`b` bytes: it ends after `m` update calls, having run block by block. -/
theorem ecb_loop_blocks (W : Nat) (B : Backend) (b : Nat) (data : Blob) (hb : 0 < b)
    (hupd : ∀ c d, (B.mbedtls_cipher_update c d).1 = 0 ∧
      (B.mbedtls_cipher_update c d).2.2.length = b) :
    ∀ (m fuel k : Nat) (c dst : Blob) (calls : List Call),
      m ≤ fuel → m * b < 2 ^ W →
      ecb_loop W B b data fuel c (k * b) (m * b) dst calls
        = some (.inl ((ecb_blocks B b data m k c dst).1, (ecb_blocks B b data m k c dst).2,
            calls ++ List.replicate m Call.mbedtls_cipher_update)) := by
  intro m
  induction m with
  | zero =>
    intro fuel k c dst calls _ _
    cases fuel <;> simp [ecb_loop, ecb_blocks]
  | succ n ih =>
    intro fuel k c dst calls hfuel hlt
    cases fuel with
    | zero => omega
    | succ f =>
      have hne : (n + 1) * b ≠ 0 := Nat.mul_ne_zero (Nat.succ_ne_zero n) (by omega)
      have hexp : (n + 1) * b = n * b + b := by ring
      have hblt : b < 2 ^ W := by omega
      have hnlt : n * b < 2 ^ W := by omega
      have hlen : ((n + 1) * b + 2 ^ W - b % 2 ^ W) % 2 ^ W = n * b := by
        rw [Nat.mod_eq_of_lt hblt, hexp]
        have : n * b + b + 2 ^ W - b = n * b + 2 ^ W := by omega
        rw [this, Nat.add_mod_right, Nat.mod_eq_of_lt hnlt]
      have hpos : k * b + b = (k + 1) * b := by ring
      unfold ecb_loop
      simp only [hne, if_false, (hupd c _).1, (hupd c _).2, ne_eq, not_true_eq_false, hlen,
        hpos]
      rw [ih f (k + 1) _ _ _ (by omega) hnlt]
      simp [ecb_blocks, List.replicate_succ]

/-- What `crypto_cipher_update` does for the ECB identifiers, compiled in, on a context
of block size `b > 0` when every backend update succeeds and writes `b` bytes and
`len = n * b`: for `n > 0` it returns `TEE_SUCCESS` after exactly `n` backend update
calls, block `i` read from and written at `i * b`; for `n = 0` it makes no backend
update call and its result depends on the unset local `lmd_res`. -/
theorem crypto_cipher_update_ecb_blocks (W : Nat) (B : Backend) (cfg : Config)
    (fuel : Nat) (lmd_res0 : Int) (c : Blob) (algo : Nat) (data : Blob) (n : Nat)
    (dst : Blob)
    (hcfg : cfg.CFG_CRYPTO_ECB = true)
    (halgo : algo = TEE_ALG_AES_ECB_NOPAD ∨ algo = TEE_ALG_DES_ECB_NOPAD ∨
      algo = TEE_ALG_DES3_ECB_NOPAD)
    (hb : 0 < B.mbedtls_cipher_get_block_size c)
    (hupd : ∀ c' d, (B.mbedtls_cipher_update c' d).1 = 0 ∧
      (B.mbedtls_cipher_update c' d).2.2.length = B.mbedtls_cipher_get_block_size c)
    (hfuel : n ≤ fuel) (hlt : n * B.mbedtls_cipher_get_block_size c < 2 ^ W) :
    crypto_cipher_update W B cfg fuel lmd_res0 (some c) algo data
        (n * B.mbedtls_cipher_get_block_size c) dst
      = some (.ret
          ⟨if n = 0 ∧ lmd_res0 ≠ 0 then TEE_ERROR_BAD_STATE else TEE_SUCCESS,
            some (ecb_blocks B (B.mbedtls_cipher_get_block_size c) data n 0 c dst).1,
            (ecb_blocks B (B.mbedtls_cipher_get_block_size c) data n 0 c dst).2⟩
          (Call.mbedtls_cipher_get_block_size ::
            List.replicate n Call.mbedtls_cipher_update)) := by
  have hb0 : B.mbedtls_cipher_get_block_size c ≠ 0 := Nat.pos_iff_ne_zero.mp hb
  have hloop := ecb_loop_blocks W B (B.mbedtls_cipher_get_block_size c) data hb hupd n fuel
    0 c dst [Call.mbedtls_cipher_get_block_size] hfuel hlt
  rw [Nat.zero_mul] at hloop
  unfold crypto_cipher_update
  simp only [hcfg, halgo, and_self, if_true, hb0, if_false, Nat.mul_mod_left, ne_eq,
    not_true_eq_false, hloop, Nat.mul_eq_zero, or_false]
  split_ifs <;> simp

/-- C20, the failing input: for AES-ECB with every switch on, a context of block size 16
and `len = 0` (a multiple of 16), `crypto_cipher_update` makes no backend update call
and then tests the local `lmd_res`, which was never set: with a non-zero value there it
returns `TEE_ERROR_BAD_STATE`, with zero `TEE_SUCCESS`. -/
theorem C20_ecb_len_zero :
    crypto_cipher_update 64 sample_backend cfg_all 4 1 (some (16 :: zero_block 63))
        TEE_ALG_AES_ECB_NOPAD [] 0 []
      = some (.ret ⟨TEE_ERROR_BAD_STATE, some (16 :: zero_block 63), []⟩
          [Call.mbedtls_cipher_get_block_size]) ∧
    crypto_cipher_update 64 sample_backend cfg_all 4 0 (some (16 :: zero_block 63))
        TEE_ALG_AES_ECB_NOPAD [] 0 []
      = some (.ret ⟨TEE_SUCCESS, some (16 :: zero_block 63), []⟩
          [Call.mbedtls_cipher_get_block_size]) := by
  decide


/-! ## C22: the two tables of enabled cipher identifiers -/

/-- Apart from `TEE_ALG_AES_CBC_NOPAD`, and for that identifier when `CFG_CRYPTO_ECB`
and `CFG_CRYPTO_CBC` are both on or both off, `cipher_get_ctx_size` returns
`TEE_SUCCESS` exactly when the dispatch `switch` of `crypto_cipher_alloc_ctx` reaches
the descriptor lookup. -/
theorem cipher_tables_agree (B : Backend) (cfg : Config) (algo : Nat)
    (h : algo ≠ TEE_ALG_AES_CBC_NOPAD ∨ cfg.CFG_CRYPTO_ECB = cfg.CFG_CRYPTO_CBC) :
    size_result (cipher_get_ctx_size B cfg algo) = TEE_SUCCESS ↔
      (cipher_alloc_switch B cfg algo).isSome = true := by
  by_cases h0 : algo = TEE_ALG_AES_ECB_NOPAD
  · rw [h0] at h ⊢
    cases hE : cfg.CFG_CRYPTO_ECB <;> cases hC : cfg.CFG_CRYPTO_CBC <;>
      simp [cipher_get_ctx_size, cipher_alloc_switch, hE, hC, size_result] at h ⊢
  by_cases h1 : algo = TEE_ALG_AES_CBC_NOPAD
  · rw [h1] at h ⊢
    cases hE : cfg.CFG_CRYPTO_ECB <;> cases hC : cfg.CFG_CRYPTO_CBC <;>
      simp [cipher_get_ctx_size, cipher_alloc_switch, hE, hC, size_result] at h ⊢
  by_cases h2 : algo = TEE_ALG_AES_CTR
  · rw [h2] at h ⊢
    cases hE : cfg.CFG_CRYPTO_ECB <;> cases hC : cfg.CFG_CRYPTO_CBC <;>
      simp [cipher_get_ctx_size, cipher_alloc_switch, hE, hC, size_result] at h ⊢ <;>
      (try split_ifs) <;> simp_all
  by_cases h3 : algo = TEE_ALG_AES_XTS
  · rw [h3] at h ⊢
    cases hE : cfg.CFG_CRYPTO_ECB <;> cases hC : cfg.CFG_CRYPTO_CBC <;>
      simp [cipher_get_ctx_size, cipher_alloc_switch, hE, hC, size_result] at h ⊢
  by_cases h4 : algo = TEE_ALG_AES_CTS
  · rw [h4] at h ⊢
    cases hE : cfg.CFG_CRYPTO_ECB <;> cases hC : cfg.CFG_CRYPTO_CBC <;>
      simp [cipher_get_ctx_size, cipher_alloc_switch, hE, hC, size_result] at h ⊢
  by_cases h5 : algo = TEE_ALG_DES_ECB_NOPAD
  · rw [h5] at h ⊢
    cases hE : cfg.CFG_CRYPTO_ECB <;> cases hC : cfg.CFG_CRYPTO_CBC <;>
      simp [cipher_get_ctx_size, cipher_alloc_switch, hE, hC, size_result] at h ⊢
  by_cases h6 : algo = TEE_ALG_DES3_ECB_NOPAD
  · rw [h6] at h ⊢
    cases hE : cfg.CFG_CRYPTO_ECB <;> cases hC : cfg.CFG_CRYPTO_CBC <;>
      simp [cipher_get_ctx_size, cipher_alloc_switch, hE, hC, size_result] at h ⊢
  by_cases h7 : algo = TEE_ALG_DES_CBC_NOPAD
  · rw [h7] at h ⊢
    cases hE : cfg.CFG_CRYPTO_ECB <;> cases hC : cfg.CFG_CRYPTO_CBC <;>
      simp [cipher_get_ctx_size, cipher_alloc_switch, hE, hC, size_result] at h ⊢
  by_cases h8 : algo = TEE_ALG_DES3_CBC_NOPAD
  · rw [h8] at h ⊢
    cases hE : cfg.CFG_CRYPTO_ECB <;> cases hC : cfg.CFG_CRYPTO_CBC <;>
      simp [cipher_get_ctx_size, cipher_alloc_switch, hE, hC, size_result] at h ⊢
  simp [cipher_get_ctx_size, cipher_alloc_switch, size_result, *]

/-- C22, the failing inputs: with `CFG_CRYPTO_CBC` on and `CFG_CRYPTO_ECB` off, the
dispatch `switch` of `crypto_cipher_alloc_ctx` accepts `TEE_ALG_AES_CBC_NOPAD` and finds
its descriptor, but `cipher_get_ctx_size` rejects it, so that `crypto_cipher_alloc_ctx`
returns `TEE_ERROR_NOT_SUPPORTED`; with `CFG_CRYPTO_ECB` on and `CFG_CRYPTO_CBC` off,
`cipher_get_ctx_size` returns `TEE_SUCCESS` for it while the dispatch `switch` rejects
it. -/
theorem C22_tables_disagree :
    cipher_alloc_switch sample_backend cfg_cbc_only TEE_ALG_AES_CBC_NOPAD = some (some 4) ∧
    size_result (cipher_get_ctx_size sample_backend cfg_cbc_only TEE_ALG_AES_CBC_NOPAD)
      = TEE_ERROR_NOT_SUPPORTED ∧
    crypto_cipher_alloc_ctx sample_backend cfg_cbc_only true TEE_ALG_AES_CBC_NOPAD
      = .ret ⟨TEE_ERROR_NOT_SUPPORTED, none⟩ [] ∧
    size_result (cipher_get_ctx_size sample_backend cfg_ecb_only TEE_ALG_AES_CBC_NOPAD)
      = TEE_SUCCESS ∧
    cipher_alloc_switch sample_backend cfg_ecb_only TEE_ALG_AES_CBC_NOPAD = none := by
  decide


/-! ## C21: `_rand` and `mbd_rand` -/

/-- The loop of `mbd_rand` with nothing left to write. -/
theorem mbd_rand_loop_zero (L : Nat) (w : Blob) (next : Nat) :
    mbd_rand_loop L w 0 next = (w, next) := by
  rw [mbd_rand_loop]
  simp

/-- One iteration of the loop of `mbd_rand`. -/
theorem mbd_rand_loop_pos (L : Nat) (w : Blob) (len next : Nat) (h : len ≠ 0) :
    mbd_rand_loop L w len next
      = mbd_rand_loop L
          (w ++ (int_bytes (_rand L next).1).take (if len > 4 then 4 else len))
          (len - (if len > 4 then 4 else len)) (_rand L next).2 := by
  rw [mbd_rand_loop]
  simp [h]

/-- The loop of `mbd_rand` appends to what is already written. -/
theorem mbd_rand_loop_acc (L : Nat) :
    ∀ (len : Nat) (w : Blob) (next : Nat),
      mbd_rand_loop L w len next
        = (w ++ (mbd_rand_loop L [] len next).1, (mbd_rand_loop L [] len next).2) := by
  intro len
  induction len using Nat.strong_induction_on with
  | _ len ih =>
    intro w next
    by_cases h : len = 0
    · subst h
      simp [mbd_rand_loop_zero]
    · have hlt : len - (if len > 4 then 4 else len) < len := by split <;> omega
      rw [mbd_rand_loop_pos L w len next h, mbd_rand_loop_pos L [] len next h,
        ih _ hlt (w ++ _), ih _ hlt ([] ++ _)]
      simp

/-- The value `_rand` returns is below 32768. -/
theorem _rand_lt (L next : Nat) : (_rand L next).1 < 32768 := by
  unfold _rand
  exact Nat.mod_lt _ (by decide)

/-- The four bytes of a value below 32768 encode it. -/
theorem int_of_bytes_int_bytes (v : Nat) (h : v < 32768) : int_of_bytes (int_bytes v) = v := by
  simp only [int_bytes, int_of_bytes]
  omega

/-- The loop of `mbd_rand` from an empty output: `len` bytes, one `_rand` call for every
group of up to 4 bytes, and every complete group the bytes of the value of its call. -/
theorem mbd_rand_loop_spec (L : Nat) :
    ∀ (len next : Nat),
      (mbd_rand_loop L [] len next).1.length = len ∧
      (mbd_rand_loop L [] len next).2 = rand_state L next ((len + 3) / 4) ∧
      ∀ i, 4 * i + 4 ≤ len →
        ((mbd_rand_loop L [] len next).1.drop (4 * i)).take 4
          = int_bytes (_rand L (rand_state L next i)).1 := by
  intro len
  induction len using Nat.strong_induction_on with
  | _ len ih =>
    intro next
    by_cases h : len = 0
    · subst h
      refine ⟨by simp [mbd_rand_loop_zero], by simp [mbd_rand_loop_zero, rand_state], ?_⟩
      intro i hi
      omega
    · rw [mbd_rand_loop_pos L [] len next h, mbd_rand_loop_acc]
      by_cases h4 : len > 4
      · have hlt : len - 4 < len := by omega
        obtain ⟨hl, hn, hg⟩ := ih (len - 4) hlt (_rand L next).2
        have hk : (len + 3) / 4 = (len - 4 + 3) / 4 + 1 := by omega
        simp only [h4, if_true, List.nil_append]
        have hib : (int_bytes (_rand L next).1).take 4 = int_bytes (_rand L next).1 := rfl
        rw [hib]
        refine ⟨?_, ?_, ?_⟩
        · simp only [List.length_append, hl]
          simp only [int_bytes, List.length_cons, List.length_nil]
          omega
        · rw [hn, hk]
          rfl
        · intro i hi
          cases i with
          | zero =>
            simp [int_bytes, rand_state]
          | succ j =>
            have hd : (int_bytes (_rand L next).1 ++
                (mbd_rand_loop L [] (len - 4) (_rand L next).2).1).drop (4 * (j + 1))
                = (mbd_rand_loop L [] (len - 4) (_rand L next).2).1.drop (4 * j) := by
              have : 4 * (j + 1) = (int_bytes (_rand L next).1).length + 4 * j := by
                simp [int_bytes]
                omega
              rw [this, List.drop_append]
            rw [hd, hg j (by omega)]
            rfl
      · have hle : len ≤ 4 := by omega
        have hk : (len + 3) / 4 = 1 := by omega
        simp only [h4, if_false, List.nil_append, Nat.sub_self, mbd_rand_loop_zero,
          List.append_nil]
        refine ⟨?_, ?_, ?_⟩
        · simp only [List.length_take, int_bytes, List.length_cons, List.length_nil]
          omega
        · rw [hk]
          rfl
        · intro i hi
          have hi0 : i = 0 := by omega
          have hl4 : len = 4 := by omega
          subst hi0
          subst hl4
          simp [int_bytes, rand_state]

/-- C21: a `_rand` call replaces `next` by `(next * 1103515245 + 12345) mod 2^L`, `L`
the width of `unsigned long`, and returns `((next / 65536) mod 2^32) mod 32768` of the
new `next`, a value below 32768; for every `len`, `mbd_rand` (a total function) returns
0, writes exactly `len` bytes, calls `_rand` once for every group of up to 4 bytes,
gives the same whatever its `rng_state` argument, and every complete 4-byte group it
writes is the encoding of the value of its `_rand` call, an integer below 32768. -/
theorem C21_rand_and_mbd_rand (L next len : Nat) (s1 s2 : Option Blob) :
    (_rand L next).2 = (next * 1103515245 + 12345) % 2 ^ L ∧
    (_rand L next).1 = (_rand L next).2 / 65536 % 2 ^ 32 % 32768 ∧
    (_rand L next).1 < 32768 ∧
    (mbd_rand L s1 len next).1 = 0 ∧
    (mbd_rand L s1 len next).2.1.length = len ∧
    (mbd_rand L s1 len next).2.2 = rand_state L next ((len + 3) / 4) ∧
    mbd_rand L s1 len next = mbd_rand L s2 len next ∧
    ∀ i, 4 * i + 4 ≤ len →
      ((mbd_rand L s1 len next).2.1.drop (4 * i)).take 4
        = int_bytes (_rand L (rand_state L next i)).1 ∧
      int_of_bytes (((mbd_rand L s1 len next).2.1.drop (4 * i)).take 4) < 32768 := by
  obtain ⟨hl, hn, hg⟩ := mbd_rand_loop_spec L len next
  refine ⟨rfl, rfl, _rand_lt L next, rfl, hl, hn, rfl, ?_⟩
  intro i hi
  refine ⟨hg i hi, ?_⟩
  show int_of_bytes (((mbd_rand_loop L [] len next).1.drop (4 * i)).take 4) < 32768
  rw [hg i hi, int_of_bytes_int_bytes _ (_rand_lt L _)]
  exact _rand_lt L _

/-- The six bytes `mbd_rand` writes from `next = 1` with a 64-bit `unsigned long`: the
values 16838 and 5758 of the first two `_rand` calls, the second cut to two bytes. -/
theorem mbd_rand_six_bytes :
    mbd_rand 64 none 6 1 = (0, [198, 65, 0, 0, 126, 22], 1217759518843121895) := by
  simp [mbd_rand, mbd_rand_loop, _rand, int_bytes]

/-- C21 at a concrete call: six bytes asked for with `next = 1`. -/
theorem C21_rand_and_mbd_rand_witness :
    (mbd_rand 64 none 6 1).2.1.length = 6 ∧
    int_of_bytes (((mbd_rand 64 none 6 1).2.1.drop (4 * 0)).take 4) < 32768 :=
  ⟨(C21_rand_and_mbd_rand 64 1 6 none none).2.2.2.2.1,
   ((C21_rand_and_mbd_rand 64 1 6 none none).2.2.2.2.2.2.2 0 (by decide)).2⟩


end LmdProvider
